import Mathlib

/-!
Verification of the water-bottle sorting game engine.

This file shallowly embeds the Go implementation (`water_bottle_game.go`, and
`checkSolvabilityWithSearch` with its helpers from `water_bottle_test.go`)
and proves or refutes the specification claims about it.

Conventions of the embedding:
* Go `int` values are modelled as `Int`; Go slices as `List`.
* A bottle `Bottle = []Color` is a `List Int` whose *last* element is the top.
* Go's `map` iteration in `getAvailableColors` has unspecified (runtime
  randomized) order.  We model the map's key set as the deterministic
  first-occurrence list `availableColorsCanonical` and model an iteration
  order as a function `enum : List Int → List Int` applied to it; a run of
  the program corresponds to some choice of `enum` whose output is a
  permutation of its input.  Every operation that (transitively) reads the
  map takes `enum` as an argument.
* Go `/` and `%` on `int` truncate toward zero; every place the embedding
  divides, both operands are nonnegative on the paths the theorems talk
  about, where truncated and Euclidean division agree, so Lean's `Int`
  `/`/`%` (Euclidean) are used.
* The unbounded `for {}` fixed-point loop of `checkAndCollectBottles` is
  given explicit fuel; the third component of its result records whether it
  exited through its own `break` condition (`true`) rather than by running
  out of fuel.
-/

namespace WaterBottle

/-- Color is an integer tag; bag slots use `-1` for "no bag". -/
abbrev Color := Int

/-- Operation type from the source: user pours trigger bag collection,
internal pours do not. -/
inductive OpType where
  | user
  | internal
deriving DecidableEq, Repr

/-- A recorded reverse move (source `Move` struct). -/
structure Move where
  From : Int
  To : Int
  Amount : Int
  Color : Color
deriving DecidableEq, Repr

/-- The full game state (source `WaterBottleGame` struct).  The transient
`currentOperation` field is not modelled: `pourWithType` saves and restores
it around each call, so it has no observable effect on any operation
modelled here. -/
structure Game where
  bottles : List (List Color)
  jars : List (List Color)
  bags : List Color
  collected : List Bool
  N : Int
  M : Int
  J : Int
  K : Int
  JarCount : Int
  JarCapacity : Int
  UseBags : Bool
  emptyCount : Int
  emptyJarCount : Int
  reverseSteps : List Move
deriving DecidableEq, Repr

/-- Length of a list as an `Int` (Go `len`). -/
def lenI (l : List α) : Int := (l.length : Int)

/-- Source helper `isSingleColor`: a bottle holds at most one distinct color. -/
def isSingleColor (b : List Color) : Bool :=
  match b with
  | [] => true
  | c :: rest => rest.all (fun x => x == c)

/-- Length of the maximal run of color `c` at the top (end) of a bottle;
this is the count computed by the `for j := len-1; ...; j--` scans in the
source. -/
def topRun (l : List Color) (c : Color) : Nat :=
  (l.reverse.takeWhile (fun x => x == c)).length

/-- Container addressed by global index `i`: bottles are `0..N-1`, jars are
`N..N+JarCount-1`. -/
def containerAt (g : Game) (i : Int) : List Color :=
  if i < g.N then g.bottles.getD i.toNat [] else g.jars.getD (i - g.N).toNat []

/-- Capacity of the container at global index `i`. -/
def capacityAt (g : Game) (i : Int) : Int :=
  if i < g.N then g.M else g.JarCapacity

/-- Replace the container at global index `i`. -/
def setContainerAt (g : Game) (i : Int) (b : List Color) : Game :=
  if i < g.N then { g with bottles := g.bottles.set i.toNat b }
  else { g with jars := g.jars.set (i - g.N).toNat b }

/-- Source `IsWon`, non-bag branch and bag branch.  The bag branch's
early-return scan over bottles paired with collected flags is
`isWonBagScan`: `none` models `return false`, `some (cc, cw)` carries
`collectedCount` and `completedBottleWater`. -/
def isWonBagScan (M : Int) : List (List Color) → List Bool → Option (Nat × Int)
  | [], _ => some (0, 0)
  | b :: bs, flags =>
    if flags.headD false then
      match isWonBagScan M bs flags.tail with
      | none => none
      | some (cc, cw) => some (cc + 1, cw)
    else if b.length ≠ 0 then
      if lenI b ≠ M ∨ isSingleColor b = false then none
      else
        match isWonBagScan M bs flags.tail with
        | none => none
        | some (cc, cw) => some (cc, cw + M)
    else isWonBagScan M bs flags.tail

/-- Source `IsWon`. -/
def IsWon (g : Game) : Bool :=
  if g.UseBags then
    match isWonBagScan g.M g.bottles g.collected with
    | none => false
    | some (cc, cw) => ((cc : Int) * g.M + cw == (g.N - g.J) * g.M)
  else
    (g.bottles.all fun b => b.isEmpty || ((lenI b == g.M) && isSingleColor b)) &&
    ((List.countP (fun b => !b.isEmpty) g.bottles : Int) == g.N - g.J)

/-- Bottles visible to the collection subsystem: in bag mode, collected
bottles are skipped (`if g.UseBags && g.collectedBottles[i] continue`). -/
def visibleBottles (g : Game) : List (List Color) :=
  (g.bottles.enum.filter fun p => !(g.UseBags && g.collected.getD p.1 false)).map (·.2)

/-- First-occurrence deduplication with structural fuel (the fuel is an
upper bound on the list length, so it never runs out). -/
def dedupFirstAux : Nat → List Color → List Color
  | 0, _ => []
  | _ + 1, [] => []
  | fuel + 1, c :: rest => c :: dedupFirstAux fuel (rest.filter fun x => x ≠ c)

/-- First-occurrence deduplication, used to fix a canonical listing of the
key set of the Go `map[Color]bool` built by `getAvailableColors`. -/
def dedupFirst (l : List Color) : List Color := dedupFirstAux l.length l

/-- Source `getAvailableColors`: the set of colors present in non-collected
bottles and in jars.  The Go function returns the map's keys in runtime
order; `enum` (a permutation at every call site we reason about) is applied
to this canonical first-occurrence listing to model that order. -/
def availableColorsCanonical (g : Game) : List Color :=
  dedupFirst ((visibleBottles g).flatten ++ g.jars.flatten)

/-- Source `getTotalWaterUnits`: units in non-collected bottles plus jars. -/
def getTotalWaterUnits (g : Game) : Nat :=
  ((visibleBottles g).map List.length).sum + (g.jars.map List.length).sum

/-- Source `updateBagColorsWithoutCollection`:
`maxBags = min(3, min(#available colors, totalWater / M))`; bag slot `i`
gets the `i`-th available color if `i < maxBags`, else `-1`. -/
def updateBagColorsWithoutCollection (enum : List Color → List Color) (g : Game) : Game :=
  let avail := enum (availableColorsCanonical g)
  let maxBagsByWater : Int := (getTotalWaterUnits g : Int) / g.M
  let maxBags : Int := min 3 (min (lenI avail) maxBagsByWater)
  { g with bags := (List.range 3).map fun i => if (Int.ofNat i) < maxBags then avail.getD i 0 else -1 }

/-- Source `initializeBags`: slots `0..2` get the first up-to-3 available
colors, `-1` otherwise (no water-quota cap here, unlike the update). -/
def initBags (enum : List Color → List Color) (g : Game) : Game :=
  let avail := enum (availableColorsCanonical g)
  { g with bags := (List.range 3).map fun i => if i < avail.length then avail.getD i 0 else -1 }

/-- Indices of bottles collectable in the current pass of
`checkAndCollectBottles`: not yet collected, full, single-colored, and
matched by some active bag. -/
def collectableBottles (g : Game) : List Nat :=
  ((g.bottles.enum.filter fun p =>
      !g.collected.getD p.1 false &&
      (lenI p.2 == g.M) && isSingleColor p.2 &&
      g.bags.any fun bc => (bc ≥ 0 : Bool) && bc == p.2.headD 0).map (·.1))

/-- Retire the listed bottles: mark collected and clear contents (slots are
kept). -/
def applyCollect (g : Game) (idxs : List Nat) : Game :=
  idxs.foldl
    (fun g i => { g with collected := g.collected.set i true, bottles := g.bottles.set i [] }) g

/-- One pass of the `for {}` loop of `checkAndCollectBottles`: retire the
collectable bottles, then recompute the bag colors. -/
def collectPass (enum : List Color → List Color) (g : Game) : Game :=
  updateBagColorsWithoutCollection enum (applyCollect g (collectableBottles g))

/-- The `for {}` fixed-point loop of `checkAndCollectBottles`, with fuel.
A pass breaks the loop when it collected nothing and left the bag bindings
unchanged (the update runs before the check, as in the source).  Result:
(final state, anyCollected, exited-via-break). -/
def collectLoop (enum : List Color → List Color) : Nat → Game → Bool → Game × Bool × Bool
  | 0, g, acc => (g, acc, false)
  | fuel + 1, g, acc =>
    if collectableBottles g = [] ∧ (applyCollect g (collectableBottles g)).bags = (collectPass enum g).bags
    then (collectPass enum g, acc, true)
    else collectLoop enum fuel (collectPass enum g) (acc || !(collectableBottles g).isEmpty)

/-- Source `checkAndCollectBottles`.  The Go loop is unbounded; the fuel
`2 * #bottles + 4` is immaterial to the theorems below, which either track
the exited-via-break flag or evaluate on concrete states. -/
def checkAndCollectBottles (enum : List Color → List Color) (g : Game) : Game × Bool × Bool :=
  if g.UseBags = false then (g, false, true)
  else collectLoop enum (2 * g.bottles.length + 4) g false

/-- Result of a pour: the returned `(bool, int)` pair plus the state the
receiver was left in. -/
structure PourOut where
  ok : Bool
  moved : Int
  st : Game
deriving DecidableEq, Repr

/-- Go local `topColor`: the source's top (last) unit. -/
def topColorOf (g : Game) (fromC : Int) : Color := (containerAt g fromC).getLastD 0

/-- Go local `pourAmount = min(availableAmount, targetSpace)`: the top-run
length of the source capped by the destination's free space. -/
def pourAmt (g : Game) (fromC toC : Int) : Int :=
  min ((topRun (containerAt g fromC) (topColorOf g fromC) : Nat) : Int)
    (capacityAt g toC - lenI (containerAt g toC))

/-- The source container after the transfer: top `pourAmount` units removed. -/
def fromAfter (g : Game) (fromC toC : Int) : List Color :=
  (containerAt g fromC).take ((containerAt g fromC).length - (pourAmt g fromC toC).toNat)

/-- The destination container after the transfer: `pourAmount` units of the
source's top color appended. -/
def toAfter (g : Game) (fromC toC : Int) : List Color :=
  containerAt g toC ++ List.replicate (pourAmt g fromC toC).toNat (topColorOf g fromC)

/-- State after the transfer itself (destination written first, then the
source, as in the Go statement order). -/
def pourApplied (g : Game) (fromC toC : Int) : Game :=
  setContainerAt (setContainerAt g toC (toAfter g fromC toC)) fromC (fromAfter g fromC toC)

/-- The `wasFromEmpty` update of the source: the Go code tests
`len(*from) == pourAmount` on the *post-transfer* source, so the test fires
when the new length equals the moved amount, not when the source emptied. -/
def bumpFromCounter (g0 g : Game) (fromC toC : Int) : Game :=
  if fromC < g0.N then
    if lenI (fromAfter g0 fromC toC) = pourAmt g0 fromC toC then
      { g with emptyCount := g.emptyCount + 1 }
    else g
  else
    if lenI (fromAfter g0 fromC toC) = pourAmt g0 fromC toC then
      { g with emptyJarCount := g.emptyJarCount + 1 }
    else g

/-- The `wasToEmpty` update of the destination: `len(*to) == pourAmount` on
the post-transfer destination, which holds exactly when the destination was
empty before the pour. -/
def bumpToCounter (g0 g : Game) (fromC toC : Int) : Game :=
  if toC < g0.N then
    if lenI (toAfter g0 fromC toC) = pourAmt g0 fromC toC then
      { g with emptyCount := g.emptyCount - 1 }
    else g
  else
    if lenI (toAfter g0 fromC toC) = pourAmt g0 fromC toC then
      { g with emptyJarCount := g.emptyJarCount - 1 }
    else g

/-- State after transfer and both counter updates. -/
def pourCounted (g : Game) (fromC toC : Int) : Game :=
  bumpToCounter g (bumpFromCounter g (pourApplied g fromC toC) fromC toC) fromC toC

/-- Source `pourWithType`: the rejection checks in source order, then the
transfer, the empty-counter updates, and the bag-collection side effect for
user operations in bag mode. -/
def pourWithType (enum : List Color → List Color) (g : Game) (fromC toC : Int)
    (op : OpType) : PourOut :=
  if fromC < 0 ∨ fromC ≥ g.N + g.JarCount ∨ toC < 0 ∨ toC ≥ g.N + g.JarCount then
    ⟨false, 0, g⟩
  else if fromC = toC then ⟨false, 0, g⟩
  else if g.UseBags = true ∧
      ((fromC < g.N ∧ g.collected.getD fromC.toNat false = true) ∨
       (toC < g.N ∧ g.collected.getD toC.toNat false = true)) then
    ⟨false, 0, g⟩
  else if containerAt g fromC = [] then ⟨false, 0, g⟩
  else if lenI (containerAt g toC) ≥ capacityAt g toC then ⟨false, 0, g⟩
  else if containerAt g toC ≠ [] ∧ (containerAt g toC).getLastD 0 ≠ topColorOf g fromC then
    ⟨false, 0, g⟩
  else if pourAmt g fromC toC ≤ 0 then ⟨false, 0, g⟩
  else
    ⟨true, pourAmt g fromC toC,
      if g.UseBags = true ∧ op = OpType.user then
        (checkAndCollectBottles enum (pourCounted g fromC toC)).1
      else pourCounted g fromC toC⟩

/-- Source `Pour`: the user-facing entry point. -/
def Pour (enum : List Color → List Color) (g : Game) (fromC toC : Int) : PourOut :=
  pourWithType enum g fromC toC OpType.user

/-- Source `pourInternal`: pour without bag-collection side effects. -/
def pourInternal (enum : List Color → List Color) (g : Game) (fromC toC : Int) : PourOut :=
  pourWithType enum g fromC toC OpType.internal

/-- Well-formedness of a state: the slice lengths agree with the recorded
counts (Go would panic on the index accesses otherwise).  Nonnegativity of
`N` and `JarCount` is implied. -/
def WF (g : Game) : Prop :=
  (g.bottles.length : Int) = g.N ∧ (g.jars.length : Int) = g.JarCount

/-- True iff an `Except` is a success. -/
def exceptOk : Except ε α → Bool
  | .ok _ => true
  | .error _ => false

/-- Source `NewWaterBottleGame`: parameter validation in source order, then
construction.  `make([]Color, 3)` zero-initializes the bags to color `0`;
`initializeBags` then runs only in bag mode. -/
def newWaterBottleGame (enum : List Color → List Color)
    (N M J K JarCount JarCapacity : Int) (UseBags : Bool) : Except String Game :=
  if N ≤ J then .error "total bottles must be greater than empty bottles"
  else if K ≤ 0 then .error "number of colors must be positive"
  else if M ≤ 0 then .error "bottle capacity must be positive"
  else if JarCount < 0 then .error "jar count must be non-negative"
  else if 0 < JarCount ∧ JarCapacity ≤ 0 then .error "jar capacity must be positive when jars exist"
  else if (N - J) * M % M ≠ 0 then .error "total water volume must be divisible by bottle capacity"
  else
    let g : Game :=
      { bottles := List.replicate N.toNat []
        jars := List.replicate JarCount.toNat []
        bags := [0, 0, 0]
        collected := List.replicate N.toNat false
        N := N, M := M, J := J, K := K
        JarCount := JarCount, JarCapacity := JarCapacity, UseBags := UseBags
        emptyCount := J, emptyJarCount := JarCount, reverseSteps := [] }
    .ok (if UseBags then initBags enum g else g)

/-- Guard at the head of `generateInitialStateWithSteps` (and of
`generateRandomState`): reverse generation refuses to start when `K`
exceeds `maxPossibleColors = (N-J)*M / M`.  The rest of that function
consumes randomness and is not modelled. -/
def generateStepsParamCheck (g : Game) : Except String Unit :=
  if g.K > (g.N - g.J) * g.M / g.M then .error "unreasonable parameters" else .ok ()

/-- Inner loop of `createSolvedState`: fill `cnt` consecutive bottles
starting at `idx` with `M` units of color `c`, erroring (`none`) if the
index would pass `NJ = N - J`. -/
def fillRun (bottles : List (List Color)) (idx : Nat) (NJ : Int) :
    Nat → Nat → Color → Option (List (List Color) × Nat)
  | 0, _, _ => some (bottles, idx)
  | cnt + 1, M, c =>
    if (idx : Int) ≥ NJ then none
    else fillRun (bottles.set idx ((bottles.getD idx []) ++ List.replicate M c)) (idx + 1) NJ cnt M c

/-- Outer loop of `createSolvedState` over color ids `cid, cid+1, ...`
(`remaining` of them): each color gets `base` bottles plus one more for the
first `extra` colors. -/
def solveColors (bottles : List (List Color)) (idx : Nat) (NJ : Int) (base extra : Int)
    (M : Nat) (cid : Nat) : Nat → Option (List (List Color) × Nat)
  | 0 => some (bottles, idx)
  | r + 1 =>
    match fillRun bottles idx NJ (base + if (Int.ofNat cid) < extra then 1 else 0).toNat M
        (Int.ofNat cid) with
    | none => none
    | some (b1, idx1) => solveColors b1 idx1 NJ base extra M (cid + 1) r

/-- Tail loop of `createSolvedState`: reset `count` bottles starting at
index `i` to empty. -/
def clearCount (bottles : List (List Color)) (i : Nat) : Nat → List (List Color)
  | 0 => bottles
  | k + 1 => clearCount (bottles.set i []) (i + 1) k

/-- Source `createSolvedState`: partition the `N - J` filled bottles among
the `K` colors, first `(N-J) mod K` colors getting one extra bottle, each
filled with `M` units of its color; remaining bottles emptied; the empty
counter reset to `J`. -/
def createSolvedState (g : Game) : Option Game :=
  let base := (g.N - g.J) / g.K
  let extra := (g.N - g.J) % g.K
  match solveColors g.bottles 0 (g.N - g.J) base extra g.M.toNat 0 g.K.toNat with
  | none => none
  | some (b1, idx) =>
    some { g with bottles := clearCount b1 idx (g.N.toNat - idx), emptyCount := g.J }

/-- The layout the specification describes for the solved state, stated in
the spec's own terms: for each color in order, `base = NJ / K` full
single-color bottles (one extra for the first `NJ mod K` colors), followed
by `J` empty bottles. -/
def specSolvedLayout (NJ M J K : Nat) : List (List Color) :=
  ((List.range K).map fun c =>
    List.replicate (NJ / K + if c < NJ % K then 1 else 0) (List.replicate M (Int.ofNat c))).flatten
  ++ List.replicate J []

/-- Saved copy taken by `copyGameState` (source `GameState` struct):
bottles and jars only. -/
structure SavedState where
  bottles : List (List Color)
  jars : List (List Color)
deriving DecidableEq, Repr

/-- Source `copyGameState`. -/
def copyGameState (g : Game) : SavedState := ⟨g.bottles, g.jars⟩

/-- Source `restoreGameState`: put back the saved bottles and jars, then
recompute both empty counters by scanning. -/
def restoreGameState (g : Game) (s : SavedState) : Game :=
  { g with
    bottles := s.bottles
    jars := s.jars
    emptyCount := (List.countP (fun b => b.isEmpty) s.bottles : Int)
    emptyJarCount := (List.countP (fun b => b.isEmpty) s.jars : Int) }

/-- Replay loop of `validateReverseSteps`: apply `pourInternal(m.To, m.From)`
for each move in the order of the given list, stopping with `none` at the
first failed pour. -/
def replayLoop (enum : List Color → List Color) (g : Game) : List Move → Option Game
  | [] => some g
  | m :: rest =>
    if (pourInternal enum g m.To m.From).ok then
      replayLoop enum (pourInternal enum g m.To m.From).st rest
    else none

/-- Source `validateReverseSteps`: save the current (scrambled) state,
replay the recorded reverse steps in reverse order via internal forward
pours, require the result to satisfy `IsWon`, and on success restore the
saved state.  `none` models returning an error (in which case the Go
receiver is left mid-replay and the caller abandons the attempt). -/
def validateReverseSteps (enum : List Color → List Color) (g : Game) : Option Game :=
  let saved := copyGameState g
  match replayLoop enum g g.reverseSteps.reverse with
  | none => none
  | some gFinal => if IsWon gFinal then some (restoreGameState gFinal saved) else none

/-- Source `AddEmptyBottle`: refuse at the 30-bottle cap, otherwise append
an empty bottle and bump `N` and `emptyCount`. -/
def AddEmptyBottle (g : Game) : Bool × Game :=
  if g.N ≥ 30 then (false, g)
  else (true, { g with bottles := g.bottles ++ [[]], N := g.N + 1, emptyCount := g.emptyCount + 1 })

/-- Total units across bottles and jars (used for conservation arguments). -/
def totalUnits (g : Game) : Int :=
  (g.bottles.map lenI).sum + (g.jars.map lenI).sum

/-- Fold of user pours (the moves a player can make after setup). -/
def applyPours (enum : List Color → List Color) (g : Game) (ms : List (Int × Int)) : Game :=
  ms.foldl (fun g m => (Pour enum g m.1 m.2).st) g

/-- Source `isStateWon` (search helper from the test file): every nonempty
bottle full and single-colored, and exactly `N - J` of them. -/
def isStateWon (g : Game) (bottles : List (List Color)) : Bool :=
  (bottles.all fun b => b.isEmpty || ((lenI b == g.M) && isSingleColor b)) &&
  ((List.countP (fun b => !b.isEmpty) bottles : Int) == g.N - g.J)

/-- Source `tryPourInState` (search helper): a forward pour on a raw bottle
array, `none` on rejection. -/
def tryPourInState (M : Int) (bottles : List (List Color)) (f t : Nat) :
    Option (List (List Color)) :=
  let fromB := bottles.getD f []
  let toB := bottles.getD t []
  if fromB = [] then none
  else if lenI toB ≥ M then none
  else
    let topColor := fromB.getLastD 0
    if toB ≠ [] ∧ toB.getLastD 0 ≠ topColor then none
    else
      let amt : Int := min ((topRun fromB topColor : Nat) : Int) (M - lenI toB)
      if amt ≤ 0 then none
      else
        some ((bottles.set t (toB ++ List.replicate amt.toNat topColor)).set f
          (fromB.take (fromB.length - amt.toNat)))

/-- One BFS expansion of `checkSolvabilityWithSearch`: try every ordered
pair of distinct bottle indices, keeping the successful results in loop
order. -/
def expandState (M : Int) (cur : List (List Color)) (depth : Nat) :
    List (List (List Color) × Nat) :=
  ((List.range cur.length).map fun f =>
    (List.range cur.length).filterMap fun t =>
      if f = t then none
      else
        match tryPourInState M cur f t with
        | some nb => some (nb, depth + 1)
        | none => none).flatten

/-- The BFS loop of `checkSolvabilityWithSearch` with `maxDepth = 10` and
`maxStates = 1000`.  The loop is parameterized by the remaining budget
`fuel = maxStates - statesChecked` (so the Go guard `statesChecked <
maxStates` is `0 < fuel`, and each pop consumes one unit); on loop exit the
source returns `statesChecked < maxStates`, i.e. `0 < fuel`.  The Go dedup
key is an injective string signature of the bottle array; the visited set
is therefore modelled as a list of bottle arrays. -/
def searchLoop (g : Game) : Nat → List (List (List Color) × Nat) → List (List (List Color)) → Bool
  | fuel, [], _ => decide (0 < fuel)
  | 0, _ :: _, _ => false
  | fuel + 1, (cur, depth) :: rest, visited =>
    if isStateWon g cur then true
    else if depth ≥ 10 then searchLoop g fuel rest visited
    else if visited.contains cur then searchLoop g fuel rest visited
    else searchLoop g fuel (rest ++ expandState g.M cur depth) (cur :: visited)

/-- Source `checkSolvabilityWithSearch` (test file): bounded BFS from the
current bottle array, with the full `maxStates = 1000` budget. -/
def checkSolvabilityWithSearch (g : Game) : Bool :=
  searchLoop g 1000 [(g.bottles, 0)] []

/-- The same BFS loop instrumented with the explicit statesChecked counter
of the source (incremented once per popped state, before the win check); it
returns the result together with the final counter value, so a result of
(false, 1000) exhibits an exhausted budget. -/
def searchLoopCount (g : Game) : Nat → Nat →
    List (List (List Color) × Nat) → List (List (List Color)) → Bool × Nat
  | checked, fuel, [], _ => (decide (0 < fuel), checked)
  | checked, 0, _ :: _, _ => (false, checked)
  | checked, fuel + 1, (cur, depth) :: rest, visited =>
    if isStateWon g cur then (true, checked + 1)
    else if depth ≥ 10 then searchLoopCount g (checked + 1) fuel rest visited
    else if visited.contains cur then searchLoopCount g (checked + 1) fuel rest visited
    else searchLoopCount g (checked + 1) fuel (rest ++ expandState g.M cur depth)
      (cur :: visited)

/-- Prefix runner for the same BFS loop: perform exactly `n` pops (parking
unchanged if the queue empties, answering `Sum.inr true` on a win) and
return the machine state - queue, visited list and pop counter - reached,
so long concrete runs can be verified in bounded slices. -/
def runPops (g : Game) : Nat → List (List (List Color) × Nat) →
    List (List (List Color)) → Nat →
    (List (List (List Color) × Nat) × List (List (List Color)) × Nat) ⊕ Bool
  | 0, q, v, c => .inl (q, v, c)
  | _ + 1, [], v, c => .inl ([], v, c)
  | n + 1, (cur, depth) :: rest, v, c =>
    if isStateWon g cur then .inr true
    else if depth ≥ 10 then runPops g n rest v (c + 1)
    else if v.contains cur then runPops g n rest v (c + 1)
    else runPops g n (rest ++ expandState g.M cur depth) (cur :: v) (c + 1)

/-- The six rejection conditions of the specification (same container,
index out of range, retired container in bag mode, empty source, full
destination, color mismatch with nonempty destination), as a predicate on
the pre-pour state. -/
def rejectCond (g : Game) (fromC toC : Int) : Prop :=
  fromC = toC ∨
  (fromC < 0 ∨ fromC ≥ g.N + g.JarCount ∨ toC < 0 ∨ toC ≥ g.N + g.JarCount) ∨
  (g.UseBags = true ∧
    ((fromC < g.N ∧ g.collected.getD fromC.toNat false = true) ∨
     (toC < g.N ∧ g.collected.getD toC.toNat false = true))) ∨
  containerAt g fromC = [] ∨
  lenI (containerAt g toC) ≥ capacityAt g toC ∨
  (containerAt g toC ≠ [] ∧
    (containerAt g toC).getLastD 0 ≠ (containerAt g fromC).getLastD 0)

instance (g : Game) (fromC toC : Int) : Decidable (rejectCond g fromC toC) := by
  unfold rejectCond; infer_instance

/-- A non-bag game used in several concrete evaluations: two bottles of
capacity 2 holding one unit of color 0 each. -/
def twoSingles : Game :=
  { bottles := [[0], [0]], jars := [], bags := [0, 0, 0], collected := [false, false],
    N := 2, M := 2, J := 0, K := 1, JarCount := 0, JarCapacity := 0, UseBags := false,
    emptyCount := 0, emptyJarCount := 0, reverseSteps := [] }

/-- Non-bag game whose first bottle is `[1, 0]` (color 0 on top): pouring
`0 → 1` leaves the source nonempty at length 1 = pourAmount. -/
def mixedOverSingle : Game :=
  { bottles := [[1, 0], [0]], jars := [], bags := [0, 0, 0], collected := [false, false],
    N := 2, M := 2, J := 0, K := 2, JarCount := 0, JarCapacity := 0, UseBags := false,
    emptyCount := 0, emptyJarCount := 0, reverseSteps := [] }

/-- Bag-mode game in which a user pour `0 → 1` completes the destination
bottle with color 0, which the active color-0 bag immediately retires. -/
def bagClearsDest : Game :=
  { bottles := [[0], [0]], jars := [], bags := [0, -1, -1], collected := [false, false],
    N := 2, M := 2, J := 0, K := 1, JarCount := 0, JarCapacity := 0, UseBags := true,
    emptyCount := 0, emptyJarCount := 0, reverseSteps := [] }

/-- Bag-mode game in which the set of available colors has two elements, so
the bag bindings chosen by `updateBagColorsWithoutCollection` depend on the
map iteration order. -/
def bagOrderGame : Game :=
  { bottles := [[0], [1], []], jars := [], bags := [-1, -1, -1],
    collected := [false, false, false],
    N := 3, M := 2, J := 1, K := 2, JarCount := 0, JarCapacity := 0, UseBags := true,
    emptyCount := 1, emptyJarCount := 0, reverseSteps := [] }

/-- Bag-mode game with a completed color-0 bottle and a bag bound to color
1: a fixed point of `checkAndCollectBottles` when the map iteration yields
color 1 first, but not when it yields color 0 first. -/
def bagFlipGame : Game :=
  { bottles := [[0, 0], [1]], jars := [], bags := [1, -1, -1], collected := [false, false],
    N := 2, M := 2, J := 0, K := 2, JarCount := 0, JarCapacity := 0, UseBags := true,
    emptyCount := 0, emptyJarCount := 0, reverseSteps := [] }

/-- Five bottles of capacity 3 holding one unit of color 0 each: the
bounded BFS exhausts its 1000-state budget on this state without ever
finding a win, since a won state would need every one of the `N - J = 5`
nonempty bottles full (15 units) while only 5 units exist. -/
def searchBudgetGame : Game :=
  { bottles := [[0], [0], [0], [0], [0]], jars := [], bags := [0, 0, 0],
    collected := [false, false, false, false, false],
    N := 5, M := 3, J := 0, K := 1, JarCount := 0, JarCapacity := 0, UseBags := false,
    emptyCount := 0, emptyJarCount := 0, reverseSteps := [] }

set_option maxHeartbeats 4000000 in
/-- Queue contents of the bounded search on searchBudgetGame after 250 pops. -/
def sbQ250 : List (List (List Color) × Nat) :=
  [([[0], [], [0, 0, 0], [], [0]], 2),
  ([[0], [], [0, 0], [0], [0]], 2),
  ([[0], [], [0, 0], [], [0, 0]], 2),
  ([[0, 0, 0], [0], [], [], [0]], 2),
  ([[0], [0, 0, 0], [], [], [0]], 2),
  ([[0], [0], [], [0, 0], [0]], 2),
  ([[0], [0], [], [], [0, 0, 0]], 2),
  ([[0, 0], [0], [0, 0], [], []], 2),
  ([[0], [0, 0], [0, 0], [], []], 2),
  ([[0], [0], [0, 0, 0], [], []], 2),
  ([[0], [0], [0, 0], [0], []], 2),
  ([[], [0, 0], [0], [], [0, 0]], 2),
  ([[], [0], [0, 0], [], [0, 0]], 2),
  ([[], [0], [0], [0], [0, 0]], 2),
  ([[], [0], [0], [], [0, 0, 0]], 2),
  ([[0, 0], [], [0], [], [0, 0]], 2),
  ([[0], [], [0, 0], [], [0, 0]], 2),
  ([[0], [], [0], [0], [0, 0]], 2),
  ([[0], [], [0], [], [0, 0, 0]], 2),
  ([[0, 0], [0], [], [], [0, 0]], 2),
  ([[0], [0, 0], [], [], [0, 0]], 2),
  ([[0], [0], [], [0], [0, 0]], 2),
  ([[0], [0], [], [], [0, 0, 0]], 2),
  ([[0, 0, 0], [0], [0], [], []], 2),
  ([[0], [0, 0, 0], [0], [], []], 2),
  ([[0], [0], [0, 0, 0], [], []], 2),
  ([[0], [0], [0], [0, 0], []], 2),
  ([[], [0, 0, 0], [0], [0], []], 2),
  ([[], [0], [0, 0, 0], [0], []], 2),
  ([[], [0], [0], [0, 0, 0], []], 2),
  ([[], [0], [0], [0], [0, 0]], 2),
  ([[0, 0, 0], [], [0], [0], []], 2),
  ([[0, 0], [], [0, 0], [0], []], 2),
  ([[0, 0], [], [0], [0, 0], []], 2),
  ([[0, 0], [], [0], [0], [0]], 2),
  ([[0, 0, 0], [0], [], [0], []], 2),
  ([[0, 0], [0, 0], [], [0], []], 2),
  ([[0, 0], [0], [], [0, 0], []], 2),
  ([[0, 0], [0], [], [0], [0]], 2),
  ([[0, 0, 0], [0], [0], [], []], 2),
  ([[0, 0], [0, 0], [0], [], []], 2),
  ([[0, 0], [0], [0, 0], [], []], 2),
  ([[0, 0], [0], [0], [], [0]], 2),
  ([[], [0, 0, 0], [0], [0], []], 2),
  ([[], [0, 0], [0, 0], [0], []], 2),
  ([[], [0, 0], [0], [0, 0], []], 2),
  ([[], [0, 0], [0], [0], [0]], 2),
  ([[0, 0, 0], [], [0], [0], []], 2),
  ([[0], [], [0, 0, 0], [0], []], 2),
  ([[0], [], [0], [0, 0, 0], []], 2),
  ([[0], [], [0], [0], [0, 0]], 2),
  ([[0, 0], [0, 0], [], [0], []], 2),
  ([[0], [0, 0, 0], [], [0], []], 2),
  ([[0], [0, 0], [], [0, 0], []], 2),
  ([[0], [0, 0], [], [0], [0]], 2),
  ([[0, 0], [0, 0], [0], [], []], 2),
  ([[0], [0, 0, 0], [0], [], []], 2),
  ([[0], [0, 0], [0, 0], [], []], 2),
  ([[0], [0, 0], [0], [], [0]], 2),
  ([[], [0, 0], [0, 0], [0], []], 2),
  ([[], [0], [0, 0, 0], [0], []], 2),
  ([[], [0], [0, 0], [0, 0], []], 2),
  ([[], [0], [0, 0], [0], [0]], 2),
  ([[0, 0], [], [0, 0], [0], []], 2),
  ([[0], [], [0, 0, 0], [0], []], 2),
  ([[0], [], [0, 0], [0, 0], []], 2),
  ([[0], [], [0, 0], [0], [0]], 2),
  ([[0, 0, 0], [0], [], [0], []], 2),
  ([[0], [0, 0, 0], [], [0], []], 2),
  ([[0], [0], [], [0, 0, 0], []], 2),
  ([[0], [0], [], [0], [0, 0]], 2),
  ([[0, 0], [0], [0, 0], [], []], 2),
  ([[0], [0, 0], [0, 0], [], []], 2),
  ([[0], [0], [0, 0, 0], [], []], 2),
  ([[0], [0], [0, 0], [], [0]], 2),
  ([[], [0, 0], [0], [0, 0], []], 2),
  ([[], [0], [0, 0], [0, 0], []], 2),
  ([[], [0], [0], [0, 0, 0], []], 2),
  ([[], [0], [0], [0, 0], [0]], 2),
  ([[0, 0], [], [0], [0, 0], []], 2),
  ([[0], [], [0, 0], [0, 0], []], 2),
  ([[0], [], [0], [0, 0, 0], []], 2),
  ([[0], [], [0], [0, 0], [0]], 2),
  ([[0, 0], [0], [], [0, 0], []], 2),
  ([[0], [0, 0], [], [0, 0], []], 2),
  ([[0], [0], [], [0, 0, 0], []], 2),
  ([[0], [0], [], [0, 0], [0]], 2),
  ([[0, 0, 0], [0], [0], [], []], 2),
  ([[0], [0, 0, 0], [0], [], []], 2),
  ([[0], [0], [0, 0, 0], [], []], 2),
  ([[0], [0], [0], [], [0, 0]], 2),
  ([[0, 0, 0], [], [], [0], [0]], 3),
  ([[], [0, 0, 0], [], [0], [0]], 3),
  ([[], [], [0], [0, 0, 0], [0]], 3),
  ([[], [], [0], [0], [0, 0, 0]], 3),
  ([[0], [], [0, 0, 0], [], [0]], 3),
  ([[], [0], [0, 0, 0], [], [0]], 3),
  ([[], [], [0, 0, 0], [], [0, 0]], 3),
  ([[0], [], [0, 0, 0], [0], []], 3),
  ([[], [0], [0, 0, 0], [0], []], 3),
  ([[], [], [0, 0, 0], [0, 0], []], 3),
  ([[0], [], [], [0, 0, 0], [0]], 3),
  ([[], [0], [], [0, 0, 0], [0]], 3),
  ([[], [], [], [0, 0, 0], [0, 0]], 3),
  ([[0, 0, 0], [], [0], [], [0]], 3),
  ([[], [0, 0, 0], [0], [], [0]], 3),
  ([[], [], [0, 0, 0], [0], [0]], 3),
  ([[], [], [0], [0], [0, 0, 0]], 3),
  ([[0], [], [0], [0, 0, 0], []], 3),
  ([[], [0], [0], [0, 0, 0], []], 3),
  ([[], [], [0, 0], [0, 0, 0], []], 3),
  ([[0], [], [], [0], [0, 0, 0]], 3),
  ([[], [0], [], [0], [0, 0, 0]], 3),
  ([[], [], [], [0, 0], [0, 0, 0]], 3),
  ([[0], [], [0], [], [0, 0, 0]], 3),
  ([[], [0], [0], [], [0, 0, 0]], 3),
  ([[], [], [0, 0], [], [0, 0, 0]], 3),
  ([[0, 0, 0], [], [0], [0], []], 3),
  ([[], [0, 0, 0], [0], [0], []], 3),
  ([[], [], [0, 0, 0], [0], [0]], 3),
  ([[], [], [0], [0, 0, 0], [0]], 3),
  ([[0, 0, 0], [], [], [0], [0]], 3),
  ([[], [], [0, 0, 0], [0], [0]], 3),
  ([[], [0], [], [0, 0, 0], [0]], 3),
  ([[], [0], [], [0], [0, 0, 0]], 3),
  ([[0], [0, 0, 0], [], [], [0]], 3),
  ([[], [0, 0, 0], [0], [], [0]], 3),
  ([[], [0, 0, 0], [], [], [0, 0]], 3),
  ([[0], [0, 0, 0], [], [0], []], 3),
  ([[], [0, 0, 0], [0], [0], []], 3),
  ([[], [0, 0, 0], [], [0, 0], []], 3),
  ([[0, 0], [], [], [0, 0], [0]], 3),
  ([[], [], [0, 0], [0, 0], [0]], 3),
  ([[], [0], [], [0, 0, 0], [0]], 3),
  ([[], [], [], [0, 0], [0, 0, 0]], 3),
  ([[0, 0], [0, 0], [], [], [0]], 3),
  ([[], [0, 0, 0], [], [0], [0]], 3),
  ([[], [0, 0], [0, 0], [], [0]], 3),
  ([[], [0, 0], [], [], [0, 0, 0]], 3),
  ([[0], [0, 0], [], [0, 0], []], 3),
  ([[], [0, 0, 0], [], [0, 0], []], 3),
  ([[], [0, 0], [0], [0, 0], []], 3),
  ([[], [0, 0], [], [0, 0, 0], []], 3),
  ([[0, 0], [], [], [0], [0, 0]], 3),
  ([[], [], [0, 0], [0], [0, 0]], 3),
  ([[], [], [], [0, 0, 0], [0, 0]], 3),
  ([[], [0], [], [0], [0, 0, 0]], 3),
  ([[0], [0, 0], [], [], [0, 0]], 3),
  ([[], [0, 0, 0], [], [], [0, 0]], 3),
  ([[], [0, 0], [0], [], [0, 0]], 3),
  ([[], [0, 0], [], [], [0, 0, 0]], 3),
  ([[0, 0], [0, 0], [], [0], []], 3),
  ([[], [0, 0, 0], [], [0], [0]], 3),
  ([[], [0, 0], [0, 0], [0], []], 3),
  ([[], [0, 0], [], [0, 0, 0], []], 3),
  ([[0, 0, 0], [], [0], [], [0]], 3),
  ([[], [0], [0, 0, 0], [], [0]], 3),
  ([[], [], [0], [0, 0, 0], [0]], 3),
  ([[], [0], [0], [], [0, 0, 0]], 3),
  ([[0], [0, 0, 0], [], [], [0]], 3),
  ([[], [0, 0, 0], [], [0], [0]], 3),
  ([[], [0, 0, 0], [], [], [0, 0]], 3),
  ([[0], [0, 0, 0], [0], [], []], 3),
  ([[], [0, 0, 0], [0, 0], [], []], 3),
  ([[], [0, 0, 0], [0], [0], []], 3),
  ([[0, 0], [], [0, 0], [], [0]], 3),
  ([[], [0], [0, 0, 0], [], [0]], 3),
  ([[], [], [0, 0], [0, 0], [0]], 3),
  ([[], [], [0, 0], [], [0, 0, 0]], 3),
  ([[0, 0], [0, 0], [], [], [0]], 3),
  ([[], [0, 0, 0], [0], [], [0]], 3),
  ([[], [0, 0], [], [0, 0], [0]], 3),
  ([[], [0, 0], [], [], [0, 0, 0]], 3),
  ([[0], [0, 0], [0, 0], [], []], 3),
  ([[], [0, 0, 0], [0, 0], [], []], 3),
  ([[], [0, 0], [0, 0, 0], [], []], 3),
  ([[], [0, 0], [0, 0], [0], []], 3),
  ([[0, 0], [], [0], [], [0, 0]], 3),
  ([[], [], [0, 0, 0], [], [0, 0]], 3),
  ([[], [], [0], [0, 0], [0, 0]], 3),
  ([[], [0], [0], [], [0, 0, 0]], 3),
  ([[0], [0, 0], [], [], [0, 0]], 3),
  ([[], [0, 0, 0], [], [], [0, 0]], 3),
  ([[], [0, 0], [], [0], [0, 0]], 3),
  ([[], [0, 0], [], [], [0, 0, 0]], 3),
  ([[0, 0], [0, 0], [0], [], []], 3),
  ([[], [0, 0, 0], [0], [], [0]], 3),
  ([[], [0, 0], [0, 0, 0], [], []], 3),
  ([[], [0, 0], [0], [0, 0], []], 3),
  ([[0, 0, 0], [], [0], [0], []], 3),
  ([[], [0], [0, 0, 0], [0], []], 3),
  ([[], [0], [0], [0, 0, 0], []], 3),
  ([[], [], [0], [0], [0, 0, 0]], 3),
  ([[0], [0, 0, 0], [], [0], []], 3),
  ([[], [0, 0, 0], [], [0, 0], []], 3),
  ([[], [0, 0, 0], [], [0], [0]], 3),
  ([[0], [0, 0, 0], [0], [], []], 3),
  ([[], [0, 0, 0], [0, 0], [], []], 3),
  ([[], [0, 0, 0], [0], [], [0]], 3),
  ([[0, 0], [], [0, 0], [0], []], 3),
  ([[], [0], [0, 0, 0], [0], []], 3),
  ([[], [], [0, 0], [0, 0, 0], []], 3),
  ([[], [], [0, 0], [0], [0, 0]], 3),
  ([[0, 0], [0, 0], [], [0], []], 3),
  ([[], [0, 0, 0], [0], [0], []], 3),
  ([[], [0, 0], [], [0, 0, 0], []], 3),
  ([[], [0, 0], [], [0], [0, 0]], 3),
  ([[0], [0, 0], [0, 0], [], []], 3),
  ([[], [0, 0, 0], [0, 0], [], []], 3),
  ([[], [0, 0], [0, 0, 0], [], []], 3),
  ([[], [0, 0], [0, 0], [], [0]], 3),
  ([[0, 0], [], [0], [0, 0], []], 3),
  ([[], [], [0, 0, 0], [0, 0], []], 3),
  ([[], [0], [0], [0, 0, 0], []], 3),
  ([[], [], [0], [0, 0], [0, 0]], 3),
  ([[0], [0, 0], [], [0, 0], []], 3),
  ([[], [0, 0, 0], [], [0, 0], []], 3),
  ([[], [0, 0], [], [0, 0, 0], []], 3),
  ([[], [0, 0], [], [0, 0], [0]], 3),
  ([[0, 0], [0, 0], [0], [], []], 3),
  ([[], [0, 0, 0], [0], [0], []], 3),
  ([[], [0, 0], [0, 0, 0], [], []], 3),
  ([[], [0, 0], [0], [], [0, 0]], 3),
  ([[0, 0], [], [], [0, 0], [0]], 3),
  ([[], [0, 0], [], [0, 0], [0]], 3),
  ([[], [], [0], [0, 0, 0], [0]], 3),
  ([[], [], [], [0, 0], [0, 0, 0]], 3),
  ([[0, 0], [], [0, 0], [], [0]], 3),
  ([[], [0, 0], [0, 0], [], [0]], 3),
  ([[], [], [0, 0, 0], [0], [0]], 3),
  ([[], [], [0, 0], [], [0, 0, 0]], 3),
  ([[0], [], [0, 0], [0, 0], []], 3),
  ([[], [0], [0, 0], [0, 0], []], 3),
  ([[], [], [0, 0, 0], [0, 0], []], 3),
  ([[], [], [0, 0], [0, 0, 0], []], 3),
  ([[0, 0], [], [], [0], [0, 0]], 3),
  ([[], [0, 0], [], [0], [0, 0]], 3),
  ([[], [], [], [0, 0, 0], [0, 0]], 3),
  ([[], [], [0], [0], [0, 0, 0]], 3),
  ([[0], [], [0, 0], [], [0, 0]], 3),
  ([[], [0], [0, 0], [], [0, 0]], 3),
  ([[], [], [0, 0, 0], [], [0, 0]], 3),
  ([[], [], [0, 0], [], [0, 0, 0]], 3),
  ([[0, 0], [], [0, 0], [0], []], 3),
  ([[], [0, 0], [0, 0], [0], []], 3),
  ([[], [], [0, 0, 0], [0], [0]], 3),
  ([[], [], [0, 0], [0, 0, 0], []], 3),
  ([[0], [], [], [0, 0, 0], [0]], 3),
  ([[], [], [0], [0, 0, 0], [0]], 3),
  ([[], [], [], [0, 0, 0], [0, 0]], 3),
  ([[0, 0, 0], [0], [], [], [0]], 3),
  ([[], [0, 0, 0], [], [0], [0]], 3),
  ([[], [0], [0, 0, 0], [], [0]], 3),
  ([[], [0], [], [0], [0, 0, 0]], 3),
  ([[0], [0], [], [0, 0, 0], []], 3),
  ([[], [0, 0], [], [0, 0, 0], []], 3),
  ([[], [0], [0], [0, 0, 0], []], 3),
  ([[0], [], [], [0], [0, 0, 0]], 3),
  ([[], [], [0], [0], [0, 0, 0]], 3),
  ([[], [], [], [0, 0], [0, 0, 0]], 3),
  ([[0], [0], [], [], [0, 0, 0]], 3),
  ([[], [0, 0], [], [], [0, 0, 0]], 3),
  ([[], [0], [0], [], [0, 0, 0]], 3),
  ([[0, 0, 0], [0], [], [0], []], 3),
  ([[], [0, 0, 0], [], [0], [0]], 3),
  ([[], [0], [0, 0, 0], [0], []], 3),
  ([[], [0], [], [0, 0, 0], [0]], 3),
  ([[0], [], [0, 0, 0], [], [0]], 3),
  ([[], [], [0, 0, 0], [0], [0]], 3),
  ([[], [], [0, 0, 0], [], [0, 0]], 3),
  ([[0, 0, 0], [0], [], [], [0]], 3),
  ([[], [0, 0, 0], [0], [], [0]], 3),
  ([[], [0], [], [0, 0, 0], [0]], 3),
  ([[], [0], [0], [], [0, 0, 0]], 3),
  ([[0], [0], [0, 0, 0], [], []], 3),
  ([[], [0, 0], [0, 0, 0], [], []], 3),
  ([[], [0], [0, 0, 0], [0], []], 3),
  ([[0], [], [0, 0], [], [0, 0]], 3),
  ([[], [], [0, 0, 0], [], [0, 0]], 3),
  ([[], [], [0, 0], [0], [0, 0]], 3),
  ([[], [], [0, 0], [], [0, 0, 0]], 3),
  ([[0, 0], [0], [], [], [0, 0]], 3),
  ([[], [0, 0, 0], [], [], [0, 0]], 3),
  ([[], [0], [], [0, 0], [0, 0]], 3),
  ([[], [0], [0], [], [0, 0, 0]], 3),
  ([[0, 0], [0], [0, 0], [], []], 3),
  ([[], [0, 0, 0], [0, 0], [], []], 3),
  ([[], [0], [0, 0, 0], [], [0]], 3),
  ([[], [0], [0, 0], [0, 0], []], 3),
  ([[0], [], [0, 0, 0], [0], []], 3),
  ([[], [], [0, 0, 0], [0, 0], []], 3),
  ([[], [], [0, 0, 0], [0], [0]], 3),
  ([[0, 0, 0], [0], [], [0], []], 3),
  ([[], [0, 0, 0], [0], [0], []], 3),
  ([[], [0], [0], [0, 0, 0], []], 3),
  ([[], [0], [], [0], [0, 0, 0]], 3),
  ([[0], [0], [0, 0, 0], [], []], 3),
  ([[], [0, 0], [0, 0, 0], [], []], 3),
  ([[], [0], [0, 0, 0], [], [0]], 3),
  ([[0], [], [0, 0], [0, 0], []], 3),
  ([[], [], [0, 0, 0], [0, 0], []], 3),
  ([[], [], [0, 0], [0, 0, 0], []], 3),
  ([[], [], [0, 0], [0, 0], [0]], 3),
  ([[0, 0], [0], [], [0, 0], []], 3),
  ([[], [0, 0, 0], [], [0, 0], []], 3),
  ([[], [0], [0], [0, 0, 0], []], 3),
  ([[], [0], [], [0, 0], [0, 0]], 3),
  ([[0, 0], [0], [0, 0], [], []], 3),
  ([[], [0, 0, 0], [0, 0], [], []], 3),
  ([[], [0], [0, 0, 0], [0], []], 3),
  ([[], [0], [0, 0], [], [0, 0]], 3),
  ([[0], [], [], [0, 0], [0, 0]], 3),
  ([[], [0], [], [0, 0], [0, 0]], 3),
  ([[], [], [], [0, 0, 0], [0, 0]], 3),
  ([[], [], [], [0, 0], [0, 0, 0]], 3),
  ([[0, 0], [], [0], [], [0, 0]], 3),
  ([[], [0, 0], [0], [], [0, 0]], 3),
  ([[], [], [0, 0, 0], [], [0, 0]], 3),
  ([[], [], [0], [0], [0, 0, 0]], 3),
  ([[0, 0], [], [0], [0, 0], []], 3),
  ([[], [0, 0], [0], [0, 0], []], 3),
  ([[], [], [0, 0, 0], [0, 0], []], 3),
  ([[], [], [0], [0, 0, 0], [0]], 3),
  ([[0], [], [], [0, 0], [0, 0]], 3),
  ([[], [], [0], [0, 0], [0, 0]], 3),
  ([[], [], [], [0, 0, 0], [0, 0]], 3),
  ([[], [], [], [0, 0], [0, 0, 0]], 3),
  ([[0, 0], [0], [], [], [0, 0]], 3),
  ([[], [0, 0, 0], [], [], [0, 0]], 3),
  ([[], [0], [0, 0], [], [0, 0]], 3),
  ([[], [0], [], [0], [0, 0, 0]], 3),
  ([[0, 0], [0], [], [0, 0], []], 3),
  ([[], [0, 0, 0], [], [0, 0], []], 3),
  ([[], [0], [0, 0], [0, 0], []], 3),
  ([[], [0], [], [0, 0, 0], [0]], 3),
  ([[0], [], [0], [], [0, 0, 0]], 3),
  ([[], [], [0, 0], [], [0, 0, 0]], 3),
  ([[], [], [0], [0], [0, 0, 0]], 3),
  ([[0], [0], [], [], [0, 0, 0]], 3),
  ([[], [0, 0], [], [], [0, 0, 0]], 3),
  ([[], [0], [], [0], [0, 0, 0]], 3),
  ([[0, 0, 0], [0], [0], [], []], 3),
  ([[], [0, 0, 0], [0], [], [0]], 3),
  ([[], [0], [0, 0, 0], [], [0]], 3),
  ([[], [0], [0], [0, 0, 0], []], 3),
  ([[0], [], [0], [0, 0, 0], []], 3),
  ([[], [], [0, 0], [0, 0, 0], []], 3),
  ([[], [], [0], [0, 0, 0], [0]], 3),
  ([[0], [0], [], [0, 0, 0], []], 3),
  ([[], [0, 0], [], [0, 0, 0], []], 3),
  ([[], [0], [], [0, 0, 0], [0]], 3),
  ([[0, 0, 0], [0], [0], [], []], 3),
  ([[], [0, 0, 0], [0], [0], []], 3),
  ([[], [0], [0, 0, 0], [0], []], 3),
  ([[], [0], [0], [], [0, 0, 0]], 3),
  ([[], [0, 0, 0], [], [0], [0]], 3),
  ([[], [], [0, 0, 0], [0], [0]], 3),
  ([[0], [], [], [0, 0, 0], [0]], 3),
  ([[0], [], [], [0], [0, 0, 0]], 3),
  ([[0, 0, 0], [0], [], [], [0]], 3),
  ([[0, 0, 0], [], [0], [], [0]], 3),
  ([[0, 0, 0], [], [], [], [0, 0]], 3),
  ([[0, 0, 0], [0], [], [0], []], 3),
  ([[0, 0, 0], [], [0], [0], []], 3),
  ([[0, 0, 0], [], [], [0, 0], []], 3),
  ([[], [0, 0], [], [0, 0], [0]], 3),
  ([[], [], [0, 0], [0, 0], [0]], 3),
  ([[0], [], [], [0, 0, 0], [0]], 3),
  ([[], [], [], [0, 0], [0, 0, 0]], 3),
  ([[0, 0, 0], [], [], [0], [0]], 3),
  ([[0, 0], [0, 0], [], [], [0]], 3),
  ([[0, 0], [], [0, 0], [], [0]], 3),
  ([[0, 0], [], [], [], [0, 0, 0]], 3),
  ([[0, 0, 0], [], [], [0, 0], []], 3),
  ([[0, 0], [0], [], [0, 0], []], 3),
  ([[0, 0], [], [0], [0, 0], []], 3),
  ([[0, 0], [], [], [0, 0, 0], []], 3),
  ([[], [0, 0], [], [0], [0, 0]], 3),
  ([[], [], [0, 0], [0], [0, 0]], 3),
  ([[], [], [], [0, 0, 0], [0, 0]], 3),
  ([[0], [], [], [0], [0, 0, 0]], 3),
  ([[0, 0, 0], [], [], [], [0, 0]], 3),
  ([[0, 0], [0], [], [], [0, 0]], 3),
  ([[0, 0], [], [0], [], [0, 0]], 3),
  ([[0, 0], [], [], [], [0, 0, 0]], 3),
  ([[0, 0, 0], [], [], [0], [0]], 3),
  ([[0, 0], [0, 0], [], [0], []], 3),
  ([[0, 0], [], [0, 0], [0], []], 3),
  ([[0, 0], [], [], [0, 0, 0], []], 3),
  ([[], [0, 0, 0], [0], [], [0]], 3),
  ([[0], [], [0, 0, 0], [], [0]], 3),
  ([[], [], [0], [0, 0, 0], [0]], 3),
  ([[0], [], [0], [], [0, 0, 0]], 3),
  ([[0, 0, 0], [0], [], [], [0]], 3),
  ([[0, 0, 0], [], [], [0], [0]], 3),
  ([[0, 0, 0], [], [], [], [0, 0]], 3),
  ([[0, 0, 0], [0], [0], [], []], 3),
  ([[0, 0, 0], [], [0, 0], [], []], 3),
  ([[0, 0, 0], [], [0], [0], []], 3),
  ([[], [0, 0], [0, 0], [], [0]], 3),
  ([[0], [], [0, 0, 0], [], [0]], 3),
  ([[], [], [0, 0], [0, 0], [0]], 3),
  ([[], [], [0, 0], [], [0, 0, 0]], 3),
  ([[0, 0, 0], [], [0], [], [0]], 3),
  ([[0, 0], [0, 0], [], [], [0]], 3),
  ([[0, 0], [], [], [0, 0], [0]], 3),
  ([[0, 0], [], [], [], [0, 0, 0]], 3),
  ([[0, 0, 0], [], [0, 0], [], []], 3),
  ([[0, 0], [0], [0, 0], [], []], 3),
  ([[0, 0], [], [0, 0, 0], [], []], 3),
  ([[0, 0], [], [0, 0], [0], []], 3),
  ([[], [0, 0], [0], [], [0, 0]], 3),
  ([[], [], [0, 0, 0], [], [0, 0]], 3),
  ([[], [], [0], [0, 0], [0, 0]], 3),
  ([[0], [], [0], [], [0, 0, 0]], 3),
  ([[0, 0, 0], [], [], [], [0, 0]], 3),
  ([[0, 0], [0], [], [], [0, 0]], 3),
  ([[0, 0], [], [], [0], [0, 0]], 3),
  ([[0, 0], [], [], [], [0, 0, 0]], 3),
  ([[0, 0, 0], [], [0], [], [0]], 3),
  ([[0, 0], [0, 0], [0], [], []], 3),
  ([[0, 0], [], [0, 0, 0], [], []], 3),
  ([[0, 0], [], [0], [0, 0], []], 3),
  ([[], [0, 0, 0], [0], [0], []], 3),
  ([[0], [], [0, 0, 0], [0], []], 3),
  ([[0], [], [0], [0, 0, 0], []], 3),
  ([[], [], [0], [0], [0, 0, 0]], 3),
  ([[0, 0, 0], [0], [], [0], []], 3),
  ([[0, 0, 0], [], [], [0, 0], []], 3),
  ([[0, 0, 0], [], [], [0], [0]], 3),
  ([[0, 0, 0], [0], [0], [], []], 3),
  ([[0, 0, 0], [], [0, 0], [], []], 3),
  ([[0, 0, 0], [], [0], [], [0]], 3),
  ([[], [0, 0], [0, 0], [0], []], 3),
  ([[0], [], [0, 0, 0], [0], []], 3),
  ([[], [], [0, 0], [0, 0, 0], []], 3),
  ([[], [], [0, 0], [0], [0, 0]], 3),
  ([[0, 0, 0], [], [0], [0], []], 3),
  ([[0, 0], [0, 0], [], [0], []], 3),
  ([[0, 0], [], [], [0, 0, 0], []], 3),
  ([[0, 0], [], [], [0], [0, 0]], 3),
  ([[0, 0, 0], [], [0, 0], [], []], 3),
  ([[0, 0], [0], [0, 0], [], []], 3),
  ([[0, 0], [], [0, 0, 0], [], []], 3),
  ([[0, 0], [], [0, 0], [], [0]], 3),
  ([[], [0, 0], [0], [0, 0], []], 3),
  ([[], [], [0, 0, 0], [0, 0], []], 3),
  ([[0], [], [0], [0, 0, 0], []], 3),
  ([[], [], [0], [0, 0], [0, 0]], 3),
  ([[0, 0, 0], [], [], [0, 0], []], 3),
  ([[0, 0], [0], [], [0, 0], []], 3),
  ([[0, 0], [], [], [0, 0, 0], []], 3),
  ([[0, 0], [], [], [0, 0], [0]], 3),
  ([[0, 0, 0], [], [0], [0], []], 3),
  ([[0, 0], [0, 0], [0], [], []], 3),
  ([[0, 0], [], [0, 0, 0], [], []], 3),
  ([[0, 0], [], [0], [], [0, 0]], 3),
  ([[], [0], [], [0, 0, 0], [0]], 3),
  ([[], [], [0], [0, 0, 0], [0]], 3),
  ([[], [], [], [0, 0, 0], [0, 0]], 3),
  ([[0, 0, 0], [], [], [0], [0]], 3),
  ([[0], [0, 0, 0], [], [], [0]], 3),
  ([[0], [], [0, 0, 0], [], [0]], 3),
  ([[0], [], [], [0], [0, 0, 0]], 3),
  ([[0, 0], [], [], [0, 0, 0], []], 3),
  ([[0], [0], [], [0, 0, 0], []], 3),
  ([[0], [], [0], [0, 0, 0], []], 3),
  ([[], [0], [], [0], [0, 0, 0]], 3),
  ([[], [], [0], [0], [0, 0, 0]], 3),
  ([[], [], [], [0, 0], [0, 0, 0]], 3),
  ([[0, 0], [], [], [], [0, 0, 0]], 3),
  ([[0], [0], [], [], [0, 0, 0]], 3),
  ([[0], [], [0], [], [0, 0, 0]], 3),
  ([[0, 0, 0], [], [], [0], [0]], 3),
  ([[0], [0, 0, 0], [], [0], []], 3),
  ([[0], [], [0, 0, 0], [0], []], 3),
  ([[0], [], [], [0, 0, 0], [0]], 3),
  ([[], [0], [0, 0, 0], [], [0]], 3),
  ([[], [], [0, 0, 0], [0], [0]], 3),
  ([[], [], [0, 0, 0], [], [0, 0]], 3),
  ([[0, 0, 0], [], [0], [], [0]], 3),
  ([[0], [0, 0, 0], [], [], [0]], 3),
  ([[0], [], [], [0, 0, 0], [0]], 3),
  ([[0], [], [0], [], [0, 0, 0]], 3),
  ([[0, 0], [], [0, 0, 0], [], []], 3),
  ([[0], [0], [0, 0, 0], [], []], 3),
  ([[0], [], [0, 0, 0], [0], []], 3),
  ([[], [0], [0, 0], [], [0, 0]], 3),
  ([[], [], [0, 0, 0], [], [0, 0]], 3),
  ([[], [], [0, 0], [0], [0, 0]], 3),
  ([[], [], [0, 0], [], [0, 0, 0]], 3),
  ([[0, 0, 0], [], [], [], [0, 0]], 3),
  ([[0], [0, 0], [], [], [0, 0]], 3),
  ([[0], [], [], [0, 0], [0, 0]], 3),
  ([[0], [], [0], [], [0, 0, 0]], 3),
  ([[0, 0, 0], [], [0, 0], [], []], 3),
  ([[0], [0, 0], [0, 0], [], []], 3),
  ([[0], [], [0, 0, 0], [], [0]], 3),
  ([[0], [], [0, 0], [0, 0], []], 3),
  ([[], [0], [0, 0, 0], [0], []], 3),
  ([[], [], [0, 0, 0], [0, 0], []], 3),
  ([[], [], [0, 0, 0], [0], [0]], 3),
  ([[0, 0, 0], [], [0], [0], []], 3),
  ([[0], [0, 0, 0], [], [0], []], 3),
  ([[0], [], [0], [0, 0, 0], []], 3),
  ([[0], [], [], [0], [0, 0, 0]], 3),
  ([[0, 0], [], [0, 0, 0], [], []], 3),
  ([[0], [0], [0, 0, 0], [], []], 3),
  ([[0], [], [0, 0, 0], [], [0]], 3),
  ([[], [0], [0, 0], [0, 0], []], 3),
  ([[], [], [0, 0, 0], [0, 0], []], 3),
  ([[], [], [0, 0], [0, 0, 0], []], 3),
  ([[], [], [0, 0], [0, 0], [0]], 3),
  ([[0, 0, 0], [], [], [0, 0], []], 3),
  ([[0], [0, 0], [], [0, 0], []], 3),
  ([[0], [], [0], [0, 0, 0], []], 3),
  ([[0], [], [], [0, 0], [0, 0]], 3),
  ([[0, 0, 0], [], [0, 0], [], []], 3),
  ([[0], [0, 0], [0, 0], [], []], 3),
  ([[0], [], [0, 0, 0], [0], []], 3),
  ([[0], [], [0, 0], [], [0, 0]], 3),
  ([[], [0], [], [0, 0], [0, 0]], 3),
  ([[], [], [0], [0, 0], [0, 0]], 3),
  ([[], [], [], [0, 0, 0], [0, 0]], 3),
  ([[], [], [], [0, 0], [0, 0, 0]], 3),
  ([[0, 0, 0], [], [], [], [0, 0]], 3),
  ([[0], [0, 0], [], [], [0, 0]], 3),
  ([[0], [], [0, 0], [], [0, 0]], 3),
  ([[0], [], [], [0], [0, 0, 0]], 3),
  ([[0, 0, 0], [], [], [0, 0], []], 3),
  ([[0], [0, 0], [], [0, 0], []], 3),
  ([[0], [], [0, 0], [0, 0], []], 3),
  ([[0], [], [], [0, 0, 0], [0]], 3),
  ([[], [0], [0], [], [0, 0, 0]], 3),
  ([[], [], [0, 0], [], [0, 0, 0]], 3),
  ([[], [], [0], [0], [0, 0, 0]], 3),
  ([[0, 0], [], [], [], [0, 0, 0]], 3),
  ([[0], [0], [], [], [0, 0, 0]], 3),
  ([[0], [], [], [0], [0, 0, 0]], 3),
  ([[0, 0, 0], [], [0], [], [0]], 3),
  ([[0], [0, 0, 0], [0], [], []], 3),
  ([[0], [], [0, 0, 0], [], [0]], 3),
  ([[0], [], [0], [0, 0, 0], []], 3),
  ([[], [0], [0], [0, 0, 0], []], 3),
  ([[], [], [0, 0], [0, 0, 0], []], 3),
  ([[], [], [0], [0, 0, 0], [0]], 3),
  ([[0, 0], [], [], [0, 0, 0], []], 3),
  ([[0], [0], [], [0, 0, 0], []], 3),
  ([[0], [], [], [0, 0, 0], [0]], 3),
  ([[0, 0, 0], [], [0], [0], []], 3),
  ([[0], [0, 0, 0], [0], [], []], 3),
  ([[0], [], [0, 0, 0], [0], []], 3),
  ([[0], [], [0], [], [0, 0, 0]], 3),
  ([[0], [0, 0, 0], [], [], [0]], 3),
  ([[], [0], [0, 0, 0], [], [0]], 3),
  ([[], [0], [], [0, 0, 0], [0]], 3),
  ([[0], [0], [], [], [0, 0, 0]], 3),
  ([[0, 0, 0], [], [0], [], [0]], 3),
  ([[0, 0, 0], [], [], [0], [0]], 3),
  ([[0, 0, 0], [], [], [], [0, 0]], 3),
  ([[0, 0, 0], [0, 0], [], [], []], 3),
  ([[0, 0, 0], [0], [0], [], []], 3),
  ([[0, 0, 0], [0], [], [0], []], 3),
  ([[0], [0, 0, 0], [], [], [0]], 3),
  ([[], [0, 0], [0, 0], [], [0]], 3),
  ([[], [0, 0], [], [0, 0], [0]], 3),
  ([[], [0, 0], [], [], [0, 0, 0]], 3),
  ([[0, 0, 0], [0], [], [], [0]], 3),
  ([[0, 0], [], [0, 0], [], [0]], 3),
  ([[0, 0], [], [], [0, 0], [0]], 3),
  ([[0, 0], [], [], [], [0, 0, 0]], 3),
  ([[0, 0, 0], [0, 0], [], [], []], 3),
  ([[0, 0], [0, 0, 0], [], [], []], 3),
  ([[0, 0], [0, 0], [0], [], []], 3),
  ([[0, 0], [0, 0], [], [0], []], 3),
  ([[], [0, 0, 0], [], [], [0, 0]], 3),
  ([[], [0], [0, 0], [], [0, 0]], 3),
  ([[], [0], [], [0, 0], [0, 0]], 3),
  ([[0], [0], [], [], [0, 0, 0]], 3),
  ([[0, 0, 0], [], [], [], [0, 0]], 3),
  ([[0, 0], [], [0], [], [0, 0]], 3),
  ([[0, 0], [], [], [0], [0, 0]], 3),
  ([[0, 0], [], [], [], [0, 0, 0]], 3),
  ([[0, 0, 0], [0], [], [], [0]], 3),
  ([[0, 0], [0, 0, 0], [], [], []], 3),
  ([[0, 0], [0], [0, 0], [], []], 3),
  ([[0, 0], [0], [], [0, 0], []], 3),
  ([[0], [0, 0, 0], [], [0], []], 3),
  ([[], [0], [0, 0, 0], [0], []], 3),
  ([[0], [0], [], [0, 0, 0], []], 3),
  ([[], [0], [], [0], [0, 0, 0]], 3),
  ([[0, 0, 0], [], [0], [0], []], 3),
  ([[0, 0, 0], [], [], [0, 0], []], 3),
  ([[0, 0, 0], [], [], [0], [0]], 3),
  ([[0, 0, 0], [0, 0], [], [], []], 3),
  ([[0, 0, 0], [0], [0], [], []], 3),
  ([[0, 0, 0], [0], [], [], [0]], 3),
  ([[0], [0, 0, 0], [], [0], []], 3),
  ([[], [0, 0], [0, 0], [0], []], 3),
  ([[], [0, 0], [], [0, 0, 0], []], 3),
  ([[], [0, 0], [], [0], [0, 0]], 3),
  ([[0, 0, 0], [0], [], [0], []], 3),
  ([[0, 0], [], [0, 0], [0], []], 3),
  ([[0, 0], [], [], [0, 0, 0], []], 3),
  ([[0, 0], [], [], [0], [0, 0]], 3),
  ([[0, 0, 0], [0, 0], [], [], []], 3),
  ([[0, 0], [0, 0, 0], [], [], []], 3),
  ([[0, 0], [0, 0], [0], [], []], 3),
  ([[0, 0], [0, 0], [], [], [0]], 3),
  ([[], [0, 0, 0], [], [0, 0], []], 3),
  ([[], [0], [0, 0], [0, 0], []], 3),
  ([[0], [0], [], [0, 0, 0], []], 3),
  ([[], [0], [], [0, 0], [0, 0]], 3),
  ([[0, 0, 0], [], [], [0, 0], []], 3),
  ([[0, 0], [], [0], [0, 0], []], 3),
  ([[0, 0], [], [], [0, 0, 0], []], 3),
  ([[0, 0], [], [], [0, 0], [0]], 3),
  ([[0, 0, 0], [0], [], [0], []], 3),
  ([[0, 0], [0, 0, 0], [], [], []], 3),
  ([[0, 0], [0], [0, 0], [], []], 3),
  ([[0, 0], [0], [], [], [0, 0]], 3),
  ([[], [0, 0, 0], [0], [], [0]], 3),
  ([[], [0, 0, 0], [], [0], [0]], 3),
  ([[], [0, 0, 0], [], [], [0, 0]], 3),
  ([[0, 0, 0], [0], [], [], [0]], 3),
  ([[0], [], [0, 0, 0], [], [0]], 3),
  ([[0], [], [], [0, 0, 0], [0]], 3),
  ([[0], [0], [], [], [0, 0, 0]], 3),
  ([[0, 0], [0, 0, 0], [], [], []], 3),
  ([[0], [0, 0, 0], [0], [], []], 3),
  ([[0], [0, 0, 0], [], [0], []], 3),
  ([[], [0, 0, 0], [], [], [0, 0]], 3),
  ([[], [0, 0], [0], [], [0, 0]], 3),
  ([[], [0, 0], [], [0], [0, 0]], 3),
  ([[], [0, 0], [], [], [0, 0, 0]], 3),
  ([[0, 0, 0], [], [], [], [0, 0]], 3),
  ([[0], [], [0, 0], [], [0, 0]], 3),
  ([[0], [], [], [0, 0], [0, 0]], 3),
  ([[0], [0], [], [], [0, 0, 0]], 3),
  ([[0, 0, 0], [0, 0], [], [], []], 3),
  ([[0], [0, 0, 0], [], [], [0]], 3),
  ([[0], [0, 0], [0, 0], [], []], 3),
  ([[0], [0, 0], [], [0, 0], []], 3),
  ([[], [0, 0, 0], [0], [0], []], 3),
  ([[], [0, 0, 0], [], [0, 0], []], 3),
  ([[], [0, 0, 0], [], [0], [0]], 3),
  ([[0, 0, 0], [0], [], [0], []], 3),
  ([[0], [], [0, 0, 0], [0], []], 3),
  ([[0], [0], [], [0, 0, 0], []], 3),
  ([[0], [], [], [0], [0, 0, 0]], 3),
  ([[0, 0], [0, 0, 0], [], [], []], 3),
  ([[0], [0, 0, 0], [0], [], []], 3),
  ([[0], [0, 0, 0], [], [], [0]], 3),
  ([[], [0, 0, 0], [], [0, 0], []], 3),
  ([[], [0, 0], [0], [0, 0], []], 3),
  ([[], [0, 0], [], [0, 0, 0], []], 3),
  ([[], [0, 0], [], [0, 0], [0]], 3),
  ([[0, 0, 0], [], [], [0, 0], []], 3),
  ([[0], [], [0, 0], [0, 0], []], 3),
  ([[0], [0], [], [0, 0, 0], []], 3),
  ([[0], [], [], [0, 0], [0, 0]], 3),
  ([[0, 0, 0], [0, 0], [], [], []], 3),
  ([[0], [0, 0, 0], [], [0], []], 3),
  ([[0], [0, 0], [0, 0], [], []], 3),
  ([[0], [0, 0], [], [], [0, 0]], 3),
  ([[], [0, 0], [], [], [0, 0, 0]], 3),
  ([[], [0], [0], [], [0, 0, 0]], 3),
  ([[], [0], [], [0], [0, 0, 0]], 3),
  ([[0, 0], [], [], [], [0, 0, 0]], 3),
  ([[0], [], [0], [], [0, 0, 0]], 3),
  ([[0], [], [], [0], [0, 0, 0]], 3),
  ([[0, 0, 0], [0], [], [], [0]], 3),
  ([[0], [0, 0, 0], [], [], [0]], 3),
  ([[0], [0], [0, 0, 0], [], []], 3),
  ([[0], [0], [], [0, 0, 0], []], 3),
  ([[], [0, 0], [], [0, 0, 0], []], 3),
  ([[], [0], [0], [0, 0, 0], []], 3),
  ([[], [0], [], [0, 0, 0], [0]], 3),
  ([[0, 0], [], [], [0, 0, 0], []], 3),
  ([[0], [], [0], [0, 0, 0], []], 3),
  ([[0], [], [], [0, 0, 0], [0]], 3),
  ([[0, 0, 0], [0], [], [0], []], 3),
  ([[0], [0, 0, 0], [], [0], []], 3),
  ([[0], [0], [0, 0, 0], [], []], 3),
  ([[0], [0], [], [], [0, 0, 0]], 3),
  ([[0], [0, 0, 0], [0], [], []], 3),
  ([[0], [0], [0, 0, 0], [], []], 3),
  ([[], [0], [0], [0, 0, 0], []], 3),
  ([[], [0], [0], [], [0, 0, 0]], 3),
  ([[0, 0, 0], [], [0, 0], [], []], 3),
  ([[0, 0, 0], [], [0], [0], []], 3),
  ([[0, 0, 0], [], [0], [], [0]], 3),
  ([[0, 0, 0], [0, 0], [], [], []], 3),
  ([[0, 0, 0], [0], [], [0], []], 3),
  ([[0, 0, 0], [0], [], [], [0]], 3),
  ([[0], [0, 0, 0], [0], [], []], 3),
  ([[], [0, 0], [0, 0, 0], [], []], 3),
  ([[], [0, 0], [0], [0, 0], []], 3),
  ([[], [0, 0], [0], [], [0, 0]], 3),
  ([[0, 0, 0], [0], [0], [], []], 3),
  ([[0, 0], [], [0, 0, 0], [], []], 3),
  ([[0, 0], [], [0], [0, 0], []], 3),
  ([[0, 0], [], [0], [], [0, 0]], 3),
  ([[0, 0, 0], [0, 0], [], [], []], 3),
  ([[0, 0], [0, 0, 0], [], [], []], 3),
  ([[0, 0], [0, 0], [], [0], []], 3),
  ([[0, 0], [0, 0], [], [], [0]], 3),
  ([[], [0, 0, 0], [0, 0], [], []], 3),
  ([[0], [0], [0, 0, 0], [], []], 3),
  ([[], [0], [0, 0], [0, 0], []], 3),
  ([[], [0], [0, 0], [], [0, 0]], 3),
  ([[0, 0, 0], [], [0, 0], [], []], 3),
  ([[0, 0], [], [0, 0, 0], [], []], 3),
  ([[0, 0], [], [0, 0], [0], []], 3),
  ([[0, 0], [], [0, 0], [], [0]], 3),
  ([[0, 0, 0], [0], [0], [], []], 3),
  ([[0, 0], [0, 0, 0], [], [], []], 3),
  ([[0, 0], [0], [], [0, 0], []], 3),
  ([[0, 0], [0], [], [], [0, 0]], 3),
  ([[], [0, 0, 0], [0, 0], [], []], 3),
  ([[], [0, 0, 0], [0], [0], []], 3),
  ([[], [0, 0, 0], [0], [], [0]], 3),
  ([[0, 0, 0], [0], [0], [], []], 3),
  ([[0], [0], [0, 0, 0], [], []], 3),
  ([[0], [], [0], [0, 0, 0], []], 3),
  ([[0], [], [0], [], [0, 0, 0]], 3),
  ([[0, 0], [0, 0, 0], [], [], []], 3),
  ([[0], [0, 0, 0], [], [0], []], 3),
  ([[0], [0, 0, 0], [], [], [0]], 3),
  ([[], [0, 0, 0], [0, 0], [], []], 3),
  ([[], [0, 0], [0, 0, 0], [], []], 3),
  ([[], [0, 0], [0, 0], [0], []], 3),
  ([[], [0, 0], [0, 0], [], [0]], 3),
  ([[0, 0, 0], [], [0, 0], [], []], 3),
  ([[0], [0], [0, 0, 0], [], []], 3),
  ([[0], [], [0, 0], [0, 0], []], 3),
  ([[0], [], [0, 0], [], [0, 0]], 3),
  ([[0, 0, 0], [0, 0], [], [], []], 3),
  ([[0], [0, 0, 0], [0], [], []], 3),
  ([[0], [0, 0], [], [0, 0], []], 3),
  ([[0], [0, 0], [], [], [0, 0]], 3)]

set_option maxHeartbeats 4000000 in
/-- Visited list of the bounded search on searchBudgetGame after 250 pops. -/
def sbV250 : List (List (List Color)) :=
  [[[0], [0, 0], [0, 0], [], []],
  [[0], [0, 0, 0], [0], [], []],
  [[0, 0], [0], [0, 0], [], []],
  [[0, 0], [0, 0], [0], [], []],
  [[0, 0, 0], [0], [0], [], []],
  [[0], [0], [], [0, 0, 0], []],
  [[0], [0], [], [], [0, 0, 0]],
  [[0], [0, 0], [], [0, 0], []],
  [[0], [0, 0, 0], [], [0], []],
  [[0], [0, 0], [], [], [0, 0]],
  [[0], [0, 0, 0], [], [], [0]],
  [[0, 0], [0], [], [0, 0], []],
  [[0, 0], [0, 0], [], [0], []],
  [[0, 0, 0], [0], [], [0], []],
  [[0, 0], [0], [], [], [0, 0]],
  [[0, 0], [0, 0], [], [], [0]],
  [[0, 0, 0], [0], [], [], [0]],
  [[0], [], [0], [0, 0, 0], []],
  [[0], [], [0], [], [0, 0, 0]],
  [[0], [], [], [0, 0], [0, 0]],
  [[0], [], [0, 0], [0, 0], []],
  [[0], [], [0, 0, 0], [0], []],
  [[0], [], [0, 0], [], [0, 0]],
  [[0], [], [0, 0, 0], [], [0]],
  [[0], [], [], [0], [0, 0, 0]],
  [[0], [], [], [0, 0, 0], [0]],
  [[0, 0], [], [0], [0, 0], []],
  [[0, 0], [], [0, 0], [0], []],
  [[0, 0, 0], [], [0], [0], []],
  [[0, 0], [], [0], [], [0, 0]],
  [[0, 0], [], [0, 0], [], [0]],
  [[0, 0, 0], [], [0], [], [0]],
  [[0, 0], [], [], [0], [0, 0]],
  [[0, 0], [], [], [0, 0], [0]],
  [[0, 0, 0], [], [], [0], [0]],
  [[], [0], [0], [0, 0, 0], []],
  [[], [0], [0], [], [0, 0, 0]],
  [[], [0], [], [0, 0], [0, 0]],
  [[], [], [0], [0, 0], [0, 0]],
  [[], [0], [0, 0], [0, 0], []],
  [[], [0], [0, 0, 0], [0], []],
  [[], [0], [0, 0], [], [0, 0]],
  [[], [0], [0, 0, 0], [], [0]],
  [[], [0], [], [0], [0, 0, 0]],
  [[], [0], [], [0, 0, 0], [0]],
  [[], [], [0, 0], [0], [0, 0]],
  [[], [], [0, 0], [0, 0], [0]],
  [[], [0, 0], [0], [0, 0], []],
  [[], [0, 0], [0, 0], [0], []],
  [[], [0, 0, 0], [0], [0], []],
  [[], [0, 0], [0], [], [0, 0]],
  [[], [0, 0], [0, 0], [], [0]],
  [[], [0, 0, 0], [0], [], [0]],
  [[], [0, 0], [], [0], [0, 0]],
  [[], [0, 0], [], [0, 0], [0]],
  [[], [0, 0, 0], [], [0], [0]],
  [[], [], [0], [0], [0, 0, 0]],
  [[], [], [0], [0, 0, 0], [0]],
  [[], [], [0, 0, 0], [0], [0]],
  [[0], [0], [0], [0, 0], []],
  [[0], [0], [0, 0], [0], []],
  [[0], [0, 0], [0], [0], []],
  [[0, 0], [0], [0], [0], []],
  [[0], [0], [0], [], [0, 0]],
  [[0], [0], [0, 0], [], [0]],
  [[0], [0, 0], [0], [], [0]],
  [[0, 0], [0], [0], [], [0]],
  [[0], [0], [], [0], [0, 0]],
  [[0], [0], [], [0, 0], [0]],
  [[0], [0, 0], [], [0], [0]],
  [[0, 0], [0], [], [0], [0]],
  [[0], [], [0], [0], [0, 0]],
  [[0], [], [0], [0, 0], [0]],
  [[0], [], [0, 0], [0], [0]],
  [[0, 0], [], [0], [0], [0]],
  [[], [0], [0], [0], [0, 0]],
  [[], [0], [0], [0, 0], [0]],
  [[], [0], [0, 0], [0], [0]],
  [[], [0, 0], [0], [0], [0]],
  [[0], [0], [0], [0], [0]]]

set_option maxHeartbeats 4000000 in
/-- Queue contents of the bounded search on searchBudgetGame after 500 pops. -/
def sbQ500 : List (List (List Color) × Nat) :=
  [([[0, 0, 0], [0], [], [], [0]], 3),
  ([[], [0, 0, 0], [], [0], [0]], 3),
  ([[], [0], [0, 0, 0], [], [0]], 3),
  ([[], [0], [], [0], [0, 0, 0]], 3),
  ([[0], [0], [], [0, 0, 0], []], 3),
  ([[], [0, 0], [], [0, 0, 0], []], 3),
  ([[], [0], [0], [0, 0, 0], []], 3),
  ([[0], [], [], [0], [0, 0, 0]], 3),
  ([[], [], [0], [0], [0, 0, 0]], 3),
  ([[], [], [], [0, 0], [0, 0, 0]], 3),
  ([[0], [0], [], [], [0, 0, 0]], 3),
  ([[], [0, 0], [], [], [0, 0, 0]], 3),
  ([[], [0], [0], [], [0, 0, 0]], 3),
  ([[0, 0, 0], [0], [], [0], []], 3),
  ([[], [0, 0, 0], [], [0], [0]], 3),
  ([[], [0], [0, 0, 0], [0], []], 3),
  ([[], [0], [], [0, 0, 0], [0]], 3),
  ([[0], [], [0, 0, 0], [], [0]], 3),
  ([[], [], [0, 0, 0], [0], [0]], 3),
  ([[], [], [0, 0, 0], [], [0, 0]], 3),
  ([[0, 0, 0], [0], [], [], [0]], 3),
  ([[], [0, 0, 0], [0], [], [0]], 3),
  ([[], [0], [], [0, 0, 0], [0]], 3),
  ([[], [0], [0], [], [0, 0, 0]], 3),
  ([[0], [0], [0, 0, 0], [], []], 3),
  ([[], [0, 0], [0, 0, 0], [], []], 3),
  ([[], [0], [0, 0, 0], [0], []], 3),
  ([[0], [], [0, 0], [], [0, 0]], 3),
  ([[], [], [0, 0, 0], [], [0, 0]], 3),
  ([[], [], [0, 0], [0], [0, 0]], 3),
  ([[], [], [0, 0], [], [0, 0, 0]], 3),
  ([[0, 0], [0], [], [], [0, 0]], 3),
  ([[], [0, 0, 0], [], [], [0, 0]], 3),
  ([[], [0], [], [0, 0], [0, 0]], 3),
  ([[], [0], [0], [], [0, 0, 0]], 3),
  ([[0, 0], [0], [0, 0], [], []], 3),
  ([[], [0, 0, 0], [0, 0], [], []], 3),
  ([[], [0], [0, 0, 0], [], [0]], 3),
  ([[], [0], [0, 0], [0, 0], []], 3),
  ([[0], [], [0, 0, 0], [0], []], 3),
  ([[], [], [0, 0, 0], [0, 0], []], 3),
  ([[], [], [0, 0, 0], [0], [0]], 3),
  ([[0, 0, 0], [0], [], [0], []], 3),
  ([[], [0, 0, 0], [0], [0], []], 3),
  ([[], [0], [0], [0, 0, 0], []], 3),
  ([[], [0], [], [0], [0, 0, 0]], 3),
  ([[0], [0], [0, 0, 0], [], []], 3),
  ([[], [0, 0], [0, 0, 0], [], []], 3),
  ([[], [0], [0, 0, 0], [], [0]], 3),
  ([[0], [], [0, 0], [0, 0], []], 3),
  ([[], [], [0, 0, 0], [0, 0], []], 3),
  ([[], [], [0, 0], [0, 0, 0], []], 3),
  ([[], [], [0, 0], [0, 0], [0]], 3),
  ([[0, 0], [0], [], [0, 0], []], 3),
  ([[], [0, 0, 0], [], [0, 0], []], 3),
  ([[], [0], [0], [0, 0, 0], []], 3),
  ([[], [0], [], [0, 0], [0, 0]], 3),
  ([[0, 0], [0], [0, 0], [], []], 3),
  ([[], [0, 0, 0], [0, 0], [], []], 3),
  ([[], [0], [0, 0, 0], [0], []], 3),
  ([[], [0], [0, 0], [], [0, 0]], 3),
  ([[0], [], [], [0, 0], [0, 0]], 3),
  ([[], [0], [], [0, 0], [0, 0]], 3),
  ([[], [], [], [0, 0, 0], [0, 0]], 3),
  ([[], [], [], [0, 0], [0, 0, 0]], 3),
  ([[0, 0], [], [0], [], [0, 0]], 3),
  ([[], [0, 0], [0], [], [0, 0]], 3),
  ([[], [], [0, 0, 0], [], [0, 0]], 3),
  ([[], [], [0], [0], [0, 0, 0]], 3),
  ([[0, 0], [], [0], [0, 0], []], 3),
  ([[], [0, 0], [0], [0, 0], []], 3),
  ([[], [], [0, 0, 0], [0, 0], []], 3),
  ([[], [], [0], [0, 0, 0], [0]], 3),
  ([[0], [], [], [0, 0], [0, 0]], 3),
  ([[], [], [0], [0, 0], [0, 0]], 3),
  ([[], [], [], [0, 0, 0], [0, 0]], 3),
  ([[], [], [], [0, 0], [0, 0, 0]], 3),
  ([[0, 0], [0], [], [], [0, 0]], 3),
  ([[], [0, 0, 0], [], [], [0, 0]], 3),
  ([[], [0], [0, 0], [], [0, 0]], 3),
  ([[], [0], [], [0], [0, 0, 0]], 3),
  ([[0, 0], [0], [], [0, 0], []], 3),
  ([[], [0, 0, 0], [], [0, 0], []], 3),
  ([[], [0], [0, 0], [0, 0], []], 3),
  ([[], [0], [], [0, 0, 0], [0]], 3),
  ([[0], [], [0], [], [0, 0, 0]], 3),
  ([[], [], [0, 0], [], [0, 0, 0]], 3),
  ([[], [], [0], [0], [0, 0, 0]], 3),
  ([[0], [0], [], [], [0, 0, 0]], 3),
  ([[], [0, 0], [], [], [0, 0, 0]], 3),
  ([[], [0], [], [0], [0, 0, 0]], 3),
  ([[0, 0, 0], [0], [0], [], []], 3),
  ([[], [0, 0, 0], [0], [], [0]], 3),
  ([[], [0], [0, 0, 0], [], [0]], 3),
  ([[], [0], [0], [0, 0, 0], []], 3),
  ([[0], [], [0], [0, 0, 0], []], 3),
  ([[], [], [0, 0], [0, 0, 0], []], 3),
  ([[], [], [0], [0, 0, 0], [0]], 3),
  ([[0], [0], [], [0, 0, 0], []], 3),
  ([[], [0, 0], [], [0, 0, 0], []], 3),
  ([[], [0], [], [0, 0, 0], [0]], 3),
  ([[0, 0, 0], [0], [0], [], []], 3),
  ([[], [0, 0, 0], [0], [0], []], 3),
  ([[], [0], [0, 0, 0], [0], []], 3),
  ([[], [0], [0], [], [0, 0, 0]], 3),
  ([[], [0, 0, 0], [], [0], [0]], 3),
  ([[], [], [0, 0, 0], [0], [0]], 3),
  ([[0], [], [], [0, 0, 0], [0]], 3),
  ([[0], [], [], [0], [0, 0, 0]], 3),
  ([[0, 0, 0], [0], [], [], [0]], 3),
  ([[0, 0, 0], [], [0], [], [0]], 3),
  ([[0, 0, 0], [], [], [], [0, 0]], 3),
  ([[0, 0, 0], [0], [], [0], []], 3),
  ([[0, 0, 0], [], [0], [0], []], 3),
  ([[0, 0, 0], [], [], [0, 0], []], 3),
  ([[], [0, 0], [], [0, 0], [0]], 3),
  ([[], [], [0, 0], [0, 0], [0]], 3),
  ([[0], [], [], [0, 0, 0], [0]], 3),
  ([[], [], [], [0, 0], [0, 0, 0]], 3),
  ([[0, 0, 0], [], [], [0], [0]], 3),
  ([[0, 0], [0, 0], [], [], [0]], 3),
  ([[0, 0], [], [0, 0], [], [0]], 3),
  ([[0, 0], [], [], [], [0, 0, 0]], 3),
  ([[0, 0, 0], [], [], [0, 0], []], 3),
  ([[0, 0], [0], [], [0, 0], []], 3),
  ([[0, 0], [], [0], [0, 0], []], 3),
  ([[0, 0], [], [], [0, 0, 0], []], 3),
  ([[], [0, 0], [], [0], [0, 0]], 3),
  ([[], [], [0, 0], [0], [0, 0]], 3),
  ([[], [], [], [0, 0, 0], [0, 0]], 3),
  ([[0], [], [], [0], [0, 0, 0]], 3),
  ([[0, 0, 0], [], [], [], [0, 0]], 3),
  ([[0, 0], [0], [], [], [0, 0]], 3),
  ([[0, 0], [], [0], [], [0, 0]], 3),
  ([[0, 0], [], [], [], [0, 0, 0]], 3),
  ([[0, 0, 0], [], [], [0], [0]], 3),
  ([[0, 0], [0, 0], [], [0], []], 3),
  ([[0, 0], [], [0, 0], [0], []], 3),
  ([[0, 0], [], [], [0, 0, 0], []], 3),
  ([[], [0, 0, 0], [0], [], [0]], 3),
  ([[0], [], [0, 0, 0], [], [0]], 3),
  ([[], [], [0], [0, 0, 0], [0]], 3),
  ([[0], [], [0], [], [0, 0, 0]], 3),
  ([[0, 0, 0], [0], [], [], [0]], 3),
  ([[0, 0, 0], [], [], [0], [0]], 3),
  ([[0, 0, 0], [], [], [], [0, 0]], 3),
  ([[0, 0, 0], [0], [0], [], []], 3),
  ([[0, 0, 0], [], [0, 0], [], []], 3),
  ([[0, 0, 0], [], [0], [0], []], 3),
  ([[], [0, 0], [0, 0], [], [0]], 3),
  ([[0], [], [0, 0, 0], [], [0]], 3),
  ([[], [], [0, 0], [0, 0], [0]], 3),
  ([[], [], [0, 0], [], [0, 0, 0]], 3),
  ([[0, 0, 0], [], [0], [], [0]], 3),
  ([[0, 0], [0, 0], [], [], [0]], 3),
  ([[0, 0], [], [], [0, 0], [0]], 3),
  ([[0, 0], [], [], [], [0, 0, 0]], 3),
  ([[0, 0, 0], [], [0, 0], [], []], 3),
  ([[0, 0], [0], [0, 0], [], []], 3),
  ([[0, 0], [], [0, 0, 0], [], []], 3),
  ([[0, 0], [], [0, 0], [0], []], 3),
  ([[], [0, 0], [0], [], [0, 0]], 3),
  ([[], [], [0, 0, 0], [], [0, 0]], 3),
  ([[], [], [0], [0, 0], [0, 0]], 3),
  ([[0], [], [0], [], [0, 0, 0]], 3),
  ([[0, 0, 0], [], [], [], [0, 0]], 3),
  ([[0, 0], [0], [], [], [0, 0]], 3),
  ([[0, 0], [], [], [0], [0, 0]], 3),
  ([[0, 0], [], [], [], [0, 0, 0]], 3),
  ([[0, 0, 0], [], [0], [], [0]], 3),
  ([[0, 0], [0, 0], [0], [], []], 3),
  ([[0, 0], [], [0, 0, 0], [], []], 3),
  ([[0, 0], [], [0], [0, 0], []], 3),
  ([[], [0, 0, 0], [0], [0], []], 3),
  ([[0], [], [0, 0, 0], [0], []], 3),
  ([[0], [], [0], [0, 0, 0], []], 3),
  ([[], [], [0], [0], [0, 0, 0]], 3),
  ([[0, 0, 0], [0], [], [0], []], 3),
  ([[0, 0, 0], [], [], [0, 0], []], 3),
  ([[0, 0, 0], [], [], [0], [0]], 3),
  ([[0, 0, 0], [0], [0], [], []], 3),
  ([[0, 0, 0], [], [0, 0], [], []], 3),
  ([[0, 0, 0], [], [0], [], [0]], 3),
  ([[], [0, 0], [0, 0], [0], []], 3),
  ([[0], [], [0, 0, 0], [0], []], 3),
  ([[], [], [0, 0], [0, 0, 0], []], 3),
  ([[], [], [0, 0], [0], [0, 0]], 3),
  ([[0, 0, 0], [], [0], [0], []], 3),
  ([[0, 0], [0, 0], [], [0], []], 3),
  ([[0, 0], [], [], [0, 0, 0], []], 3),
  ([[0, 0], [], [], [0], [0, 0]], 3),
  ([[0, 0, 0], [], [0, 0], [], []], 3),
  ([[0, 0], [0], [0, 0], [], []], 3),
  ([[0, 0], [], [0, 0, 0], [], []], 3),
  ([[0, 0], [], [0, 0], [], [0]], 3),
  ([[], [0, 0], [0], [0, 0], []], 3),
  ([[], [], [0, 0, 0], [0, 0], []], 3),
  ([[0], [], [0], [0, 0, 0], []], 3),
  ([[], [], [0], [0, 0], [0, 0]], 3),
  ([[0, 0, 0], [], [], [0, 0], []], 3),
  ([[0, 0], [0], [], [0, 0], []], 3),
  ([[0, 0], [], [], [0, 0, 0], []], 3),
  ([[0, 0], [], [], [0, 0], [0]], 3),
  ([[0, 0, 0], [], [0], [0], []], 3),
  ([[0, 0], [0, 0], [0], [], []], 3),
  ([[0, 0], [], [0, 0, 0], [], []], 3),
  ([[0, 0], [], [0], [], [0, 0]], 3),
  ([[], [0], [], [0, 0, 0], [0]], 3),
  ([[], [], [0], [0, 0, 0], [0]], 3),
  ([[], [], [], [0, 0, 0], [0, 0]], 3),
  ([[0, 0, 0], [], [], [0], [0]], 3),
  ([[0], [0, 0, 0], [], [], [0]], 3),
  ([[0], [], [0, 0, 0], [], [0]], 3),
  ([[0], [], [], [0], [0, 0, 0]], 3),
  ([[0, 0], [], [], [0, 0, 0], []], 3),
  ([[0], [0], [], [0, 0, 0], []], 3),
  ([[0], [], [0], [0, 0, 0], []], 3),
  ([[], [0], [], [0], [0, 0, 0]], 3),
  ([[], [], [0], [0], [0, 0, 0]], 3),
  ([[], [], [], [0, 0], [0, 0, 0]], 3),
  ([[0, 0], [], [], [], [0, 0, 0]], 3),
  ([[0], [0], [], [], [0, 0, 0]], 3),
  ([[0], [], [0], [], [0, 0, 0]], 3),
  ([[0, 0, 0], [], [], [0], [0]], 3),
  ([[0], [0, 0, 0], [], [0], []], 3),
  ([[0], [], [0, 0, 0], [0], []], 3),
  ([[0], [], [], [0, 0, 0], [0]], 3),
  ([[], [0], [0, 0, 0], [], [0]], 3),
  ([[], [], [0, 0, 0], [0], [0]], 3),
  ([[], [], [0, 0, 0], [], [0, 0]], 3),
  ([[0, 0, 0], [], [0], [], [0]], 3),
  ([[0], [0, 0, 0], [], [], [0]], 3),
  ([[0], [], [], [0, 0, 0], [0]], 3),
  ([[0], [], [0], [], [0, 0, 0]], 3),
  ([[0, 0], [], [0, 0, 0], [], []], 3),
  ([[0], [0], [0, 0, 0], [], []], 3),
  ([[0], [], [0, 0, 0], [0], []], 3),
  ([[], [0], [0, 0], [], [0, 0]], 3),
  ([[], [], [0, 0, 0], [], [0, 0]], 3),
  ([[], [], [0, 0], [0], [0, 0]], 3),
  ([[], [], [0, 0], [], [0, 0, 0]], 3),
  ([[0, 0, 0], [], [], [], [0, 0]], 3),
  ([[0], [0, 0], [], [], [0, 0]], 3),
  ([[0], [], [], [0, 0], [0, 0]], 3),
  ([[0], [], [0], [], [0, 0, 0]], 3),
  ([[0, 0, 0], [], [0, 0], [], []], 3),
  ([[0], [0, 0], [0, 0], [], []], 3),
  ([[0], [], [0, 0, 0], [], [0]], 3),
  ([[0], [], [0, 0], [0, 0], []], 3),
  ([[], [0], [0, 0, 0], [0], []], 3),
  ([[], [], [0, 0, 0], [0, 0], []], 3),
  ([[], [], [0, 0, 0], [0], [0]], 3),
  ([[0, 0, 0], [], [0], [0], []], 3),
  ([[0], [0, 0, 0], [], [0], []], 3),
  ([[0], [], [0], [0, 0, 0], []], 3),
  ([[0], [], [], [0], [0, 0, 0]], 3),
  ([[0, 0], [], [0, 0, 0], [], []], 3),
  ([[0], [0], [0, 0, 0], [], []], 3),
  ([[0], [], [0, 0, 0], [], [0]], 3),
  ([[], [0], [0, 0], [0, 0], []], 3),
  ([[], [], [0, 0, 0], [0, 0], []], 3),
  ([[], [], [0, 0], [0, 0, 0], []], 3),
  ([[], [], [0, 0], [0, 0], [0]], 3),
  ([[0, 0, 0], [], [], [0, 0], []], 3),
  ([[0], [0, 0], [], [0, 0], []], 3),
  ([[0], [], [0], [0, 0, 0], []], 3),
  ([[0], [], [], [0, 0], [0, 0]], 3),
  ([[0, 0, 0], [], [0, 0], [], []], 3),
  ([[0], [0, 0], [0, 0], [], []], 3),
  ([[0], [], [0, 0, 0], [0], []], 3),
  ([[0], [], [0, 0], [], [0, 0]], 3),
  ([[], [0], [], [0, 0], [0, 0]], 3),
  ([[], [], [0], [0, 0], [0, 0]], 3),
  ([[], [], [], [0, 0, 0], [0, 0]], 3),
  ([[], [], [], [0, 0], [0, 0, 0]], 3),
  ([[0, 0, 0], [], [], [], [0, 0]], 3),
  ([[0], [0, 0], [], [], [0, 0]], 3),
  ([[0], [], [0, 0], [], [0, 0]], 3),
  ([[0], [], [], [0], [0, 0, 0]], 3),
  ([[0, 0, 0], [], [], [0, 0], []], 3),
  ([[0], [0, 0], [], [0, 0], []], 3),
  ([[0], [], [0, 0], [0, 0], []], 3),
  ([[0], [], [], [0, 0, 0], [0]], 3),
  ([[], [0], [0], [], [0, 0, 0]], 3),
  ([[], [], [0, 0], [], [0, 0, 0]], 3),
  ([[], [], [0], [0], [0, 0, 0]], 3),
  ([[0, 0], [], [], [], [0, 0, 0]], 3),
  ([[0], [0], [], [], [0, 0, 0]], 3),
  ([[0], [], [], [0], [0, 0, 0]], 3),
  ([[0, 0, 0], [], [0], [], [0]], 3),
  ([[0], [0, 0, 0], [0], [], []], 3),
  ([[0], [], [0, 0, 0], [], [0]], 3),
  ([[0], [], [0], [0, 0, 0], []], 3),
  ([[], [0], [0], [0, 0, 0], []], 3),
  ([[], [], [0, 0], [0, 0, 0], []], 3),
  ([[], [], [0], [0, 0, 0], [0]], 3),
  ([[0, 0], [], [], [0, 0, 0], []], 3),
  ([[0], [0], [], [0, 0, 0], []], 3),
  ([[0], [], [], [0, 0, 0], [0]], 3),
  ([[0, 0, 0], [], [0], [0], []], 3),
  ([[0], [0, 0, 0], [0], [], []], 3),
  ([[0], [], [0, 0, 0], [0], []], 3),
  ([[0], [], [0], [], [0, 0, 0]], 3),
  ([[0], [0, 0, 0], [], [], [0]], 3),
  ([[], [0], [0, 0, 0], [], [0]], 3),
  ([[], [0], [], [0, 0, 0], [0]], 3),
  ([[0], [0], [], [], [0, 0, 0]], 3),
  ([[0, 0, 0], [], [0], [], [0]], 3),
  ([[0, 0, 0], [], [], [0], [0]], 3),
  ([[0, 0, 0], [], [], [], [0, 0]], 3),
  ([[0, 0, 0], [0, 0], [], [], []], 3),
  ([[0, 0, 0], [0], [0], [], []], 3),
  ([[0, 0, 0], [0], [], [0], []], 3),
  ([[0], [0, 0, 0], [], [], [0]], 3),
  ([[], [0, 0], [0, 0], [], [0]], 3),
  ([[], [0, 0], [], [0, 0], [0]], 3),
  ([[], [0, 0], [], [], [0, 0, 0]], 3),
  ([[0, 0, 0], [0], [], [], [0]], 3),
  ([[0, 0], [], [0, 0], [], [0]], 3),
  ([[0, 0], [], [], [0, 0], [0]], 3),
  ([[0, 0], [], [], [], [0, 0, 0]], 3),
  ([[0, 0, 0], [0, 0], [], [], []], 3),
  ([[0, 0], [0, 0, 0], [], [], []], 3),
  ([[0, 0], [0, 0], [0], [], []], 3),
  ([[0, 0], [0, 0], [], [0], []], 3),
  ([[], [0, 0, 0], [], [], [0, 0]], 3),
  ([[], [0], [0, 0], [], [0, 0]], 3),
  ([[], [0], [], [0, 0], [0, 0]], 3),
  ([[0], [0], [], [], [0, 0, 0]], 3),
  ([[0, 0, 0], [], [], [], [0, 0]], 3),
  ([[0, 0], [], [0], [], [0, 0]], 3),
  ([[0, 0], [], [], [0], [0, 0]], 3),
  ([[0, 0], [], [], [], [0, 0, 0]], 3),
  ([[0, 0, 0], [0], [], [], [0]], 3),
  ([[0, 0], [0, 0, 0], [], [], []], 3),
  ([[0, 0], [0], [0, 0], [], []], 3),
  ([[0, 0], [0], [], [0, 0], []], 3),
  ([[0], [0, 0, 0], [], [0], []], 3),
  ([[], [0], [0, 0, 0], [0], []], 3),
  ([[0], [0], [], [0, 0, 0], []], 3),
  ([[], [0], [], [0], [0, 0, 0]], 3),
  ([[0, 0, 0], [], [0], [0], []], 3),
  ([[0, 0, 0], [], [], [0, 0], []], 3),
  ([[0, 0, 0], [], [], [0], [0]], 3),
  ([[0, 0, 0], [0, 0], [], [], []], 3),
  ([[0, 0, 0], [0], [0], [], []], 3),
  ([[0, 0, 0], [0], [], [], [0]], 3),
  ([[0], [0, 0, 0], [], [0], []], 3),
  ([[], [0, 0], [0, 0], [0], []], 3),
  ([[], [0, 0], [], [0, 0, 0], []], 3),
  ([[], [0, 0], [], [0], [0, 0]], 3),
  ([[0, 0, 0], [0], [], [0], []], 3),
  ([[0, 0], [], [0, 0], [0], []], 3),
  ([[0, 0], [], [], [0, 0, 0], []], 3),
  ([[0, 0], [], [], [0], [0, 0]], 3),
  ([[0, 0, 0], [0, 0], [], [], []], 3),
  ([[0, 0], [0, 0, 0], [], [], []], 3),
  ([[0, 0], [0, 0], [0], [], []], 3),
  ([[0, 0], [0, 0], [], [], [0]], 3),
  ([[], [0, 0, 0], [], [0, 0], []], 3),
  ([[], [0], [0, 0], [0, 0], []], 3),
  ([[0], [0], [], [0, 0, 0], []], 3),
  ([[], [0], [], [0, 0], [0, 0]], 3),
  ([[0, 0, 0], [], [], [0, 0], []], 3),
  ([[0, 0], [], [0], [0, 0], []], 3),
  ([[0, 0], [], [], [0, 0, 0], []], 3),
  ([[0, 0], [], [], [0, 0], [0]], 3),
  ([[0, 0, 0], [0], [], [0], []], 3),
  ([[0, 0], [0, 0, 0], [], [], []], 3),
  ([[0, 0], [0], [0, 0], [], []], 3),
  ([[0, 0], [0], [], [], [0, 0]], 3),
  ([[], [0, 0, 0], [0], [], [0]], 3),
  ([[], [0, 0, 0], [], [0], [0]], 3),
  ([[], [0, 0, 0], [], [], [0, 0]], 3),
  ([[0, 0, 0], [0], [], [], [0]], 3),
  ([[0], [], [0, 0, 0], [], [0]], 3),
  ([[0], [], [], [0, 0, 0], [0]], 3),
  ([[0], [0], [], [], [0, 0, 0]], 3),
  ([[0, 0], [0, 0, 0], [], [], []], 3),
  ([[0], [0, 0, 0], [0], [], []], 3),
  ([[0], [0, 0, 0], [], [0], []], 3),
  ([[], [0, 0, 0], [], [], [0, 0]], 3),
  ([[], [0, 0], [0], [], [0, 0]], 3),
  ([[], [0, 0], [], [0], [0, 0]], 3),
  ([[], [0, 0], [], [], [0, 0, 0]], 3),
  ([[0, 0, 0], [], [], [], [0, 0]], 3),
  ([[0], [], [0, 0], [], [0, 0]], 3),
  ([[0], [], [], [0, 0], [0, 0]], 3),
  ([[0], [0], [], [], [0, 0, 0]], 3),
  ([[0, 0, 0], [0, 0], [], [], []], 3),
  ([[0], [0, 0, 0], [], [], [0]], 3),
  ([[0], [0, 0], [0, 0], [], []], 3),
  ([[0], [0, 0], [], [0, 0], []], 3),
  ([[], [0, 0, 0], [0], [0], []], 3),
  ([[], [0, 0, 0], [], [0, 0], []], 3),
  ([[], [0, 0, 0], [], [0], [0]], 3),
  ([[0, 0, 0], [0], [], [0], []], 3),
  ([[0], [], [0, 0, 0], [0], []], 3),
  ([[0], [0], [], [0, 0, 0], []], 3),
  ([[0], [], [], [0], [0, 0, 0]], 3),
  ([[0, 0], [0, 0, 0], [], [], []], 3),
  ([[0], [0, 0, 0], [0], [], []], 3),
  ([[0], [0, 0, 0], [], [], [0]], 3),
  ([[], [0, 0, 0], [], [0, 0], []], 3),
  ([[], [0, 0], [0], [0, 0], []], 3),
  ([[], [0, 0], [], [0, 0, 0], []], 3),
  ([[], [0, 0], [], [0, 0], [0]], 3),
  ([[0, 0, 0], [], [], [0, 0], []], 3),
  ([[0], [], [0, 0], [0, 0], []], 3),
  ([[0], [0], [], [0, 0, 0], []], 3),
  ([[0], [], [], [0, 0], [0, 0]], 3),
  ([[0, 0, 0], [0, 0], [], [], []], 3),
  ([[0], [0, 0, 0], [], [0], []], 3),
  ([[0], [0, 0], [0, 0], [], []], 3),
  ([[0], [0, 0], [], [], [0, 0]], 3),
  ([[], [0, 0], [], [], [0, 0, 0]], 3),
  ([[], [0], [0], [], [0, 0, 0]], 3),
  ([[], [0], [], [0], [0, 0, 0]], 3),
  ([[0, 0], [], [], [], [0, 0, 0]], 3),
  ([[0], [], [0], [], [0, 0, 0]], 3),
  ([[0], [], [], [0], [0, 0, 0]], 3),
  ([[0, 0, 0], [0], [], [], [0]], 3),
  ([[0], [0, 0, 0], [], [], [0]], 3),
  ([[0], [0], [0, 0, 0], [], []], 3),
  ([[0], [0], [], [0, 0, 0], []], 3),
  ([[], [0, 0], [], [0, 0, 0], []], 3),
  ([[], [0], [0], [0, 0, 0], []], 3),
  ([[], [0], [], [0, 0, 0], [0]], 3),
  ([[0, 0], [], [], [0, 0, 0], []], 3),
  ([[0], [], [0], [0, 0, 0], []], 3),
  ([[0], [], [], [0, 0, 0], [0]], 3),
  ([[0, 0, 0], [0], [], [0], []], 3),
  ([[0], [0, 0, 0], [], [0], []], 3),
  ([[0], [0], [0, 0, 0], [], []], 3),
  ([[0], [0], [], [], [0, 0, 0]], 3),
  ([[0], [0, 0, 0], [0], [], []], 3),
  ([[0], [0], [0, 0, 0], [], []], 3),
  ([[], [0], [0], [0, 0, 0], []], 3),
  ([[], [0], [0], [], [0, 0, 0]], 3),
  ([[0, 0, 0], [], [0, 0], [], []], 3),
  ([[0, 0, 0], [], [0], [0], []], 3),
  ([[0, 0, 0], [], [0], [], [0]], 3),
  ([[0, 0, 0], [0, 0], [], [], []], 3),
  ([[0, 0, 0], [0], [], [0], []], 3),
  ([[0, 0, 0], [0], [], [], [0]], 3),
  ([[0], [0, 0, 0], [0], [], []], 3),
  ([[], [0, 0], [0, 0, 0], [], []], 3),
  ([[], [0, 0], [0], [0, 0], []], 3),
  ([[], [0, 0], [0], [], [0, 0]], 3),
  ([[0, 0, 0], [0], [0], [], []], 3),
  ([[0, 0], [], [0, 0, 0], [], []], 3),
  ([[0, 0], [], [0], [0, 0], []], 3),
  ([[0, 0], [], [0], [], [0, 0]], 3),
  ([[0, 0, 0], [0, 0], [], [], []], 3),
  ([[0, 0], [0, 0, 0], [], [], []], 3),
  ([[0, 0], [0, 0], [], [0], []], 3),
  ([[0, 0], [0, 0], [], [], [0]], 3),
  ([[], [0, 0, 0], [0, 0], [], []], 3),
  ([[0], [0], [0, 0, 0], [], []], 3),
  ([[], [0], [0, 0], [0, 0], []], 3),
  ([[], [0], [0, 0], [], [0, 0]], 3),
  ([[0, 0, 0], [], [0, 0], [], []], 3),
  ([[0, 0], [], [0, 0, 0], [], []], 3),
  ([[0, 0], [], [0, 0], [0], []], 3),
  ([[0, 0], [], [0, 0], [], [0]], 3),
  ([[0, 0, 0], [0], [0], [], []], 3),
  ([[0, 0], [0, 0, 0], [], [], []], 3),
  ([[0, 0], [0], [], [0, 0], []], 3),
  ([[0, 0], [0], [], [], [0, 0]], 3),
  ([[], [0, 0, 0], [0, 0], [], []], 3),
  ([[], [0, 0, 0], [0], [0], []], 3),
  ([[], [0, 0, 0], [0], [], [0]], 3),
  ([[0, 0, 0], [0], [0], [], []], 3),
  ([[0], [0], [0, 0, 0], [], []], 3),
  ([[0], [], [0], [0, 0, 0], []], 3),
  ([[0], [], [0], [], [0, 0, 0]], 3),
  ([[0, 0], [0, 0, 0], [], [], []], 3),
  ([[0], [0, 0, 0], [], [0], []], 3),
  ([[0], [0, 0, 0], [], [], [0]], 3),
  ([[], [0, 0, 0], [0, 0], [], []], 3),
  ([[], [0, 0], [0, 0, 0], [], []], 3),
  ([[], [0, 0], [0, 0], [0], []], 3),
  ([[], [0, 0], [0, 0], [], [0]], 3),
  ([[0, 0, 0], [], [0, 0], [], []], 3),
  ([[0], [0], [0, 0, 0], [], []], 3),
  ([[0], [], [0, 0], [0, 0], []], 3),
  ([[0], [], [0, 0], [], [0, 0]], 3),
  ([[0, 0, 0], [0, 0], [], [], []], 3),
  ([[0], [0, 0, 0], [0], [], []], 3),
  ([[0], [0, 0], [], [0, 0], []], 3),
  ([[0], [0, 0], [], [], [0, 0]], 3),
  ([[], [0, 0], [0, 0, 0], [], []], 3),
  ([[], [0], [0, 0, 0], [0], []], 3),
  ([[], [0], [0, 0, 0], [], [0]], 3),
  ([[0, 0], [], [0, 0, 0], [], []], 3),
  ([[0], [], [0, 0, 0], [0], []], 3),
  ([[0], [], [0, 0, 0], [], [0]], 3),
  ([[0, 0, 0], [0], [0], [], []], 3),
  ([[0], [0, 0, 0], [0], [], []], 3),
  ([[0], [0], [], [0, 0, 0], []], 3),
  ([[0], [0], [], [], [0, 0, 0]], 3),
  ([[0, 0, 0], [], [], [], [0, 0]], 4),
  ([[], [0, 0, 0], [], [], [0, 0]], 4),
  ([[], [], [], [0, 0, 0], [0, 0]], 4),
  ([[], [], [0, 0], [], [0, 0, 0]], 4),
  ([[0, 0], [], [0, 0, 0], [], []], 4),
  ([[], [0, 0], [0, 0, 0], [], []], 4),
  ([[], [], [0, 0, 0], [0, 0], []], 4),
  ([[0, 0, 0], [], [], [0, 0], []], 4),
  ([[], [0, 0, 0], [], [0, 0], []], 4),
  ([[], [], [0, 0], [0, 0, 0], []], 4),
  ([[], [], [], [0, 0], [0, 0, 0]], 4),
  ([[0, 0], [], [0, 0, 0], [], []], 4),
  ([[], [0, 0], [0, 0, 0], [], []], 4),
  ([[], [], [0, 0, 0], [], [0, 0]], 4),
  ([[0, 0, 0], [], [], [], [0, 0]], 4),
  ([[], [0, 0, 0], [], [], [0, 0]], 4),
  ([[], [], [0, 0, 0], [], [0, 0]], 4),
  ([[], [], [], [0, 0], [0, 0, 0]], 4),
  ([[0, 0], [], [], [0, 0, 0], []], 4),
  ([[], [0, 0], [], [0, 0, 0], []], 4),
  ([[], [], [0, 0], [0, 0, 0], []], 4),
  ([[0, 0], [], [], [0, 0, 0], []], 4),
  ([[], [0, 0], [], [0, 0, 0], []], 4),
  ([[], [], [], [0, 0, 0], [0, 0]], 4),
  ([[0, 0, 0], [], [0, 0], [], []], 4),
  ([[], [0, 0, 0], [0, 0], [], []], 4),
  ([[], [], [0, 0, 0], [0, 0], []], 4),
  ([[], [], [0, 0], [], [0, 0, 0]], 4),
  ([[0, 0], [], [], [], [0, 0, 0]], 4),
  ([[], [0, 0], [], [], [0, 0, 0]], 4),
  ([[], [], [0, 0], [], [0, 0, 0]], 4),
  ([[0, 0, 0], [], [], [0, 0], []], 4),
  ([[], [0, 0, 0], [], [0, 0], []], 4),
  ([[], [], [0, 0, 0], [0, 0], []], 4),
  ([[], [], [], [0, 0, 0], [0, 0]], 4),
  ([[0, 0], [], [], [], [0, 0, 0]], 4),
  ([[], [0, 0], [], [], [0, 0, 0]], 4),
  ([[], [], [], [0, 0], [0, 0, 0]], 4),
  ([[0, 0, 0], [], [0, 0], [], []], 4),
  ([[], [0, 0, 0], [0, 0], [], []], 4),
  ([[], [], [0, 0, 0], [], [0, 0]], 4),
  ([[], [], [0, 0], [0, 0, 0], []], 4),
  ([[0, 0, 0], [], [], [], [0, 0]], 4),
  ([[], [], [0, 0, 0], [], [0, 0]], 4),
  ([[], [], [], [0, 0, 0], [0, 0]], 4),
  ([[], [0, 0], [], [], [0, 0, 0]], 4),
  ([[0, 0], [0, 0, 0], [], [], []], 4),
  ([[], [0, 0, 0], [0, 0], [], []], 4),
  ([[], [0, 0, 0], [], [0, 0], []], 4),
  ([[0, 0, 0], [], [], [0, 0], []], 4),
  ([[], [], [0, 0, 0], [0, 0], []], 4),
  ([[], [0, 0], [], [0, 0, 0], []], 4),
  ([[], [], [], [0, 0], [0, 0, 0]], 4),
  ([[0, 0], [0, 0, 0], [], [], []], 4),
  ([[], [0, 0, 0], [0, 0], [], []], 4),
  ([[], [0, 0, 0], [], [], [0, 0]], 4),
  ([[0, 0], [], [], [], [0, 0, 0]], 4),
  ([[], [], [0, 0], [], [0, 0, 0]], 4),
  ([[], [], [], [0, 0], [0, 0, 0]], 4),
  ([[0, 0, 0], [0, 0], [], [], []], 4),
  ([[], [0, 0, 0], [], [], [0, 0]], 4),
  ([[], [0, 0], [0, 0, 0], [], []], 4),
  ([[], [0, 0], [], [0, 0, 0], []], 4),
  ([[0, 0], [], [], [0, 0, 0], []], 4),
  ([[], [], [0, 0], [0, 0, 0], []], 4),
  ([[], [], [], [0, 0, 0], [0, 0]], 4),
  ([[0, 0, 0], [0, 0], [], [], []], 4),
  ([[], [0, 0, 0], [], [0, 0], []], 4),
  ([[], [0, 0], [0, 0, 0], [], []], 4),
  ([[], [0, 0], [], [], [0, 0, 0]], 4),
  ([[0, 0, 0], [], [0, 0], [], []], 4),
  ([[], [0, 0], [0, 0, 0], [], []], 4),
  ([[], [], [0, 0], [0, 0, 0], []], 4),
  ([[], [], [0, 0], [], [0, 0, 0]], 4),
  ([[0, 0], [0, 0, 0], [], [], []], 4),
  ([[], [0, 0, 0], [], [0, 0], []], 4),
  ([[], [0, 0, 0], [], [], [0, 0]], 4),
  ([[0, 0], [], [0, 0, 0], [], []], 4),
  ([[], [], [0, 0, 0], [0, 0], []], 4),
  ([[], [], [0, 0, 0], [], [0, 0]], 4),
  ([[0, 0, 0], [0, 0], [], [], []], 4),
  ([[], [0, 0, 0], [0, 0], [], []], 4),
  ([[], [0, 0], [], [0, 0, 0], []], 4),
  ([[], [0, 0], [], [], [0, 0, 0]], 4)]

set_option maxHeartbeats 4000000 in
/-- Visited list of the bounded search on searchBudgetGame after 500 pops. -/
def sbV500 : List (List (List Color)) :=
  [[[], [0, 0], [0, 0, 0], [], []],
  [[], [0, 0, 0], [0, 0], [], []],
  [[], [0, 0], [], [0, 0, 0], []],
  [[], [0, 0], [], [], [0, 0, 0]],
  [[], [0, 0, 0], [], [0, 0], []],
  [[], [0, 0, 0], [], [], [0, 0]],
  [[], [], [0, 0], [], [0, 0, 0]],
  [[], [], [], [0, 0], [0, 0, 0]],
  [[], [], [0, 0], [0, 0, 0], []],
  [[], [], [], [0, 0, 0], [0, 0]],
  [[], [], [0, 0, 0], [0, 0], []],
  [[], [], [0, 0, 0], [], [0, 0]],
  [[0], [0], [0, 0, 0], [], []],
  [[0], [0, 0], [0, 0], [], []],
  [[0], [0, 0, 0], [0], [], []],
  [[0, 0], [0], [0, 0], [], []],
  [[0, 0], [0, 0], [0], [], []],
  [[0, 0, 0], [0], [0], [], []],
  [[0], [0], [], [0, 0, 0], []],
  [[0], [0], [], [], [0, 0, 0]],
  [[0], [0, 0], [], [0, 0], []],
  [[0], [0, 0, 0], [], [0], []],
  [[0], [0, 0], [], [], [0, 0]],
  [[0], [0, 0, 0], [], [], [0]],
  [[0, 0], [0], [], [0, 0], []],
  [[0, 0], [0, 0], [], [0], []],
  [[0, 0, 0], [0], [], [0], []],
  [[0, 0], [0], [], [], [0, 0]],
  [[0, 0], [0, 0], [], [], [0]],
  [[0, 0, 0], [0], [], [], [0]],
  [[0], [], [0], [0, 0, 0], []],
  [[0], [], [0], [], [0, 0, 0]],
  [[0], [], [], [0, 0], [0, 0]],
  [[0], [], [0, 0], [0, 0], []],
  [[0], [], [0, 0, 0], [0], []],
  [[0], [], [0, 0], [], [0, 0]],
  [[0], [], [0, 0, 0], [], [0]],
  [[0], [], [], [0], [0, 0, 0]],
  [[0], [], [], [0, 0, 0], [0]],
  [[0, 0], [], [0], [0, 0], []],
  [[0, 0], [], [0, 0], [0], []],
  [[0, 0, 0], [], [0], [0], []],
  [[0, 0], [], [0], [], [0, 0]],
  [[0, 0], [], [0, 0], [], [0]],
  [[0, 0, 0], [], [0], [], [0]],
  [[0, 0], [], [], [0], [0, 0]],
  [[0, 0], [], [], [0, 0], [0]],
  [[0, 0, 0], [], [], [0], [0]],
  [[], [0], [0], [0, 0, 0], []],
  [[], [0], [0], [], [0, 0, 0]],
  [[], [0], [], [0, 0], [0, 0]],
  [[], [], [0], [0, 0], [0, 0]],
  [[], [0], [0, 0], [0, 0], []],
  [[], [0], [0, 0, 0], [0], []],
  [[], [0], [0, 0], [], [0, 0]],
  [[], [0], [0, 0, 0], [], [0]],
  [[], [0], [], [0], [0, 0, 0]],
  [[], [0], [], [0, 0, 0], [0]],
  [[], [], [0, 0], [0], [0, 0]],
  [[], [], [0, 0], [0, 0], [0]],
  [[], [0, 0], [0], [0, 0], []],
  [[], [0, 0], [0, 0], [0], []],
  [[], [0, 0, 0], [0], [0], []],
  [[], [0, 0], [0], [], [0, 0]],
  [[], [0, 0], [0, 0], [], [0]],
  [[], [0, 0, 0], [0], [], [0]],
  [[], [0, 0], [], [0], [0, 0]],
  [[], [0, 0], [], [0, 0], [0]],
  [[], [0, 0, 0], [], [0], [0]],
  [[], [], [0], [0], [0, 0, 0]],
  [[], [], [0], [0, 0, 0], [0]],
  [[], [], [0, 0, 0], [0], [0]],
  [[0], [0], [0], [0, 0], []],
  [[0], [0], [0, 0], [0], []],
  [[0], [0, 0], [0], [0], []],
  [[0, 0], [0], [0], [0], []],
  [[0], [0], [0], [], [0, 0]],
  [[0], [0], [0, 0], [], [0]],
  [[0], [0, 0], [0], [], [0]],
  [[0, 0], [0], [0], [], [0]],
  [[0], [0], [], [0], [0, 0]],
  [[0], [0], [], [0, 0], [0]],
  [[0], [0, 0], [], [0], [0]],
  [[0, 0], [0], [], [0], [0]],
  [[0], [], [0], [0], [0, 0]],
  [[0], [], [0], [0, 0], [0]],
  [[0], [], [0, 0], [0], [0]],
  [[0, 0], [], [0], [0], [0]],
  [[], [0], [0], [0], [0, 0]],
  [[], [0], [0], [0, 0], [0]],
  [[], [0], [0, 0], [0], [0]],
  [[], [0, 0], [0], [0], [0]],
  [[0], [0], [0], [0], [0]]]

set_option maxHeartbeats 4000000 in
/-- Queue contents of the bounded search on searchBudgetGame after 750 pops. -/
def sbQ750 : List (List (List Color) × Nat) :=
  [([[], [], [0, 0, 0], [0, 0], []], 3),
  ([[], [], [0, 0, 0], [0], [0]], 3),
  ([[0, 0, 0], [], [0], [0], []], 3),
  ([[0], [0, 0, 0], [], [0], []], 3),
  ([[0], [], [0], [0, 0, 0], []], 3),
  ([[0], [], [], [0], [0, 0, 0]], 3),
  ([[0, 0], [], [0, 0, 0], [], []], 3),
  ([[0], [0], [0, 0, 0], [], []], 3),
  ([[0], [], [0, 0, 0], [], [0]], 3),
  ([[], [0], [0, 0], [0, 0], []], 3),
  ([[], [], [0, 0, 0], [0, 0], []], 3),
  ([[], [], [0, 0], [0, 0, 0], []], 3),
  ([[], [], [0, 0], [0, 0], [0]], 3),
  ([[0, 0, 0], [], [], [0, 0], []], 3),
  ([[0], [0, 0], [], [0, 0], []], 3),
  ([[0], [], [0], [0, 0, 0], []], 3),
  ([[0], [], [], [0, 0], [0, 0]], 3),
  ([[0, 0, 0], [], [0, 0], [], []], 3),
  ([[0], [0, 0], [0, 0], [], []], 3),
  ([[0], [], [0, 0, 0], [0], []], 3),
  ([[0], [], [0, 0], [], [0, 0]], 3),
  ([[], [0], [], [0, 0], [0, 0]], 3),
  ([[], [], [0], [0, 0], [0, 0]], 3),
  ([[], [], [], [0, 0, 0], [0, 0]], 3),
  ([[], [], [], [0, 0], [0, 0, 0]], 3),
  ([[0, 0, 0], [], [], [], [0, 0]], 3),
  ([[0], [0, 0], [], [], [0, 0]], 3),
  ([[0], [], [0, 0], [], [0, 0]], 3),
  ([[0], [], [], [0], [0, 0, 0]], 3),
  ([[0, 0, 0], [], [], [0, 0], []], 3),
  ([[0], [0, 0], [], [0, 0], []], 3),
  ([[0], [], [0, 0], [0, 0], []], 3),
  ([[0], [], [], [0, 0, 0], [0]], 3),
  ([[], [0], [0], [], [0, 0, 0]], 3),
  ([[], [], [0, 0], [], [0, 0, 0]], 3),
  ([[], [], [0], [0], [0, 0, 0]], 3),
  ([[0, 0], [], [], [], [0, 0, 0]], 3),
  ([[0], [0], [], [], [0, 0, 0]], 3),
  ([[0], [], [], [0], [0, 0, 0]], 3),
  ([[0, 0, 0], [], [0], [], [0]], 3),
  ([[0], [0, 0, 0], [0], [], []], 3),
  ([[0], [], [0, 0, 0], [], [0]], 3),
  ([[0], [], [0], [0, 0, 0], []], 3),
  ([[], [0], [0], [0, 0, 0], []], 3),
  ([[], [], [0, 0], [0, 0, 0], []], 3),
  ([[], [], [0], [0, 0, 0], [0]], 3),
  ([[0, 0], [], [], [0, 0, 0], []], 3),
  ([[0], [0], [], [0, 0, 0], []], 3),
  ([[0], [], [], [0, 0, 0], [0]], 3),
  ([[0, 0, 0], [], [0], [0], []], 3),
  ([[0], [0, 0, 0], [0], [], []], 3),
  ([[0], [], [0, 0, 0], [0], []], 3),
  ([[0], [], [0], [], [0, 0, 0]], 3),
  ([[0], [0, 0, 0], [], [], [0]], 3),
  ([[], [0], [0, 0, 0], [], [0]], 3),
  ([[], [0], [], [0, 0, 0], [0]], 3),
  ([[0], [0], [], [], [0, 0, 0]], 3),
  ([[0, 0, 0], [], [0], [], [0]], 3),
  ([[0, 0, 0], [], [], [0], [0]], 3),
  ([[0, 0, 0], [], [], [], [0, 0]], 3),
  ([[0, 0, 0], [0, 0], [], [], []], 3),
  ([[0, 0, 0], [0], [0], [], []], 3),
  ([[0, 0, 0], [0], [], [0], []], 3),
  ([[0], [0, 0, 0], [], [], [0]], 3),
  ([[], [0, 0], [0, 0], [], [0]], 3),
  ([[], [0, 0], [], [0, 0], [0]], 3),
  ([[], [0, 0], [], [], [0, 0, 0]], 3),
  ([[0, 0, 0], [0], [], [], [0]], 3),
  ([[0, 0], [], [0, 0], [], [0]], 3),
  ([[0, 0], [], [], [0, 0], [0]], 3),
  ([[0, 0], [], [], [], [0, 0, 0]], 3),
  ([[0, 0, 0], [0, 0], [], [], []], 3),
  ([[0, 0], [0, 0, 0], [], [], []], 3),
  ([[0, 0], [0, 0], [0], [], []], 3),
  ([[0, 0], [0, 0], [], [0], []], 3),
  ([[], [0, 0, 0], [], [], [0, 0]], 3),
  ([[], [0], [0, 0], [], [0, 0]], 3),
  ([[], [0], [], [0, 0], [0, 0]], 3),
  ([[0], [0], [], [], [0, 0, 0]], 3),
  ([[0, 0, 0], [], [], [], [0, 0]], 3),
  ([[0, 0], [], [0], [], [0, 0]], 3),
  ([[0, 0], [], [], [0], [0, 0]], 3),
  ([[0, 0], [], [], [], [0, 0, 0]], 3),
  ([[0, 0, 0], [0], [], [], [0]], 3),
  ([[0, 0], [0, 0, 0], [], [], []], 3),
  ([[0, 0], [0], [0, 0], [], []], 3),
  ([[0, 0], [0], [], [0, 0], []], 3),
  ([[0], [0, 0, 0], [], [0], []], 3),
  ([[], [0], [0, 0, 0], [0], []], 3),
  ([[0], [0], [], [0, 0, 0], []], 3),
  ([[], [0], [], [0], [0, 0, 0]], 3),
  ([[0, 0, 0], [], [0], [0], []], 3),
  ([[0, 0, 0], [], [], [0, 0], []], 3),
  ([[0, 0, 0], [], [], [0], [0]], 3),
  ([[0, 0, 0], [0, 0], [], [], []], 3),
  ([[0, 0, 0], [0], [0], [], []], 3),
  ([[0, 0, 0], [0], [], [], [0]], 3),
  ([[0], [0, 0, 0], [], [0], []], 3),
  ([[], [0, 0], [0, 0], [0], []], 3),
  ([[], [0, 0], [], [0, 0, 0], []], 3),
  ([[], [0, 0], [], [0], [0, 0]], 3),
  ([[0, 0, 0], [0], [], [0], []], 3),
  ([[0, 0], [], [0, 0], [0], []], 3),
  ([[0, 0], [], [], [0, 0, 0], []], 3),
  ([[0, 0], [], [], [0], [0, 0]], 3),
  ([[0, 0, 0], [0, 0], [], [], []], 3),
  ([[0, 0], [0, 0, 0], [], [], []], 3),
  ([[0, 0], [0, 0], [0], [], []], 3),
  ([[0, 0], [0, 0], [], [], [0]], 3),
  ([[], [0, 0, 0], [], [0, 0], []], 3),
  ([[], [0], [0, 0], [0, 0], []], 3),
  ([[0], [0], [], [0, 0, 0], []], 3),
  ([[], [0], [], [0, 0], [0, 0]], 3),
  ([[0, 0, 0], [], [], [0, 0], []], 3),
  ([[0, 0], [], [0], [0, 0], []], 3),
  ([[0, 0], [], [], [0, 0, 0], []], 3),
  ([[0, 0], [], [], [0, 0], [0]], 3),
  ([[0, 0, 0], [0], [], [0], []], 3),
  ([[0, 0], [0, 0, 0], [], [], []], 3),
  ([[0, 0], [0], [0, 0], [], []], 3),
  ([[0, 0], [0], [], [], [0, 0]], 3),
  ([[], [0, 0, 0], [0], [], [0]], 3),
  ([[], [0, 0, 0], [], [0], [0]], 3),
  ([[], [0, 0, 0], [], [], [0, 0]], 3),
  ([[0, 0, 0], [0], [], [], [0]], 3),
  ([[0], [], [0, 0, 0], [], [0]], 3),
  ([[0], [], [], [0, 0, 0], [0]], 3),
  ([[0], [0], [], [], [0, 0, 0]], 3),
  ([[0, 0], [0, 0, 0], [], [], []], 3),
  ([[0], [0, 0, 0], [0], [], []], 3),
  ([[0], [0, 0, 0], [], [0], []], 3),
  ([[], [0, 0, 0], [], [], [0, 0]], 3),
  ([[], [0, 0], [0], [], [0, 0]], 3),
  ([[], [0, 0], [], [0], [0, 0]], 3),
  ([[], [0, 0], [], [], [0, 0, 0]], 3),
  ([[0, 0, 0], [], [], [], [0, 0]], 3),
  ([[0], [], [0, 0], [], [0, 0]], 3),
  ([[0], [], [], [0, 0], [0, 0]], 3),
  ([[0], [0], [], [], [0, 0, 0]], 3),
  ([[0, 0, 0], [0, 0], [], [], []], 3),
  ([[0], [0, 0, 0], [], [], [0]], 3),
  ([[0], [0, 0], [0, 0], [], []], 3),
  ([[0], [0, 0], [], [0, 0], []], 3),
  ([[], [0, 0, 0], [0], [0], []], 3),
  ([[], [0, 0, 0], [], [0, 0], []], 3),
  ([[], [0, 0, 0], [], [0], [0]], 3),
  ([[0, 0, 0], [0], [], [0], []], 3),
  ([[0], [], [0, 0, 0], [0], []], 3),
  ([[0], [0], [], [0, 0, 0], []], 3),
  ([[0], [], [], [0], [0, 0, 0]], 3),
  ([[0, 0], [0, 0, 0], [], [], []], 3),
  ([[0], [0, 0, 0], [0], [], []], 3),
  ([[0], [0, 0, 0], [], [], [0]], 3),
  ([[], [0, 0, 0], [], [0, 0], []], 3),
  ([[], [0, 0], [0], [0, 0], []], 3),
  ([[], [0, 0], [], [0, 0, 0], []], 3),
  ([[], [0, 0], [], [0, 0], [0]], 3),
  ([[0, 0, 0], [], [], [0, 0], []], 3),
  ([[0], [], [0, 0], [0, 0], []], 3),
  ([[0], [0], [], [0, 0, 0], []], 3),
  ([[0], [], [], [0, 0], [0, 0]], 3),
  ([[0, 0, 0], [0, 0], [], [], []], 3),
  ([[0], [0, 0, 0], [], [0], []], 3),
  ([[0], [0, 0], [0, 0], [], []], 3),
  ([[0], [0, 0], [], [], [0, 0]], 3),
  ([[], [0, 0], [], [], [0, 0, 0]], 3),
  ([[], [0], [0], [], [0, 0, 0]], 3),
  ([[], [0], [], [0], [0, 0, 0]], 3),
  ([[0, 0], [], [], [], [0, 0, 0]], 3),
  ([[0], [], [0], [], [0, 0, 0]], 3),
  ([[0], [], [], [0], [0, 0, 0]], 3),
  ([[0, 0, 0], [0], [], [], [0]], 3),
  ([[0], [0, 0, 0], [], [], [0]], 3),
  ([[0], [0], [0, 0, 0], [], []], 3),
  ([[0], [0], [], [0, 0, 0], []], 3),
  ([[], [0, 0], [], [0, 0, 0], []], 3),
  ([[], [0], [0], [0, 0, 0], []], 3),
  ([[], [0], [], [0, 0, 0], [0]], 3),
  ([[0, 0], [], [], [0, 0, 0], []], 3),
  ([[0], [], [0], [0, 0, 0], []], 3),
  ([[0], [], [], [0, 0, 0], [0]], 3),
  ([[0, 0, 0], [0], [], [0], []], 3),
  ([[0], [0, 0, 0], [], [0], []], 3),
  ([[0], [0], [0, 0, 0], [], []], 3),
  ([[0], [0], [], [], [0, 0, 0]], 3),
  ([[0], [0, 0, 0], [0], [], []], 3),
  ([[0], [0], [0, 0, 0], [], []], 3),
  ([[], [0], [0], [0, 0, 0], []], 3),
  ([[], [0], [0], [], [0, 0, 0]], 3),
  ([[0, 0, 0], [], [0, 0], [], []], 3),
  ([[0, 0, 0], [], [0], [0], []], 3),
  ([[0, 0, 0], [], [0], [], [0]], 3),
  ([[0, 0, 0], [0, 0], [], [], []], 3),
  ([[0, 0, 0], [0], [], [0], []], 3),
  ([[0, 0, 0], [0], [], [], [0]], 3),
  ([[0], [0, 0, 0], [0], [], []], 3),
  ([[], [0, 0], [0, 0, 0], [], []], 3),
  ([[], [0, 0], [0], [0, 0], []], 3),
  ([[], [0, 0], [0], [], [0, 0]], 3),
  ([[0, 0, 0], [0], [0], [], []], 3),
  ([[0, 0], [], [0, 0, 0], [], []], 3),
  ([[0, 0], [], [0], [0, 0], []], 3),
  ([[0, 0], [], [0], [], [0, 0]], 3),
  ([[0, 0, 0], [0, 0], [], [], []], 3),
  ([[0, 0], [0, 0, 0], [], [], []], 3),
  ([[0, 0], [0, 0], [], [0], []], 3),
  ([[0, 0], [0, 0], [], [], [0]], 3),
  ([[], [0, 0, 0], [0, 0], [], []], 3),
  ([[0], [0], [0, 0, 0], [], []], 3),
  ([[], [0], [0, 0], [0, 0], []], 3),
  ([[], [0], [0, 0], [], [0, 0]], 3),
  ([[0, 0, 0], [], [0, 0], [], []], 3),
  ([[0, 0], [], [0, 0, 0], [], []], 3),
  ([[0, 0], [], [0, 0], [0], []], 3),
  ([[0, 0], [], [0, 0], [], [0]], 3),
  ([[0, 0, 0], [0], [0], [], []], 3),
  ([[0, 0], [0, 0, 0], [], [], []], 3),
  ([[0, 0], [0], [], [0, 0], []], 3),
  ([[0, 0], [0], [], [], [0, 0]], 3),
  ([[], [0, 0, 0], [0, 0], [], []], 3),
  ([[], [0, 0, 0], [0], [0], []], 3),
  ([[], [0, 0, 0], [0], [], [0]], 3),
  ([[0, 0, 0], [0], [0], [], []], 3),
  ([[0], [0], [0, 0, 0], [], []], 3),
  ([[0], [], [0], [0, 0, 0], []], 3),
  ([[0], [], [0], [], [0, 0, 0]], 3),
  ([[0, 0], [0, 0, 0], [], [], []], 3),
  ([[0], [0, 0, 0], [], [0], []], 3),
  ([[0], [0, 0, 0], [], [], [0]], 3),
  ([[], [0, 0, 0], [0, 0], [], []], 3),
  ([[], [0, 0], [0, 0, 0], [], []], 3),
  ([[], [0, 0], [0, 0], [0], []], 3),
  ([[], [0, 0], [0, 0], [], [0]], 3),
  ([[0, 0, 0], [], [0, 0], [], []], 3),
  ([[0], [0], [0, 0, 0], [], []], 3),
  ([[0], [], [0, 0], [0, 0], []], 3),
  ([[0], [], [0, 0], [], [0, 0]], 3),
  ([[0, 0, 0], [0, 0], [], [], []], 3),
  ([[0], [0, 0, 0], [0], [], []], 3),
  ([[0], [0, 0], [], [0, 0], []], 3),
  ([[0], [0, 0], [], [], [0, 0]], 3),
  ([[], [0, 0], [0, 0, 0], [], []], 3),
  ([[], [0], [0, 0, 0], [0], []], 3),
  ([[], [0], [0, 0, 0], [], [0]], 3),
  ([[0, 0], [], [0, 0, 0], [], []], 3),
  ([[0], [], [0, 0, 0], [0], []], 3),
  ([[0], [], [0, 0, 0], [], [0]], 3),
  ([[0, 0, 0], [0], [0], [], []], 3),
  ([[0], [0, 0, 0], [0], [], []], 3),
  ([[0], [0], [], [0, 0, 0], []], 3),
  ([[0], [0], [], [], [0, 0, 0]], 3),
  ([[0, 0, 0], [], [], [], [0, 0]], 4),
  ([[], [0, 0, 0], [], [], [0, 0]], 4),
  ([[], [], [], [0, 0, 0], [0, 0]], 4),
  ([[], [], [0, 0], [], [0, 0, 0]], 4),
  ([[0, 0], [], [0, 0, 0], [], []], 4),
  ([[], [0, 0], [0, 0, 0], [], []], 4),
  ([[], [], [0, 0, 0], [0, 0], []], 4),
  ([[0, 0, 0], [], [], [0, 0], []], 4),
  ([[], [0, 0, 0], [], [0, 0], []], 4),
  ([[], [], [0, 0], [0, 0, 0], []], 4),
  ([[], [], [], [0, 0], [0, 0, 0]], 4),
  ([[0, 0], [], [0, 0, 0], [], []], 4),
  ([[], [0, 0], [0, 0, 0], [], []], 4),
  ([[], [], [0, 0, 0], [], [0, 0]], 4),
  ([[0, 0, 0], [], [], [], [0, 0]], 4),
  ([[], [0, 0, 0], [], [], [0, 0]], 4),
  ([[], [], [0, 0, 0], [], [0, 0]], 4),
  ([[], [], [], [0, 0], [0, 0, 0]], 4),
  ([[0, 0], [], [], [0, 0, 0], []], 4),
  ([[], [0, 0], [], [0, 0, 0], []], 4),
  ([[], [], [0, 0], [0, 0, 0], []], 4),
  ([[0, 0], [], [], [0, 0, 0], []], 4),
  ([[], [0, 0], [], [0, 0, 0], []], 4),
  ([[], [], [], [0, 0, 0], [0, 0]], 4),
  ([[0, 0, 0], [], [0, 0], [], []], 4),
  ([[], [0, 0, 0], [0, 0], [], []], 4),
  ([[], [], [0, 0, 0], [0, 0], []], 4),
  ([[], [], [0, 0], [], [0, 0, 0]], 4),
  ([[0, 0], [], [], [], [0, 0, 0]], 4),
  ([[], [0, 0], [], [], [0, 0, 0]], 4),
  ([[], [], [0, 0], [], [0, 0, 0]], 4),
  ([[0, 0, 0], [], [], [0, 0], []], 4),
  ([[], [0, 0, 0], [], [0, 0], []], 4),
  ([[], [], [0, 0, 0], [0, 0], []], 4),
  ([[], [], [], [0, 0, 0], [0, 0]], 4),
  ([[0, 0], [], [], [], [0, 0, 0]], 4),
  ([[], [0, 0], [], [], [0, 0, 0]], 4),
  ([[], [], [], [0, 0], [0, 0, 0]], 4),
  ([[0, 0, 0], [], [0, 0], [], []], 4),
  ([[], [0, 0, 0], [0, 0], [], []], 4),
  ([[], [], [0, 0, 0], [], [0, 0]], 4),
  ([[], [], [0, 0], [0, 0, 0], []], 4),
  ([[0, 0, 0], [], [], [], [0, 0]], 4),
  ([[], [], [0, 0, 0], [], [0, 0]], 4),
  ([[], [], [], [0, 0, 0], [0, 0]], 4),
  ([[], [0, 0], [], [], [0, 0, 0]], 4),
  ([[0, 0], [0, 0, 0], [], [], []], 4),
  ([[], [0, 0, 0], [0, 0], [], []], 4),
  ([[], [0, 0, 0], [], [0, 0], []], 4),
  ([[0, 0, 0], [], [], [0, 0], []], 4),
  ([[], [], [0, 0, 0], [0, 0], []], 4),
  ([[], [0, 0], [], [0, 0, 0], []], 4),
  ([[], [], [], [0, 0], [0, 0, 0]], 4),
  ([[0, 0], [0, 0, 0], [], [], []], 4),
  ([[], [0, 0, 0], [0, 0], [], []], 4),
  ([[], [0, 0, 0], [], [], [0, 0]], 4),
  ([[0, 0], [], [], [], [0, 0, 0]], 4),
  ([[], [], [0, 0], [], [0, 0, 0]], 4),
  ([[], [], [], [0, 0], [0, 0, 0]], 4),
  ([[0, 0, 0], [0, 0], [], [], []], 4),
  ([[], [0, 0, 0], [], [], [0, 0]], 4),
  ([[], [0, 0], [0, 0, 0], [], []], 4),
  ([[], [0, 0], [], [0, 0, 0], []], 4),
  ([[0, 0], [], [], [0, 0, 0], []], 4),
  ([[], [], [0, 0], [0, 0, 0], []], 4),
  ([[], [], [], [0, 0, 0], [0, 0]], 4),
  ([[0, 0, 0], [0, 0], [], [], []], 4),
  ([[], [0, 0, 0], [], [0, 0], []], 4),
  ([[], [0, 0], [0, 0, 0], [], []], 4),
  ([[], [0, 0], [], [], [0, 0, 0]], 4),
  ([[0, 0, 0], [], [0, 0], [], []], 4),
  ([[], [0, 0], [0, 0, 0], [], []], 4),
  ([[], [], [0, 0], [0, 0, 0], []], 4),
  ([[], [], [0, 0], [], [0, 0, 0]], 4),
  ([[0, 0], [0, 0, 0], [], [], []], 4),
  ([[], [0, 0, 0], [], [0, 0], []], 4),
  ([[], [0, 0, 0], [], [], [0, 0]], 4),
  ([[0, 0], [], [0, 0, 0], [], []], 4),
  ([[], [], [0, 0, 0], [0, 0], []], 4),
  ([[], [], [0, 0, 0], [], [0, 0]], 4),
  ([[0, 0, 0], [0, 0], [], [], []], 4),
  ([[], [0, 0, 0], [0, 0], [], []], 4),
  ([[], [0, 0], [], [0, 0, 0], []], 4),
  ([[], [0, 0], [], [], [0, 0, 0]], 4),
  ([[], [0, 0, 0], [], [], [0, 0]], 4),
  ([[], [], [0, 0, 0], [], [0, 0]], 4),
  ([[], [], [], [0, 0, 0], [0, 0]], 4),
  ([[0, 0], [], [], [], [0, 0, 0]], 4),
  ([[0, 0, 0], [0, 0], [], [], []], 4),
  ([[0, 0, 0], [], [0, 0], [], []], 4),
  ([[0, 0, 0], [], [], [0, 0], []], 4),
  ([[], [0, 0, 0], [], [0, 0], []], 4),
  ([[], [], [0, 0, 0], [0, 0], []], 4),
  ([[0, 0], [], [], [0, 0, 0], []], 4),
  ([[], [], [], [0, 0], [0, 0, 0]], 4),
  ([[0, 0, 0], [0, 0], [], [], []], 4),
  ([[0, 0, 0], [], [0, 0], [], []], 4),
  ([[0, 0, 0], [], [], [], [0, 0]], 4),
  ([[], [0, 0], [], [], [0, 0, 0]], 4),
  ([[], [], [0, 0], [], [0, 0, 0]], 4),
  ([[], [], [], [0, 0], [0, 0, 0]], 4),
  ([[0, 0, 0], [], [], [], [0, 0]], 4),
  ([[0, 0], [0, 0, 0], [], [], []], 4),
  ([[0, 0], [], [0, 0, 0], [], []], 4),
  ([[0, 0], [], [], [0, 0, 0], []], 4),
  ([[], [0, 0], [], [0, 0, 0], []], 4),
  ([[], [], [0, 0], [0, 0, 0], []], 4),
  ([[], [], [], [0, 0, 0], [0, 0]], 4),
  ([[0, 0, 0], [], [], [0, 0], []], 4),
  ([[0, 0], [0, 0, 0], [], [], []], 4),
  ([[0, 0], [], [0, 0, 0], [], []], 4),
  ([[0, 0], [], [], [], [0, 0, 0]], 4),
  ([[], [0, 0, 0], [0, 0], [], []], 4),
  ([[0, 0], [], [0, 0, 0], [], []], 4),
  ([[], [], [0, 0], [0, 0, 0], []], 4),
  ([[], [], [0, 0], [], [0, 0, 0]], 4),
  ([[0, 0, 0], [0, 0], [], [], []], 4),
  ([[0, 0, 0], [], [], [0, 0], []], 4),
  ([[0, 0, 0], [], [], [], [0, 0]], 4),
  ([[], [0, 0], [0, 0, 0], [], []], 4),
  ([[], [], [0, 0, 0], [0, 0], []], 4),
  ([[], [], [0, 0, 0], [], [0, 0]], 4),
  ([[0, 0, 0], [], [0, 0], [], []], 4),
  ([[0, 0], [0, 0, 0], [], [], []], 4),
  ([[0, 0], [], [], [0, 0, 0], []], 4),
  ([[0, 0], [], [], [], [0, 0, 0]], 4)]

set_option maxHeartbeats 4000000 in
/-- Visited list of the bounded search on searchBudgetGame after 750 pops. -/
def sbV750 : List (List (List Color)) :=
  [[[0, 0], [], [0, 0, 0], [], []],
  [[0, 0, 0], [], [0, 0], [], []],
  [[0, 0], [], [], [0, 0, 0], []],
  [[0, 0], [], [], [], [0, 0, 0]],
  [[0, 0, 0], [], [], [0, 0], []],
  [[0, 0, 0], [], [], [], [0, 0]],
  [[], [0, 0], [0, 0, 0], [], []],
  [[], [0, 0, 0], [0, 0], [], []],
  [[], [0, 0], [], [0, 0, 0], []],
  [[], [0, 0], [], [], [0, 0, 0]],
  [[], [0, 0, 0], [], [0, 0], []],
  [[], [0, 0, 0], [], [], [0, 0]],
  [[], [], [0, 0], [], [0, 0, 0]],
  [[], [], [], [0, 0], [0, 0, 0]],
  [[], [], [0, 0], [0, 0, 0], []],
  [[], [], [], [0, 0, 0], [0, 0]],
  [[], [], [0, 0, 0], [0, 0], []],
  [[], [], [0, 0, 0], [], [0, 0]],
  [[0], [0], [0, 0, 0], [], []],
  [[0], [0, 0], [0, 0], [], []],
  [[0], [0, 0, 0], [0], [], []],
  [[0, 0], [0], [0, 0], [], []],
  [[0, 0], [0, 0], [0], [], []],
  [[0, 0, 0], [0], [0], [], []],
  [[0], [0], [], [0, 0, 0], []],
  [[0], [0], [], [], [0, 0, 0]],
  [[0], [0, 0], [], [0, 0], []],
  [[0], [0, 0, 0], [], [0], []],
  [[0], [0, 0], [], [], [0, 0]],
  [[0], [0, 0, 0], [], [], [0]],
  [[0, 0], [0], [], [0, 0], []],
  [[0, 0], [0, 0], [], [0], []],
  [[0, 0, 0], [0], [], [0], []],
  [[0, 0], [0], [], [], [0, 0]],
  [[0, 0], [0, 0], [], [], [0]],
  [[0, 0, 0], [0], [], [], [0]],
  [[0], [], [0], [0, 0, 0], []],
  [[0], [], [0], [], [0, 0, 0]],
  [[0], [], [], [0, 0], [0, 0]],
  [[0], [], [0, 0], [0, 0], []],
  [[0], [], [0, 0, 0], [0], []],
  [[0], [], [0, 0], [], [0, 0]],
  [[0], [], [0, 0, 0], [], [0]],
  [[0], [], [], [0], [0, 0, 0]],
  [[0], [], [], [0, 0, 0], [0]],
  [[0, 0], [], [0], [0, 0], []],
  [[0, 0], [], [0, 0], [0], []],
  [[0, 0, 0], [], [0], [0], []],
  [[0, 0], [], [0], [], [0, 0]],
  [[0, 0], [], [0, 0], [], [0]],
  [[0, 0, 0], [], [0], [], [0]],
  [[0, 0], [], [], [0], [0, 0]],
  [[0, 0], [], [], [0, 0], [0]],
  [[0, 0, 0], [], [], [0], [0]],
  [[], [0], [0], [0, 0, 0], []],
  [[], [0], [0], [], [0, 0, 0]],
  [[], [0], [], [0, 0], [0, 0]],
  [[], [], [0], [0, 0], [0, 0]],
  [[], [0], [0, 0], [0, 0], []],
  [[], [0], [0, 0, 0], [0], []],
  [[], [0], [0, 0], [], [0, 0]],
  [[], [0], [0, 0, 0], [], [0]],
  [[], [0], [], [0], [0, 0, 0]],
  [[], [0], [], [0, 0, 0], [0]],
  [[], [], [0, 0], [0], [0, 0]],
  [[], [], [0, 0], [0, 0], [0]],
  [[], [0, 0], [0], [0, 0], []],
  [[], [0, 0], [0, 0], [0], []],
  [[], [0, 0, 0], [0], [0], []],
  [[], [0, 0], [0], [], [0, 0]],
  [[], [0, 0], [0, 0], [], [0]],
  [[], [0, 0, 0], [0], [], [0]],
  [[], [0, 0], [], [0], [0, 0]],
  [[], [0, 0], [], [0, 0], [0]],
  [[], [0, 0, 0], [], [0], [0]],
  [[], [], [0], [0], [0, 0, 0]],
  [[], [], [0], [0, 0, 0], [0]],
  [[], [], [0, 0, 0], [0], [0]],
  [[0], [0], [0], [0, 0], []],
  [[0], [0], [0, 0], [0], []],
  [[0], [0, 0], [0], [0], []],
  [[0, 0], [0], [0], [0], []],
  [[0], [0], [0], [], [0, 0]],
  [[0], [0], [0, 0], [], [0]],
  [[0], [0, 0], [0], [], [0]],
  [[0, 0], [0], [0], [], [0]],
  [[0], [0], [], [0], [0, 0]],
  [[0], [0], [], [0, 0], [0]],
  [[0], [0, 0], [], [0], [0]],
  [[0, 0], [0], [], [0], [0]],
  [[0], [], [0], [0], [0, 0]],
  [[0], [], [0], [0, 0], [0]],
  [[0], [], [0, 0], [0], [0]],
  [[0, 0], [], [0], [0], [0]],
  [[], [0], [0], [0], [0, 0]],
  [[], [0], [0], [0, 0], [0]],
  [[], [0], [0, 0], [0], [0]],
  [[], [0, 0], [0], [0], [0]],
  [[0], [0], [0], [0], [0]]]

/-- A game whose color count exceeds `N - J` (with positive capacity), so
the reverse-generation parameter guard rejects it. -/
def overColored : Game :=
  { bottles := [[0], [0]], jars := [], bags := [0, 0, 0], collected := [false, false],
    N := 2, M := 2, J := 0, K := 5, JarCount := 0, JarCapacity := 0, UseBags := false,
    emptyCount := 0, emptyJarCount := 0, reverseSteps := [] }

/-- Scrambled two-bottle game carrying the one-step reverse log produced
from the solved state `[[0,0],[]]`; used as a concrete round-trip witness. -/
def replayGame : Game :=
  { bottles := [[0], [0]], jars := [], bags := [0, 0, 0], collected := [false, false],
    N := 2, M := 2, J := 1, K := 1, JarCount := 0, JarCapacity := 0, UseBags := false,
    emptyCount := 0, emptyJarCount := 0, reverseSteps := [⟨0, 1, 1, 0⟩] }

/-! ## Helper lemmas -/

theorem getD_set_self (l : List α) (i : Nat) (x d : α) (h : i < l.length) :
    (l.set i x).getD i d = x := by
  induction l generalizing i with
  | nil => simp at h
  | cons a t ih =>
    cases i with
    | zero => rfl
    | succ j => simpa using ih j (by simpa using h)

theorem getD_set_ne (l : List α) {i j : Nat} (x d : α) (h : i ≠ j) :
    (l.set i x).getD j d = l.getD j d := by
  induction l generalizing i j with
  | nil => rfl
  | cons a t ih =>
    cases i with
    | zero => cases j with
      | zero => exact absurd rfl h
      | succ j2 => rfl
    | succ i2 => cases j with
      | zero => rfl
      | succ j2 => simpa using ih (fun hc => h (by omega))

theorem topRun_le_length (l : List Color) (c : Color) : topRun l c ≤ l.length := by
  unfold topRun
  calc (l.reverse.takeWhile (fun x => x == c)).length
      ≤ l.reverse.length := (List.takeWhile_sublist _).length_le
    _ = l.length := List.length_reverse l

theorem topRun_pos (l : List Color) (h : l ≠ []) : 0 < topRun l (l.getLastD 0) := by
  rcases List.eq_nil_or_concat l with h0 | ⟨ys, y, rfl⟩
  · exact absurd h0 h
  · unfold topRun
    simp only [List.concat_eq_append]
    rw [List.getLastD_concat, List.reverse_append]
    simp [List.takeWhile]

theorem lenI_nonneg (l : List α) : 0 ≤ lenI l := Int.ofNat_nonneg _

theorem lenI_sum_set (l : List (List Color)) (i : Nat) (x : List Color) (h : i < l.length) :
    ((l.set i x).map lenI).sum = (l.map lenI).sum - lenI (l.getD i []) + lenI x := by
  induction l generalizing i with
  | nil => simp at h
  | cons a t ih =>
    cases i with
    | zero => simp [lenI]; ring
    | succ j =>
      have h2 : j < t.length := by simpa using h
      have hs : (a :: t).set (j + 1) x = a :: t.set j x := rfl
      rw [hs, List.map_cons, List.sum_cons, List.map_cons, List.sum_cons, ih j h2,
        List.getD_cons_succ]
      ring

theorem lenI_sum_nonneg (l : List (List Color)) : 0 ≤ (l.map lenI).sum := by
  induction l with
  | nil => simp
  | cons a t ih => simpa using add_nonneg (lenI_nonneg a) ih

/-! ## Pour transition lemmas -/

theorem pour_reject_of (enum : List Color → List Color) (g : Game) (fromC toC : Int)
    (op : OpType) (h : rejectCond g fromC toC) :
    pourWithType enum g fromC toC op = ⟨false, 0, g⟩ := by
  unfold pourWithType
  split_ifs with h1 h2 h3 h4 h5 h6 h7 h8 <;> try rfl
  all_goals
    exfalso
    unfold rejectCond at h
    unfold topColorOf at h6
    rcases h with h | h | h | h | h | h
    exacts [h2 h, h1 h, h3 h, h4 h, h5 h, h6 h]

theorem pour_success_eq (enum : List Color → List Color) (g : Game) (fromC toC : Int)
    (op : OpType) (h : ¬ rejectCond g fromC toC) :
    pourWithType enum g fromC toC op =
      ⟨true, pourAmt g fromC toC,
        if g.UseBags = true ∧ op = OpType.user then
          (checkAndCollectBottles enum (pourCounted g fromC toC)).1
        else pourCounted g fromC toC⟩ := by
  unfold rejectCond at h
  push_neg at h
  obtain ⟨hc2, hc1, hc3, hc4, hc5, hc6⟩ := h
  have hrun : 0 < topRun (containerAt g fromC) ((containerAt g fromC).getLastD 0) :=
    topRun_pos _ hc4
  have hamt : ¬ pourAmt g fromC toC ≤ 0 := by
    unfold pourAmt topColorOf
    have hsp : 1 ≤ capacityAt g toC - lenI (containerAt g toC) := by omega
    omega
  unfold pourWithType
  rw [if_neg, if_neg hc2, if_neg, if_neg hc4, if_neg, if_neg, if_neg hamt]
  · intro hx
    rcases hx with ⟨hne, hcol⟩
    exact hcol (hc6 hne)
  · omega
  · intro hx
    rcases hx with ⟨hb, hor⟩
    rcases hor with ⟨hlt, hcoll⟩ | ⟨hlt, hcoll⟩
    · exact (hc3 hb).1 hlt hcoll
    · exact (hc3 hb).2 hlt hcoll
  · omega

theorem pourAmt_pos (g : Game) (fromC toC : Int) (h : ¬ rejectCond g fromC toC) :
    1 ≤ pourAmt g fromC toC := by
  unfold rejectCond at h
  push_neg at h
  obtain ⟨-, -, -, hc4, hc5, -⟩ := h
  have hrun : 0 < topRun (containerAt g fromC) ((containerAt g fromC).getLastD 0) :=
    topRun_pos _ hc4
  unfold pourAmt topColorOf
  have hsp : 1 ≤ capacityAt g toC - lenI (containerAt g toC) := by omega
  omega

theorem setContainerAt_N (g : Game) (i : Int) (b : List Color) :
    (setContainerAt g i b).N = g.N := by
  unfold setContainerAt; split_ifs <;> rfl

theorem WF_setContainerAt (g : Game) (i : Int) (b : List Color) (hwf : WF g) :
    WF (setContainerAt g i b) := by
  obtain ⟨h1, h2⟩ := hwf
  unfold setContainerAt WF
  split_ifs <;> constructor <;> simp [List.length_set, h1, h2]

theorem containerAt_set_self (g : Game) (i : Int) (b : List Color) (hwf : WF g)
    (h0 : 0 ≤ i) (hi : i < g.N + g.JarCount) :
    containerAt (setContainerAt g i b) i = b := by
  obtain ⟨h1, h2⟩ := hwf
  unfold containerAt setContainerAt
  split_ifs with hN
  · have : i.toNat < g.bottles.length := by omega
    simpa using getD_set_self _ _ _ _ this
  · have : (i - g.N).toNat < g.jars.length := by omega
    simpa using getD_set_self _ _ _ _ this

theorem containerAt_set_ne (g : Game) (i j : Int) (b : List Color)
    (hij : i ≠ j) (h0i : 0 ≤ i) (h0j : 0 ≤ j) :
    containerAt (setContainerAt g i b) j = containerAt g j := by
  unfold setContainerAt
  by_cases hiN : i < g.N
  · rw [if_pos hiN]
    unfold containerAt
    dsimp only
    by_cases hjN : j < g.N
    · rw [if_pos hjN, if_pos hjN]
      exact getD_set_ne _ _ _ (by omega)
    · rw [if_neg hjN, if_neg hjN]
  · rw [if_neg hiN]
    unfold containerAt
    dsimp only
    by_cases hjN : j < g.N
    · rw [if_pos hjN, if_pos hjN]
    · rw [if_neg hjN, if_neg hjN]
      exact getD_set_ne _ _ _ (by omega)

theorem pourCounted_bottles (g : Game) (fromC toC : Int) :
    (pourCounted g fromC toC).bottles = (pourApplied g fromC toC).bottles ∧
    (pourCounted g fromC toC).jars = (pourApplied g fromC toC).jars ∧
    (pourCounted g fromC toC).N = (pourApplied g fromC toC).N := by
  unfold pourCounted bumpFromCounter bumpToCounter
  split_ifs <;> exact ⟨rfl, rfl, rfl⟩

theorem containerAt_eq_of_fields (g g' : Game) (i : Int) (hb : g'.bottles = g.bottles)
    (hj : g'.jars = g.jars) (hN : g'.N = g.N) : containerAt g' i = containerAt g i := by
  unfold containerAt
  rw [hb, hj, hN]

theorem containerAt_pourCounted (g : Game) (fromC toC : Int) (i : Int) :
    containerAt (pourCounted g fromC toC) i = containerAt (pourApplied g fromC toC) i := by
  obtain ⟨hb, hj, hN⟩ := pourCounted_bottles g fromC toC
  exact containerAt_eq_of_fields _ _ _ hb hj hN

theorem setContainerAt_JarCount (g : Game) (i : Int) (b : List Color) :
    (setContainerAt g i b).JarCount = g.JarCount := by
  unfold setContainerAt; split_ifs <;> rfl

/-! ## Claim theorems: pour transition (C2, C3, C4) -/

/-- C3: `pourWithType` returns the rejection `(false, 0)` exactly when one
of the six rejection conditions holds, and any rejection leaves the entire
state (bottles, jars, bags, collected flags, counters, log) unchanged. -/
theorem pour_reject_characterization (enum : List Color → List Color) (g : Game)
    (fromC toC : Int) (op : OpType) :
    ((pourWithType enum g fromC toC op).ok = false ↔ rejectCond g fromC toC) ∧
    (rejectCond g fromC toC → pourWithType enum g fromC toC op = ⟨false, 0, g⟩) := by
  constructor
  · constructor
    · intro hok
      by_contra hr
      rw [pour_success_eq enum g fromC toC op hr] at hok
      simp at hok
    · intro hr
      rw [pour_reject_of enum g fromC toC op hr]
  · exact pour_reject_of enum g fromC toC op

/-- Witness for C3 at a concrete rejected pour (same-container). -/
theorem pour_reject_characterization_witness :
    pourWithType id twoSingles 0 0 OpType.user = ⟨false, 0, twoSingles⟩ :=
  (pour_reject_characterization id twoSingles 0 0 OpType.user).2 (by decide)

/-- C2 (amended): a non-rejected pour succeeds and moves exactly
`min(run, space) ≥ 1` units; the moved units appear appended to the
destination as one homogeneous run of the source's top color in the
post-transfer state — observable in the returned state whenever the pour is
internal or the game is not in bag mode (a bag-mode user pour may
immediately retire the completed destination; see the counterexample). -/
theorem pour_transfer_spec (enum : List Color → List Color) (g : Game) (fromC toC : Int)
    (op : OpType) (hwf : WF g) (h : ¬ rejectCond g fromC toC) :
    (pourWithType enum g fromC toC op).ok = true ∧
    (pourWithType enum g fromC toC op).moved =
      min ((topRun (containerAt g fromC) (topColorOf g fromC) : Nat) : Int)
        (capacityAt g toC - lenI (containerAt g toC)) ∧
    1 ≤ (pourWithType enum g fromC toC op).moved ∧
    ((g.UseBags = false ∨ op = OpType.internal) →
      containerAt (pourWithType enum g fromC toC op).st toC =
        containerAt g toC ++
          List.replicate (pourWithType enum g fromC toC op).moved.toNat (topColorOf g fromC) ∧
      containerAt (pourWithType enum g fromC toC op).st fromC =
        (containerAt g fromC).take
          ((containerAt g fromC).length - (pourWithType enum g fromC toC op).moved.toNat)) := by
  have he := pour_success_eq enum g fromC toC op h
  have hr : ¬ fromC = toC := fun hx => h (Or.inl hx)
  have hrange : ¬ (fromC < 0 ∨ fromC ≥ g.N + g.JarCount ∨ toC < 0 ∨ toC ≥ g.N + g.JarCount) :=
    fun hx => h (Or.inr (Or.inl hx))
  push_neg at hrange
  obtain ⟨hf0, hfN, ht0, htN⟩ := hrange
  refine ⟨by rw [he], by rw [he]; rfl, ?_, ?_⟩
  · rw [he]
    exact pourAmt_pos g fromC toC h
  · intro hmode
    have hcond : ¬ (g.UseBags = true ∧ op = OpType.user) := by
      rcases hmode with hb | hop
      · intro hx
        rw [hb] at hx
        exact Bool.false_ne_true hx.1
      · intro hx
        rw [hop] at hx
        exact OpType.noConfusion hx.2
    rw [he]
    dsimp only
    rw [if_neg hcond]
    constructor
    · rw [containerAt_pourCounted]
      unfold pourApplied
      rw [containerAt_set_ne _ fromC toC _ hr hf0 ht0,
        containerAt_set_self g toC _ hwf ht0 htN]
      rfl
    · rw [containerAt_pourCounted]
      unfold pourApplied
      rw [containerAt_set_self (setContainerAt g toC (toAfter g fromC toC)) fromC _
        (WF_setContainerAt g toC _ hwf) hf0
        (by rw [setContainerAt_N, setContainerAt_JarCount]; omega)]
      rfl

/-- Witness for C2 (amended) at a concrete non-bag pour. -/
theorem pour_transfer_spec_witness :
    (pourWithType id twoSingles 0 1 OpType.user).ok = true ∧
    (pourWithType id twoSingles 0 1 OpType.user).moved =
      min ((topRun (containerAt twoSingles 0) (topColorOf twoSingles 0) : Nat) : Int)
        (capacityAt twoSingles 1 - lenI (containerAt twoSingles 1)) ∧
    1 ≤ (pourWithType id twoSingles 0 1 OpType.user).moved ∧
    ((twoSingles.UseBags = false ∨ OpType.user = OpType.internal) →
      containerAt (pourWithType id twoSingles 0 1 OpType.user).st 1 =
        containerAt twoSingles 1 ++
          List.replicate (pourWithType id twoSingles 0 1 OpType.user).moved.toNat
            (topColorOf twoSingles 0) ∧
      containerAt (pourWithType id twoSingles 0 1 OpType.user).st 0 =
        (containerAt twoSingles 0).take
          ((containerAt twoSingles 0).length -
            (pourWithType id twoSingles 0 1 OpType.user).moved.toNat)) :=
  pour_transfer_spec id twoSingles 0 1 OpType.user ⟨rfl, rfl⟩ (by decide)

/-- Counterexample to C2 as stated: in bag mode, the user pour `0 → 1` on
`bagClearsDest` is not rejected and reports 1 moved unit, but the returned
state's destination bottle is empty — the completed destination was retired
by the collection cascade, so the moved units are not appended to the
destination in the resulting state. -/
theorem pour_transfer_bagmode_counterexample :
    (¬ rejectCond bagClearsDest 0 1) ∧
    (Pour id bagClearsDest 0 1).ok = true ∧
    (Pour id bagClearsDest 0 1).moved = 1 ∧
    (Pour id bagClearsDest 0 1).st.bottles.getD 1 [] = [] ∧
    ¬ (Pour id bagClearsDest 0 1).st.bottles.getD 1 [] =
        containerAt bagClearsDest 1 ++
          List.replicate (Pour id bagClearsDest 0 1).moved.toNat (topColorOf bagClearsDest 0) := by
  refine ⟨by decide, by decide, by decide, by decide, by decide⟩

/-- C4: the recorded empty-bottle counter is not maintained as the spec's
incremental rule demands.  On `twoSingles` (`[[0],[0]]`, `M = 2`) the pour
`0 → 1` empties the source, yet `emptyCount` stays `0`; on
`mixedOverSingle` (`[[1,0],[0]]`) the pour `0 → 1` leaves the source
nonempty (`[1]`), yet `emptyCount` is incremented to `1`.  Both follow from
the source testing `len(*from) == pourAmount` after the source was already
truncated. -/
theorem empty_counter_bug_eval :
    (Pour id twoSingles 0 1).ok = true ∧
    (Pour id twoSingles 0 1).st.bottles = [[], [0, 0]] ∧
    twoSingles.emptyCount = 0 ∧
    (Pour id twoSingles 0 1).st.emptyCount = 0 ∧
    (Pour id mixedOverSingle 0 1).ok = true ∧
    (Pour id mixedOverSingle 0 1).st.bottles = [[1], [0, 0]] ∧
    mixedOverSingle.emptyCount = 0 ∧
    (Pour id mixedOverSingle 0 1).st.emptyCount = 1 := by
  refine ⟨by decide, by decide, by decide, by decide, by decide, by decide, by decide, by decide⟩

/-! ## Claim theorems: creation-time validation (C6) -/

/-- C6 (amended): `NewWaterBottleGame` errors (constructing no state)
exactly for `N ≤ J`, `K ≤ 0`, `M ≤ 0`, `JarCount < 0`, or
`JarCount > 0` with `JarCapacity ≤ 0`; the divisibility check can never
fire since `(N-J)·M` is always a multiple of `M`.  The bound
`K ≤ (N-J)·M/M`, i.e. `K ≤ N-J`, is enforced not at creation but by the
guard of `generateInitialStateWithSteps`. -/
theorem creation_validation_spec :
    (∀ (enum : List Color → List Color) (N M J K JC JCap : Int) (UB : Bool),
      exceptOk (newWaterBottleGame enum N M J K JC JCap UB) = false ↔
        (N ≤ J ∨ K ≤ 0 ∨ M ≤ 0 ∨ JC < 0 ∨ (0 < JC ∧ JCap ≤ 0))) ∧
    (∀ g : Game, 0 < g.M →
      (exceptOk (generateStepsParamCheck g) = false ↔ g.N - g.J < g.K)) := by
  constructor
  · intro enum N M J K JC JCap UB
    unfold newWaterBottleGame
    split_ifs with h1 h2 h3 h4 h5 h6
    · simp only [exceptOk]
      tauto
    · simp only [exceptOk]
      tauto
    · simp only [exceptOk]
      tauto
    · simp only [exceptOk]
      tauto
    · simp only [exceptOk]
      tauto
    · exact absurd (Int.mul_emod_left (N - J) M) h6
    · exact iff_of_false (fun hx => nomatch hx) (by omega)
    · exact iff_of_false (fun hx => nomatch hx) (by omega)
  · intro g hM
    unfold generateStepsParamCheck
    rw [Int.mul_ediv_cancel _ (by omega : g.M ≠ 0)]
    split_ifs with hgt
    · simp only [exceptOk, true_iff]
      omega
    · simp only [exceptOk, Bool.true_eq_false, false_iff]
      omega

/-- Witness for C6 (amended): the spec's invalid-config scenario
`N=2, J=2, M=4, K=3` is rejected at creation, and `overColored`
(`K = 5 > N - J = 2`) is rejected by the generation guard. -/
theorem creation_validation_spec_witness :
    exceptOk (newWaterBottleGame id 2 4 2 3 0 0 false) = false ∧
    exceptOk (generateStepsParamCheck overColored) = false :=
  ⟨(creation_validation_spec.1 id 2 4 2 3 0 0 false).mpr (Or.inl (by norm_num)),
   (creation_validation_spec.2 overColored (by decide)).mpr (by decide)⟩

/-- Counterexample to C6 as stated: with `N=3, M=2, J=1, K=5` we have
`K > (N-J)·M/M = 2`, yet `NewWaterBottleGame` succeeds and constructs a
state — the color-count bound is not checked at creation. -/
theorem creation_no_K_check_counterexample :
    exceptOk (newWaterBottleGame id 3 2 1 5 0 0 false) = true ∧ ((3 - 1) * 2 / 2 : Int) < 5 := by
  refine ⟨by decide, by decide⟩

/-! ## Claim theorems: determinism and map iteration order (C9) -/

theorem pourWithType_enum_invariant (e1 e2 : List Color → List Color) (g : Game)
    (fromC toC : Int) (op : OpType) (hop : op = OpType.internal ∨ g.UseBags = false) :
    pourWithType e1 g fromC toC op = pourWithType e2 g fromC toC op := by
  by_cases hr : rejectCond g fromC toC
  · rw [pour_reject_of e1 _ _ _ _ hr, pour_reject_of e2 _ _ _ _ hr]
  · rw [pour_success_eq e1 _ _ _ _ hr, pour_success_eq e2 _ _ _ _ hr]
    have hcond : ¬ (g.UseBags = true ∧ op = OpType.user) := by
      rcases hop with h | h
      · intro hx
        rw [h] at hx
        exact OpType.noConfusion hx.2
      · intro hx
        rw [h] at hx
        exact nomatch hx.1
    rw [if_neg hcond, if_neg hcond]

theorem pourInternal_enum_invariant (e1 e2 : List Color → List Color) (g : Game)
    (fromC toC : Int) : pourInternal e1 g fromC toC = pourInternal e2 g fromC toC :=
  pourWithType_enum_invariant e1 e2 g fromC toC OpType.internal (Or.inl rfl)

theorem replayLoop_enum_invariant (e1 e2 : List Color → List Color) :
    ∀ (ms : List Move) (g : Game), replayLoop e1 g ms = replayLoop e2 g ms := by
  intro ms
  induction ms with
  | nil => intro g; rfl
  | cons m rest ih =>
    intro g
    unfold replayLoop
    rw [pourInternal_enum_invariant e1 e2 g m.To m.From]
    split_ifs with h
    · exact ih _
    · rfl

/-- C9 (amended): internal pours and the round-trip validator never consult
the `getAvailableColors` map, so they are deterministic — independent of
the map iteration order — and user pours are likewise deterministic in
non-bag games.  (The bounded search takes no iteration order at all.)  In
bag mode, a user pour's resulting bag bindings do depend on the iteration
order; see the counterexample. -/
theorem internal_ops_deterministic (e1 e2 : List Color → List Color) (g : Game)
    (fromC toC : Int) :
    pourInternal e1 g fromC toC = pourInternal e2 g fromC toC ∧
    validateReverseSteps e1 g = validateReverseSteps e2 g ∧
    (g.UseBags = false → Pour e1 g fromC toC = Pour e2 g fromC toC) := by
  refine ⟨pourInternal_enum_invariant e1 e2 g fromC toC, ?_, ?_⟩
  · unfold validateReverseSteps
    rw [replayLoop_enum_invariant e1 e2]
  · intro hub
    exact pourWithType_enum_invariant e1 e2 g fromC toC OpType.user (Or.inr hub)

/-- Witness for C9 (amended) at a concrete non-bag game and two distinct
iteration orders. -/
theorem internal_ops_deterministic_witness :
    pourInternal id twoSingles 0 1 = pourInternal List.reverse twoSingles 0 1 ∧
    Pour id twoSingles 0 1 = Pour List.reverse twoSingles 0 1 :=
  ⟨(internal_ops_deterministic id List.reverse twoSingles 0 1).1,
   (internal_ops_deterministic id List.reverse twoSingles 0 1).2.2 rfl⟩

/-- Counterexample to C9 as stated: two runs of the user `Pour 0 → 2` on
`bagOrderGame` that differ only in the Go map iteration order (identity
versus reversal of the same key set — the first conjunct checks the two
orders are permutations of each other) finish with different bag bindings,
hence different states. -/
theorem pour_bag_order_counterexample :
    (List.reverse (availableColorsCanonical (pourCounted bagOrderGame 0 2))).Perm
      (availableColorsCanonical (pourCounted bagOrderGame 0 2)) ∧
    (Pour id bagOrderGame 0 2).st.bags = [1, -1, -1] ∧
    (Pour List.reverse bagOrderGame 0 2).st.bags = [0, -1, -1] ∧
    ¬ (Pour id bagOrderGame 0 2).st = (Pour List.reverse bagOrderGame 0 2).st := by
  refine ⟨by decide, by decide, by decide, by decide⟩

/-! ## Claim theorems: collector fixed point (C8) -/

theorem updateBag_eta (enum : List Color → List Color) (g : Game) :
    updateBagColorsWithoutCollection enum g =
      { g with bags := (updateBagColorsWithoutCollection enum g).bags } := rfl

theorem collectLoop_break_inv (enum : List Color → List Color) :
    ∀ (fuel : Nat) (g : Game) (acc : Bool) (s1 : Game) (a : Bool),
      collectLoop enum fuel g acc = (s1, a, true) →
      collectableBottles s1 = [] ∧ collectPass enum s1 = s1 := by
  intro fuel
  induction fuel with
  | zero =>
    intro g acc s1 a h
    simp only [collectLoop, Prod.mk.injEq] at h
    exact absurd h.2.2 (by simp)
  | succ n ih =>
    intro g acc s1 a h
    unfold collectLoop at h
    split_ifs at h with hbrk
    · obtain ⟨hidx, hbags⟩ := hbrk
      have hg1 : applyCollect g (collectableBottles g) = g := by
        rw [hidx]
        rfl
      have hcp : collectPass enum g = updateBagColorsWithoutCollection enum g := by
        unfold collectPass
        rw [hg1]
      have hbags2 : (collectPass enum g).bags = g.bags := by
        rw [← hbags, hg1]
      have hfix : collectPass enum g = g := by
        rw [hcp]
        rw [updateBag_eta enum g, ← hcp, hbags2]
      simp only [Prod.mk.injEq] at h
      obtain ⟨hs, -, -⟩ := h
      rw [← hs, hfix]
      exact ⟨hidx, hfix⟩
    · exact ih _ _ _ _ h

theorem checkAndCollect_noop (enum : List Color → List Color) (s : Game)
    (h1 : collectableBottles s = []) (h2 : collectPass enum s = s) :
    checkAndCollectBottles enum s = (s, false, true) := by
  unfold checkAndCollectBottles
  split_ifs with hb
  · rfl
  · have hfuel : 2 * s.bottles.length + 4 = 2 * s.bottles.length + 3 + 1 := rfl
    rw [hfuel]
    unfold collectLoop
    have hg1 : applyCollect s (collectableBottles s) = s := by
      rw [h1]
      rfl
    rw [if_pos ⟨h1, by rw [hg1, h2]⟩, h2]

/-- C8 (amended): whenever a call of `checkAndCollectBottles` runs to its
own break condition, a second call that sees the same map iteration order
(the same `enum`) is a no-op: it retires nothing, changes no bag binding,
and returns `false`.  As stated the claim fails because the two calls'
map iteration orders may differ; see the counterexample. -/
theorem collect_fixed_point (enum : List Color → List Color) (g s1 : Game) (a : Bool)
    (h : checkAndCollectBottles enum g = (s1, a, true)) :
    checkAndCollectBottles enum s1 = (s1, false, true) := by
  unfold checkAndCollectBottles at h
  split_ifs at h with hb
  · simp only [Prod.mk.injEq] at h
    obtain ⟨hs, -, -⟩ := h
    unfold checkAndCollectBottles
    rw [← hs]
    rw [if_pos hb]
  · obtain ⟨h1, h2⟩ := collectLoop_break_inv enum _ g false s1 a h
    exact checkAndCollect_noop enum s1 h1 h2

/-- Witness for C8 (amended): `bagFlipGame` is the state left by a
completed first call under the reversal iteration order, and the second
call under the same order is a no-op. -/
theorem collect_fixed_point_witness :
    checkAndCollectBottles List.reverse bagFlipGame = (bagFlipGame, false, true) :=
  collect_fixed_point List.reverse bagFlipGame bagFlipGame false (by decide)

/-- Counterexample to C8 as stated: the first `checkAndCollectBottles` call
(map iteration happening to list color 1 first, modelled by `List.reverse`)
completes and leaves `bagFlipGame` unchanged, yet a second call with no
intervening pour (map iteration now listing color 0 first, modelled by
`id`) retires bottle 0 and changes the bag bindings. -/
theorem collect_twice_order_counterexample :
    checkAndCollectBottles List.reverse bagFlipGame = (bagFlipGame, false, true) ∧
    (checkAndCollectBottles id bagFlipGame).1.collected = [true, false] ∧
    (checkAndCollectBottles id bagFlipGame).1.bags = [-1, -1, -1] ∧
    ¬ (checkAndCollectBottles id bagFlipGame).1 = bagFlipGame := by
  refine ⟨by decide, by decide, by decide, by decide⟩

/-! ## Claim theorems: round-trip validator (C1) -/

theorem pourCounted_fields (g : Game) (fromC toC : Int) :
    (pourCounted g fromC toC).N = g.N ∧ (pourCounted g fromC toC).J = g.J ∧
    (pourCounted g fromC toC).M = g.M ∧ (pourCounted g fromC toC).JarCount = g.JarCount ∧
    (pourCounted g fromC toC).UseBags = g.UseBags ∧
    (pourCounted g fromC toC).bags = g.bags ∧
    (pourCounted g fromC toC).collected = g.collected ∧
    (pourCounted g fromC toC).reverseSteps = g.reverseSteps := by
  unfold pourCounted bumpFromCounter bumpToCounter pourApplied setContainerAt
  split_ifs <;> exact ⟨rfl, rfl, rfl, rfl, rfl, rfl, rfl, rfl⟩

theorem pourInternal_meta (enum : List Color → List Color) (g : Game) (fromC toC : Int) :
    (pourInternal enum g fromC toC).st.bags = g.bags ∧
    (pourInternal enum g fromC toC).st.collected = g.collected ∧
    (pourInternal enum g fromC toC).st.reverseSteps = g.reverseSteps := by
  unfold pourInternal
  by_cases hr : rejectCond g fromC toC
  · rw [pour_reject_of _ _ _ _ _ hr]
    exact ⟨rfl, rfl, rfl⟩
  · rw [pour_success_eq _ _ _ _ _ hr]
    dsimp only
    rw [if_neg (fun hx => OpType.noConfusion hx.2)]
    obtain ⟨-, -, -, -, -, hb, hc, hs⟩ := pourCounted_fields g fromC toC
    exact ⟨hb, hc, hs⟩

theorem replayLoop_meta (enum : List Color → List Color) :
    ∀ (ms : List Move) (g gf : Game), replayLoop enum g ms = some gf →
      gf.bags = g.bags ∧ gf.collected = g.collected ∧ gf.reverseSteps = g.reverseSteps := by
  intro ms
  induction ms with
  | nil =>
    intro g gf h
    obtain rfl : g = gf := by simpa [replayLoop] using h
    exact ⟨rfl, rfl, rfl⟩
  | cons m rest ih =>
    intro g gf h
    unfold replayLoop at h
    split_ifs at h with hok
    · obtain ⟨hb, hc, hs⟩ := ih _ _ h
      obtain ⟨hb2, hc2, hs2⟩ := pourInternal_meta enum g m.To m.From
      exact ⟨hb.trans hb2, hc.trans hc2, hs.trans hs2⟩

/-- C1: the validator returns success exactly when every replayed internal
forward pour (`move.To → move.From`, in reverse log order) succeeds and the
replayed final state satisfies `IsWon`; on success the pre-validation
bottles and jars are restored, and the bags, collected flags and log were
never touched. -/
theorem validate_roundtrip_spec (enum : List Color → List Color) (g : Game) :
    ((validateReverseSteps enum g).isSome = true ↔
      ∃ gf, replayLoop enum g g.reverseSteps.reverse = some gf ∧ IsWon gf = true) ∧
    (∀ gr, validateReverseSteps enum g = some gr →
      gr.bottles = g.bottles ∧ gr.jars = g.jars ∧ gr.bags = g.bags ∧
      gr.collected = g.collected ∧ gr.reverseSteps = g.reverseSteps) := by
  have hmain : ∀ gf, replayLoop enum g g.reverseSteps.reverse = some gf →
      validateReverseSteps enum g =
        if IsWon gf = true then some (restoreGameState gf (copyGameState g)) else none := by
    intro gf hgf
    unfold validateReverseSteps
    rw [hgf]
  have hnone : replayLoop enum g g.reverseSteps.reverse = none →
      validateReverseSteps enum g = none := by
    intro hgf
    unfold validateReverseSteps
    rw [hgf]
  constructor
  · cases hrep : replayLoop enum g g.reverseSteps.reverse with
    | none =>
      rw [hnone hrep]
      simp only [Option.isSome_none]
      constructor
      · intro h
        exact nomatch h
      · rintro ⟨gf, hgf, -⟩
        exact nomatch hgf
    | some gf =>
      rw [hmain gf hrep]
      by_cases hwon : IsWon gf = true
      · rw [if_pos hwon]
        simp only [Option.isSome_some, true_iff]
        exact ⟨gf, rfl, hwon⟩
      · rw [if_neg hwon]
        simp only [Option.isSome_none]
        constructor
        · intro h
          exact nomatch h
        · rintro ⟨gf2, hgf2, hwon2⟩
          obtain rfl : gf = gf2 := Option.some.inj hgf2
          exact absurd hwon2 hwon
  · intro gr h
    cases hrep : replayLoop enum g g.reverseSteps.reverse with
    | none =>
      rw [hnone hrep] at h
      exact nomatch h
    | some gf =>
      rw [hmain gf hrep] at h
      by_cases hwon : IsWon gf = true
      · rw [if_pos hwon] at h
        obtain rfl : restoreGameState gf (copyGameState g) = gr := Option.some.inj h
        obtain ⟨hb, hc, hs⟩ := replayLoop_meta enum _ g gf hrep
        exact ⟨rfl, rfl, hb, hc, hs⟩
      · rw [if_neg hwon] at h
        exact nomatch h

/-- Witness for C1: on `replayGame` (scrambled `[[0],[0]]` with the
one-move log from solved `[[0,0],[]]`) the validator succeeds. -/
theorem validate_roundtrip_spec_witness :
    (validateReverseSteps id replayGame).isSome = true :=
  (validate_roundtrip_spec id replayGame).1.mpr
    ⟨{ replayGame with bottles := [[0, 0], []] }, by decide, by decide⟩

/-! ## Claim theorems: volume conservation and AddEmptyBottle (C10) -/

theorem totalUnits_set (g : Game) (i : Int) (b : List Color) (hwf : WF g)
    (h0 : 0 ≤ i) (hi : i < g.N + g.JarCount) :
    totalUnits (setContainerAt g i b) = totalUnits g - lenI (containerAt g i) + lenI b := by
  obtain ⟨h1, h2⟩ := hwf
  unfold totalUnits setContainerAt containerAt
  split_ifs with hN
  · dsimp only
    rw [lenI_sum_set _ _ _ (by omega : i.toNat < g.bottles.length)]
    ring
  · dsimp only
    rw [lenI_sum_set _ _ _ (by omega : (i - g.N).toNat < g.jars.length)]
    ring

theorem lenI_toAfter (g : Game) (f t : Int) (h : ¬ rejectCond g f t) :
    lenI (toAfter g f t) = lenI (containerAt g t) + pourAmt g f t := by
  have h1 := pourAmt_pos g f t h
  unfold toAfter lenI
  rw [List.length_append, List.length_replicate]
  push_cast
  omega

theorem lenI_fromAfter (g : Game) (f t : Int) (h : ¬ rejectCond g f t) :
    lenI (fromAfter g f t) = lenI (containerAt g f) - pourAmt g f t := by
  have h1 := pourAmt_pos g f t h
  have h2 : pourAmt g f t ≤ (topRun (containerAt g f) (topColorOf g f) : Int) :=
    min_le_left _ _
  have h3 := topRun_le_length (containerAt g f) (topColorOf g f)
  unfold fromAfter lenI
  rw [List.length_take]
  push_cast
  omega

theorem pourApplied_N (g : Game) (f t : Int) : (pourApplied g f t).N = g.N := by
  unfold pourApplied
  rw [setContainerAt_N, setContainerAt_N]

theorem pourApplied_JarCount (g : Game) (f t : Int) :
    (pourApplied g f t).JarCount = g.JarCount := by
  unfold pourApplied
  rw [setContainerAt_JarCount, setContainerAt_JarCount]

theorem pour_preserves_nonbag (enum : List Color → List Color) (g : Game) (fromC toC : Int)
    (op : OpType) (hub : g.UseBags = false) (hwf : WF g) :
    totalUnits (pourWithType enum g fromC toC op).st = totalUnits g ∧
    (pourWithType enum g fromC toC op).st.N = g.N ∧
    (pourWithType enum g fromC toC op).st.J = g.J ∧
    (pourWithType enum g fromC toC op).st.M = g.M ∧
    (pourWithType enum g fromC toC op).st.UseBags = false ∧
    WF (pourWithType enum g fromC toC op).st := by
  by_cases hr : rejectCond g fromC toC
  · rw [pour_reject_of _ _ _ _ _ hr]
    exact ⟨rfl, rfl, rfl, rfl, hub, hwf⟩
  · rw [pour_success_eq _ _ _ _ _ hr]
    dsimp only
    rw [if_neg (by intro hx; rw [hub] at hx; exact nomatch hx.1)]
    have hfields := pourCounted_fields g fromC toC
    have hbj := pourCounted_bottles g fromC toC
    have hne : ¬ fromC = toC := fun hx => hr (Or.inl hx)
    have hrange : ¬ (fromC < 0 ∨ fromC ≥ g.N + g.JarCount ∨ toC < 0 ∨ toC ≥ g.N + g.JarCount) :=
      fun hx => hr (Or.inr (Or.inl hx))
    push_neg at hrange
    obtain ⟨hf0, hfN, ht0, htN⟩ := hrange
    have hwf1 : WF (setContainerAt g toC (toAfter g fromC toC)) :=
      WF_setContainerAt g toC _ hwf
    have hwfp : WF (pourApplied g fromC toC) := WF_setContainerAt _ fromC _ hwf1
    refine ⟨?_, hfields.1, hfields.2.1, hfields.2.2.1,
      by rw [hfields.2.2.2.2.1]; exact hub, ?_⟩
    · have htc : totalUnits (pourCounted g fromC toC) = totalUnits (pourApplied g fromC toC) := by
        unfold totalUnits
        rw [hbj.1, hbj.2.1]
      rw [htc]
      unfold pourApplied
      rw [totalUnits_set _ fromC _ hwf1 hf0
        (by rw [setContainerAt_N, setContainerAt_JarCount]; omega)]
      rw [containerAt_set_ne g toC fromC _ (fun hx => hne hx.symm) ht0 hf0]
      rw [totalUnits_set g toC _ hwf ht0 htN]
      rw [lenI_toAfter g fromC toC hr, lenI_fromAfter g fromC toC hr]
      ring
    · unfold WF
      rw [hbj.1, hbj.2.1, hfields.1, hfields.2.2.2.1]
      have hw := hwfp
      unfold WF at hw
      rwa [pourApplied_N, pourApplied_JarCount] at hw

theorem won_list_sum (M : Int) (l : List (List Color))
    (hl : (l.all fun b => b.isEmpty || ((lenI b == M) && isSingleColor b)) = true) :
    (l.map lenI).sum = ((List.countP (fun b => !b.isEmpty) l : Nat) : Int) * M := by
  induction l with
  | nil => simp
  | cons b bs ih =>
    rw [List.all_cons, Bool.and_eq_true] at hl
    obtain ⟨hb, hbs⟩ := hl
    rw [List.map_cons, List.sum_cons, List.countP_cons, ih hbs]
    by_cases hemp : b.isEmpty = true
    · have hz : lenI b = 0 := by
        rw [List.isEmpty_iff] at hemp
        rw [hemp]
        rfl
      have hp : (!b.isEmpty) = false := by rw [hemp]; rfl
      rw [hz, hp]
      push_cast
      ring
    · rw [Bool.or_eq_true] at hb
      rcases hb with hb | hb
      · exact absurd hb hemp
      · rw [Bool.and_eq_true] at hb
        have hM : lenI b = M := by
          have := hb.1
          rwa [beq_iff_eq] at this
        have hp : (!b.isEmpty) = true := by
          cases hbe : b.isEmpty
          · rfl
          · exact absurd hbe hemp
        rw [hM, hp]
        push_cast
        simp only [if_true]
        ring

theorem isWon_bottles_sum (g : Game) (hub : g.UseBags = false) (hw : IsWon g = true) :
    (g.bottles.map lenI).sum = (g.N - g.J) * g.M := by
  unfold IsWon at hw
  rw [hub] at hw
  simp only [Bool.false_eq_true, if_false] at hw
  rw [Bool.and_eq_true] at hw
  obtain ⟨hall, hcnt⟩ := hw
  rw [won_list_sum g.M g.bottles hall]
  rw [beq_iff_eq] at hcnt
  rw [hcnt]

theorem isWon_false_of_deficit (g : Game) (hub : g.UseBags = false)
    (hlt : totalUnits g < (g.N - g.J) * g.M) : IsWon g = false := by
  cases hw : IsWon g
  · rfl
  · exfalso
    have hsum := isWon_bottles_sum g hub hw
    have hjars := lenI_sum_nonneg g.jars
    unfold totalUnits at hlt
    linarith

theorem applyPours_deficit (enum : List Color → List Color) :
    ∀ (ms : List (Int × Int)) (g : Game), g.UseBags = false → WF g →
      totalUnits g < (g.N - g.J) * g.M → IsWon (applyPours enum g ms) = false := by
  intro ms
  induction ms with
  | nil =>
    intro g hub hwf hlt
    exact isWon_false_of_deficit g hub hlt
  | cons m rest ih =>
    intro g hub hwf hlt
    unfold applyPours
    rw [List.foldl_cons]
    obtain ⟨htu, hN, hJ, hM, hub2, hwf2⟩ :=
      pour_preserves_nonbag enum g m.1 m.2 OpType.user hub hwf
    exact ih _ hub2 hwf2 (by unfold Pour; rw [htu, hN, hJ, hM]; exact hlt)

/-- C10: in a non-bag, volume-consistent game below the 30-bottle cap,
`AddEmptyBottle` succeeds, appends an empty bottle and bumps `N` and
`emptyCount`; after it, `IsWon` is false and stays false under every
sequence of user pours, because winning would now require
`(N+1-J)·M` units in bottles while pours preserve the `(N-J)·M` total. -/
theorem add_bottle_unwinnable (enum : List Color → List Color) (g : Game)
    (hub : g.UseBags = false) (hwf : WF g) (hcap : g.N < 30)
    (hvol : totalUnits g = (g.N - g.J) * g.M) (hM : 1 ≤ g.M) :
    (AddEmptyBottle g).1 = true ∧
    (AddEmptyBottle g).2.N = g.N + 1 ∧
    (AddEmptyBottle g).2.emptyCount = g.emptyCount + 1 ∧
    (AddEmptyBottle g).2.bottles = g.bottles ++ [[]] ∧
    ∀ ms : List (Int × Int), IsWon (applyPours enum (AddEmptyBottle g).2 ms) = false := by
  unfold AddEmptyBottle
  rw [if_neg (by omega)]
  refine ⟨rfl, rfl, rfl, rfl, ?_⟩
  intro ms
  apply applyPours_deficit
  · exact hub
  · constructor
    · have := hwf.1
      simp only [List.length_append, List.length_cons, List.length_nil]
      push_cast
      omega
    · exact hwf.2
  · unfold totalUnits
    dsimp only
    rw [List.map_append]
    simp only [List.map_cons, List.map_nil, List.sum_append, List.sum_cons, List.sum_nil]
    have hexp : (g.N + 1 - g.J) * g.M = (g.N - g.J) * g.M + g.M := by ring
    rw [hexp]
    have hz : lenI ([] : List Color) = 0 := rfl
    rw [hz]
    unfold totalUnits at hvol
    linarith

/-- Witness for C10 on the volume-consistent `replayGame`
(`N=2, J=1, M=2`, two units of water), instantiated at the pour sequence
`[(0, 1)]`. -/
theorem add_bottle_unwinnable_witness :
    (AddEmptyBottle replayGame).1 = true ∧
    IsWon (applyPours id (AddEmptyBottle replayGame).2 [(0, 1)]) = false :=
  ⟨(add_bottle_unwinnable id replayGame rfl ⟨rfl, rfl⟩ (by decide) (by decide) (by decide)).1,
   (add_bottle_unwinnable id replayGame rfl ⟨rfl, rfl⟩ (by decide) (by decide)
      (by decide)).2.2.2.2 [(0, 1)]⟩

/-! ## Claim theorems: solved-state builder (C5) -/

theorem getD_append_length (pre : List (List Color)) (x : List Color)
    (rest : List (List Color)) : (pre ++ x :: rest).getD pre.length [] = x := by
  induction pre with
  | nil => rfl
  | cons a t ih => simpa using ih

theorem set_append_length (pre : List (List Color)) (x y : List Color)
    (rest : List (List Color)) : (pre ++ x :: rest).set pre.length y = pre ++ y :: rest := by
  induction pre with
  | nil => rfl
  | cons a t ih =>
    show (a :: (t ++ x :: rest)).set (t.length + 1) y = a :: (t ++ y :: rest)
    rw [show (a :: (t ++ x :: rest)).set (t.length + 1) y =
      a :: ((t ++ x :: rest).set t.length y) from rfl, ih]

theorem fillRun_spec (M : Nat) (c : Color) (NJ : Int) :
    ∀ (cnt : Nat) (pre : List (List Color)) (k : Nat),
      (pre.length : Int) + cnt ≤ NJ → cnt ≤ k →
      fillRun (pre ++ List.replicate k []) pre.length NJ cnt M c =
        some (pre ++ List.replicate cnt (List.replicate M c) ++ List.replicate (k - cnt) [],
          pre.length + cnt) := by
  intro cnt
  induction cnt with
  | zero =>
    intro pre k h1 h2
    unfold fillRun
    simp
  | succ n ih =>
    intro pre k h1 h2
    obtain ⟨k2, rfl⟩ : ∃ k2, k = k2 + 1 := ⟨k - 1, by omega⟩
    unfold fillRun
    rw [if_neg (by push_cast at h1 ⊢; omega)]
    rw [List.replicate_succ, getD_append_length, set_append_length]
    have hpre : pre ++ (([] : List Color) ++ List.replicate M c) :: List.replicate k2 [] =
        (pre ++ [List.replicate M c]) ++ List.replicate k2 [] := by
      simp
    rw [hpre]
    have hlen : pre.length + 1 = (pre ++ [List.replicate M c]).length := by simp
    rw [hlen]
    rw [ih (pre ++ [List.replicate M c]) k2
      (by simp only [List.length_append, List.length_cons, List.length_nil]
          push_cast at h1 ⊢
          omega)
      (by omega)]
    congr 2
    · rw [List.replicate_succ, Nat.succ_sub_succ]
      simp [List.append_assoc]
    · simp only [List.length_append, List.length_cons, List.length_nil]
      omega

theorem solveColors_spec (M : Nat) (NJ base extra : Int) (cnt : Nat → Nat)
    (hcnt : ∀ cd : Nat, (base + if (Int.ofNat cd) < extra then 1 else 0).toNat = cnt cd) :
    ∀ (r cid : Nat) (pre : List (List Color)) (k : Nat),
      (pre.length : Int) + (((List.range' cid r).map cnt).sum : Nat) ≤ NJ →
      ((List.range' cid r).map cnt).sum ≤ k →
      solveColors (pre ++ List.replicate k []) pre.length NJ base extra M cid r =
        some (pre ++
            ((List.range' cid r).map fun cd =>
              List.replicate (cnt cd) (List.replicate M (Int.ofNat cd))).flatten ++
            List.replicate (k - ((List.range' cid r).map cnt).sum) [],
          pre.length + ((List.range' cid r).map cnt).sum) := by
  intro r
  induction r with
  | zero =>
    intro cid pre k h1 h2
    unfold solveColors
    simp [List.range']
  | succ n ih =>
    intro cid pre k h1 h2
    rw [List.range'_succ] at h1 h2 ⊢
    simp only [List.map_cons, List.sum_cons, List.flatten_cons] at h1 h2 ⊢
    unfold solveColors
    rw [hcnt cid]
    rw [fillRun_spec M (Int.ofNat cid) NJ (cnt cid) pre k (by omega) (by omega)]
    show solveColors _ _ NJ base extra M (cid + 1) n = _
    have hsh : pre ++ List.replicate (cnt cid) (List.replicate M (Int.ofNat cid)) ++
        List.replicate (k - cnt cid) [] =
        (pre ++ List.replicate (cnt cid) (List.replicate M (Int.ofNat cid))) ++
          List.replicate (k - cnt cid) [] := rfl
    have hlen : pre.length + cnt cid =
        (pre ++ List.replicate (cnt cid) (List.replicate M (Int.ofNat cid))).length := by
      simp
    rw [hsh, hlen]
    rw [ih (cid + 1) (pre ++ List.replicate (cnt cid) (List.replicate M (Int.ofNat cid)))
      (k - cnt cid)
      (by rw [List.length_append, List.length_replicate]
          omega)
      (by omega)]
    have harith : k - cnt cid - (List.map cnt (List.range' (cid + 1) n)).sum
        = k - (cnt cid + (List.map cnt (List.range' (cid + 1) n)).sum) := by omega
    rw [harith]
    rw [Option.some_inj, Prod.mk.injEq]
    constructor
    · simp [List.append_assoc]
    · simp only [List.length_append, List.length_replicate]
      omega

theorem clearCount_spec : ∀ (k : Nat) (pre : List (List Color)),
    clearCount (pre ++ List.replicate k []) pre.length k = pre ++ List.replicate k [] := by
  intro k
  induction k with
  | zero => intro pre; rfl
  | succ n ih =>
    intro pre
    unfold clearCount
    rw [List.replicate_succ, set_append_length]
    have hsh : pre ++ ([] : List Color) :: List.replicate n [] =
        (pre ++ [([] : List Color)]) ++ List.replicate n [] := by
      simp
    rw [hsh]
    have hlen : pre.length + 1 = (pre ++ [([] : List Color)]).length := by simp
    rw [hlen, ih (pre ++ [([] : List Color)])]

theorem isSingleColor_replicate (n : Nat) (c : Color) :
    isSingleColor (List.replicate n c) = true := by
  cases n with
  | zero => rfl
  | succ m =>
    rw [List.replicate_succ]
    unfold isSingleColor
    rw [List.all_eq_true]
    intro x hx
    rw [List.mem_replicate] at hx
    simp [hx.2]

theorem flatten_blocks_length (M : Nat) (cnt : Nat → Nat) :
    ∀ cs : List Nat,
      ((cs.map fun cd => List.replicate (cnt cd) (List.replicate M (Int.ofNat cd))).flatten).length
        = (cs.map cnt).sum := by
  intro cs
  induction cs with
  | nil => rfl
  | cons c t ih =>
    simp only [List.map_cons, List.flatten_cons, List.length_append, List.length_replicate,
      List.sum_cons, ih]

theorem countP_eq_length_of (p : List Color → Bool) :
    ∀ l : List (List Color), (∀ a ∈ l, p a = true) → List.countP p l = l.length := by
  intro l hl
  induction l with
  | nil => rfl
  | cons a t ih =>
    rw [List.countP_cons, ih (fun b hb => hl b (List.mem_cons_of_mem a hb)),
      hl a (List.mem_cons_self a t)]
    simp

theorem countP_eq_zero_of (p : List Color → Bool) :
    ∀ l : List (List Color), (∀ a ∈ l, p a = false) → List.countP p l = 0 := by
  intro l hl
  induction l with
  | nil => rfl
  | cons a t ih =>
    rw [List.countP_cons, ih (fun b hb => hl b (List.mem_cons_of_mem a hb)),
      hl a (List.mem_cons_self a t)]
    simp

theorem isWon_of_layout (g : Game) (nj mn jn kn : Nat)
    (hb : g.bottles = specSolvedLayout nj mn jn kn)
    (hub : g.UseBags = false)
    (hm : g.M = (mn : Int)) (hmn0 : 0 < mn)
    (hnj : g.N - g.J = (nj : Int))
    (hlen : ((List.range kn).map fun c => nj / kn + if c < nj % kn then 1 else 0).sum = nj) :
    IsWon g = true := by
  unfold IsWon
  rw [hub]
  rw [if_neg (by simp)]
  rw [Bool.and_eq_true]
  constructor
  · rw [List.all_eq_true]
    intro b hbmem
    rw [hb] at hbmem
    unfold specSolvedLayout at hbmem
    rw [List.mem_append] at hbmem
    rcases hbmem with hbm | hbm
    · rw [List.mem_flatten] at hbm
      obtain ⟨l, hl, hbl⟩ := hbm
      rw [List.mem_map] at hl
      obtain ⟨c, -, rfl⟩ := hl
      have hbrep := List.eq_of_mem_replicate hbl
      subst hbrep
      rw [Bool.or_eq_true]
      right
      rw [Bool.and_eq_true]
      refine ⟨?_, isSingleColor_replicate mn _⟩
      rw [beq_iff_eq]
      unfold lenI
      rw [List.length_replicate, hm]
    · have hbrep := List.eq_of_mem_replicate hbm
      subst hbrep
      rw [Bool.or_eq_true]
      left
      rfl
  · rw [beq_iff_eq, hb]
    unfold specSolvedLayout
    rw [List.countP_append]
    have h1 : List.countP (fun b => !b.isEmpty) (List.replicate jn ([] : List Color)) = 0 := by
      apply countP_eq_zero_of
      intro a ha
      rw [List.eq_of_mem_replicate ha]
      rfl
    have h2 : List.countP (fun b => !b.isEmpty)
        (((List.range kn).map fun c =>
          List.replicate (nj / kn + if c < nj % kn then 1 else 0)
            (List.replicate mn (Int.ofNat c))).flatten) =
        ((List.range kn).map fun c => nj / kn + if c < nj % kn then 1 else 0).sum := by
      rw [countP_eq_length_of]
      · rw [List.range_eq_range']
        exact flatten_blocks_length mn _ _
      · intro a ha
        rw [List.mem_flatten] at ha
        obtain ⟨l, hl, hal⟩ := ha
        rw [List.mem_map] at hl
        obtain ⟨c, -, rfl⟩ := hl
        have harep := List.eq_of_mem_replicate hal
        subst harep
        obtain ⟨m2, rfl⟩ : ∃ m2, mn = m2 + 1 := ⟨mn - 1, by omega⟩
        rw [List.replicate_succ]
        rfl
    rw [h1, h2, hlen, hnj]
    omega

theorem cnt_range_sum (a e : Nat) :
    ∀ n : Nat, ((List.range n).map fun c => a + if c < e then 1 else 0).sum
      = n * a + min n e := by
  intro n
  induction n with
  | zero => simp
  | succ m ih =>
    rw [List.range_succ]
    rw [List.map_append, List.sum_append, ih]
    simp only [List.map_cons, List.map_nil, List.sum_cons, List.sum_nil]
    by_cases hm : m < e
    · rw [if_pos hm]
      have : min (m + 1) e = min m e + 1 := by omega
      rw [this]
      ring
    · rw [if_neg hm]
      have : min (m + 1) e = min m e := by omega
      rw [this]
      ring

/-- C5: for every valid parameter set, `createSolvedState` on the freshly
created game fills `(N-J)/K` bottles per color (the first `(N-J) mod K`
colors getting one more), each to capacity with its single color, leaves
the remaining `J` bottles empty, resets the empty counter to `J`, and the
result satisfies `IsWon`. -/
theorem solved_builder_spec (enum : List Color → List Color) (N M J K JC JCap : Int)
    (hNJ : J < N) (hJ : 0 ≤ J) (hM : 0 < M) (hK : 0 < K) (hJC : 0 ≤ JC)
    (hJCap : 0 < JC → 0 < JCap) :
    ∃ g0 g1, newWaterBottleGame enum N M J K JC JCap false = Except.ok g0 ∧
      createSolvedState g0 = some g1 ∧
      g1.bottles = specSolvedLayout (N - J).toNat M.toNat J.toNat K.toNat ∧
      g1.emptyCount = J ∧ IsWon g1 = true := by
  obtain ⟨nn, hnn⟩ : ∃ nn : Nat, N = (nn : Int) := ⟨N.toNat, by omega⟩
  obtain ⟨jn, hjn⟩ : ∃ jn : Nat, J = (jn : Int) := ⟨J.toNat, by omega⟩
  obtain ⟨kn, hkn⟩ : ∃ kn : Nat, K = (kn : Int) := ⟨K.toNat, by omega⟩
  obtain ⟨mn, hmn⟩ : ∃ mn : Nat, M = (mn : Int) := ⟨M.toNat, by omega⟩
  have hkn0 : 0 < kn := by omega
  have hmn0 : 0 < mn := by omega
  have hNt : N.toNat = nn := by omega
  have hJt : J.toNat = jn := by omega
  have hKt : K.toNat = kn := by omega
  have hMt : M.toNat = mn := by omega
  have hNJt : (N - J).toNat = nn - jn := by omega
  have hNJcast : N - J = ((nn - jn : Nat) : Int) := by omega
  have hdiv : (N - J) / K = (((nn - jn) / kn : Nat) : Int) := by
    rw [hNJcast, hkn, ← Int.ofNat_ediv]
  have hmod : (N - J) % K = (((nn - jn) % kn : Nat) : Int) := by
    rw [hNJcast, hkn, ← Int.ofNat_emod]
  have hcnt : ∀ cd : Nat,
      ((N - J) / K + if (Int.ofNat cd) < (N - J) % K then 1 else 0).toNat
        = (nn - jn) / kn + if cd < (nn - jn) % kn then 1 else 0 := by
    intro cd
    rw [hdiv, hmod]
    by_cases hc : cd < (nn - jn) % kn
    · rw [if_pos (show Int.ofNat cd < (((nn - jn) % kn : Nat) : Int) from Int.ofNat_lt.mpr hc),
        if_pos hc]
      generalize (nn - jn) / kn = q
      omega
    · rw [if_neg (show ¬ Int.ofNat cd < (((nn - jn) % kn : Nat) : Int) from
        fun hx => hc (Int.ofNat_lt.mp hx)), if_neg hc]
      generalize (nn - jn) / kn = q
      omega
  have hS : ((List.range' 0 kn).map
      fun c => (nn - jn) / kn + if c < (nn - jn) % kn then 1 else 0).sum = nn - jn := by
    rw [← List.range_eq_range', cnt_range_sum ((nn - jn) / kn) ((nn - jn) % kn) kn]
    rw [min_eq_right (le_of_lt (Nat.mod_lt _ hkn0))]
    exact Nat.div_add_mod (nn - jn) kn
  have hcreate : newWaterBottleGame enum N M J K JC JCap false = Except.ok
      { bottles := List.replicate N.toNat [], jars := List.replicate JC.toNat [],
        bags := [0, 0, 0], collected := List.replicate N.toNat false,
        N := N, M := M, J := J, K := K, JarCount := JC, JarCapacity := JCap,
        UseBags := false, emptyCount := J, emptyJarCount := JC, reverseSteps := [] } := by
    unfold newWaterBottleGame
    rw [if_neg (by omega), if_neg (by omega), if_neg (by omega), if_neg (by omega),
      if_neg (by rintro ⟨hx1, hx2⟩; have := hJCap hx1; omega),
      if_neg (by simp [Int.mul_emod_left])]
    rfl
  have hblocks : (((List.range' 0 kn).map fun cd =>
      List.replicate ((nn - jn) / kn + if cd < (nn - jn) % kn then 1 else 0)
        (List.replicate mn (Int.ofNat cd))).flatten).length = nn - jn := by
    rw [flatten_blocks_length mn _ _, hS]
  have hsolve : createSolvedState
      { bottles := List.replicate N.toNat [], jars := List.replicate JC.toNat [],
        bags := [0, 0, 0], collected := List.replicate N.toNat false,
        N := N, M := M, J := J, K := K, JarCount := JC, JarCapacity := JCap,
        UseBags := false, emptyCount := J, emptyJarCount := JC,
        reverseSteps := ([] : List Move) } = some
      { bottles := specSolvedLayout (nn - jn) mn jn kn,
        jars := List.replicate JC.toNat [],
        bags := [0, 0, 0], collected := List.replicate N.toNat false,
        N := N, M := M, J := J, K := K, JarCount := JC, JarCapacity := JCap,
        UseBags := false, emptyCount := J, emptyJarCount := JC,
        reverseSteps := ([] : List Move) } := by
    unfold createSolvedState
    dsimp only
    rw [hNt, hKt, hMt]
    have hsc := solveColors_spec mn (N - J) ((N - J) / K) ((N - J) % K)
      (fun c => (nn - jn) / kn + if c < (nn - jn) % kn then 1 else 0) hcnt kn 0 [] nn
      (by simp only [List.length_nil, hS]; omega)
      (by rw [hS]; omega)
    simp only [List.nil_append, List.length_nil, Nat.zero_add, hS] at hsc
    rw [hsc]
    show some _ = some _
    rw [Option.some_inj]
    have hrest : nn - (nn - jn) = jn := by omega
    rw [hrest]
    have hclear : clearCount
        ((((List.range' 0 kn).map fun cd =>
          List.replicate ((nn - jn) / kn + if cd < (nn - jn) % kn then 1 else 0)
            (List.replicate mn (Int.ofNat cd))).flatten) ++ List.replicate jn [])
        (nn - jn) jn =
        (((List.range' 0 kn).map fun cd =>
          List.replicate ((nn - jn) / kn + if cd < (nn - jn) % kn then 1 else 0)
            (List.replicate mn (Int.ofNat cd))).flatten) ++ List.replicate jn [] := by
      have hcs := clearCount_spec jn
        (((List.range' 0 kn).map fun cd =>
          List.replicate ((nn - jn) / kn + if cd < (nn - jn) % kn then 1 else 0)
            (List.replicate mn (Int.ofNat cd))).flatten)
      rwa [hblocks] at hcs
    rw [hclear]
    unfold specSolvedLayout
    rw [List.range_eq_range']
  refine ⟨_, _, hcreate, hsolve, ?_, rfl, ?_⟩
  · rw [hNJt, hMt, hJt, hKt]
  · exact isWon_of_layout _ (nn - jn) mn jn kn rfl rfl hmn hmn0 hNJcast
      (by rw [List.range_eq_range']; exact hS)

/-- Witness for C5 at the concrete valid parameters
`N=7, M=3, J=2, K=3` (colors 0 and 1 get two bottles, color 2 one). -/
theorem solved_builder_spec_witness :
    ∃ g0 g1, newWaterBottleGame id 7 3 2 3 0 0 false = Except.ok g0 ∧
      createSolvedState g0 = some g1 ∧
      g1.bottles = specSolvedLayout ((7 : Int) - 2).toNat (3 : Int).toNat (2 : Int).toNat
        (3 : Int).toNat ∧
      g1.emptyCount = 2 ∧ IsWon g1 = true :=
  solved_builder_spec id 7 3 2 3 0 0 (by norm_num) (by norm_num) (by norm_num)
    (by norm_num) (by norm_num) (by norm_num)

/-- The instrumented search loop computes the same Boolean result as
searchLoop, for every starting counter value. -/
theorem searchLoop_eq_count (g : Game) :
    ∀ (fuel : Nat) (q : List (List (List Color) × Nat))
      (v : List (List (List Color))) (c : Nat),
      searchLoop g fuel q v = (searchLoopCount g c fuel q v).1 := by
  intro fuel
  induction fuel with
  | zero =>
    intro q v c
    match q with
    | [] => rfl
    | _ :: _ => rfl
  | succ f ih =>
    intro q v c
    match q with
    | [] => rfl
    | (cur, depth) :: rest =>
      show searchLoop g (f + 1) ((cur, depth) :: rest) v
        = (searchLoopCount g c (f + 1) ((cur, depth) :: rest) v).1
      rw [searchLoop, searchLoopCount]
      split_ifs with h1 h2 h3
      · rfl
      · exact ih rest v (c + 1)
      · exact ih rest v (c + 1)
      · exact ih (rest ++ expandState g.M cur depth) (cur :: v) (c + 1)

/-- One chunk of the instrumented search loop advances it: if `n` pops from
a configuration land in machine state `(q', v', c')` without an early
answer, then running the loop with `n + fuel` budget equals running it with
`fuel` budget from that state (for positive remaining `fuel`). -/
theorem runPops_searchLoopCount (g : Game) :
    ∀ (n fuel : Nat) (q : List (List (List Color) × Nat))
      (v : List (List (List Color))) (c : Nat)
      (q' : List (List (List Color) × Nat)) (v' : List (List (List Color))) (c' : Nat),
      0 < fuel → runPops g n q v c = .inl (q', v', c') →
      searchLoopCount g c (n + fuel) q v = searchLoopCount g c' fuel q' v' := by
  intro n
  induction n with
  | zero =>
    intro fuel q v c q' v' c' hf h
    rw [runPops] at h
    rw [Sum.inl.injEq, Prod.mk.injEq, Prod.mk.injEq] at h
    obtain ⟨hq, hv, hc⟩ := h
    subst hq; subst hv; subst hc
    rw [Nat.zero_add]
  | succ m ih =>
    intro fuel q v c q' v' c' hf h
    match q with
    | [] =>
      rw [runPops] at h
      rw [Sum.inl.injEq, Prod.mk.injEq, Prod.mk.injEq] at h
      obtain ⟨hq, hv, hc⟩ := h
      subst hq; subst hv; subst hc
      rw [searchLoopCount, searchLoopCount,
        decide_eq_decide.mpr (show 0 < m + 1 + fuel ↔ 0 < fuel by omega)]
    | (cur, depth) :: rest =>
      rw [show m + 1 + fuel = (m + fuel) + 1 from by omega]
      rw [searchLoopCount]
      rw [runPops] at h
      by_cases h1 : isStateWon g cur
      · rw [if_pos h1] at h
        exact Sum.noConfusion h
      · rw [if_neg h1] at h
        rw [if_neg h1]
        by_cases h2 : depth ≥ 10
        · rw [if_pos h2] at h
          rw [if_pos h2]
          exact ih fuel rest v (c + 1) q' v' c' hf h
        · rw [if_neg h2] at h
          rw [if_neg h2]
          by_cases h3 : v.contains cur
          · rw [if_pos h3] at h
            rw [if_pos h3]
            exact ih fuel rest v (c + 1) q' v' c' hf h
          · rw [if_neg h3] at h
            rw [if_neg h3]
            exact ih fuel (rest ++ expandState g.M cur depth) (cur :: v) (c + 1)
              q' v' c' hf h

set_option maxRecDepth 1000000 in
set_option maxHeartbeats 40000000 in
/-- First 250 pops of the bounded search on searchBudgetGame reach the
recorded machine state with counter 250 and no answer. -/
theorem sbStage1 : runPops searchBudgetGame 250 [(searchBudgetGame.bottles, 0)] [] 0
    = .inl (sbQ250, sbV250, 250) := by decide

set_option maxRecDepth 1000000 in
set_option maxHeartbeats 40000000 in
/-- Pops 251 to 500 of the bounded search on searchBudgetGame reach the
recorded machine state with counter 500 and no answer. -/
theorem sbStage2 : runPops searchBudgetGame 250 sbQ250 sbV250 250
    = .inl (sbQ500, sbV500, 500) := by decide

set_option maxRecDepth 1000000 in
set_option maxHeartbeats 40000000 in
/-- Pops 501 to 750 of the bounded search on searchBudgetGame reach the
recorded machine state with counter 750 and no answer. -/
theorem sbStage3 : runPops searchBudgetGame 250 sbQ500 sbV500 500
    = .inl (sbQ750, sbV750, 750) := by decide

set_option maxRecDepth 1000000 in
set_option maxHeartbeats 40000000 in
/-- The last 250 budget units of the bounded search on searchBudgetGame run
out with the counter at 1000 (the full budget) and result false. -/
theorem sbStage4 : searchLoopCount searchBudgetGame 750 250 sbQ750 sbV750
    = (false, 1000) := by decide

/-- C7: refuted on the concrete state searchBudgetGame (five bottles of
capacity 3 holding one unit of color 0 each): the bounded BFS pops exactly
1000 states - its whole budget - without ever reaching a won state (the
instrumented loop ends with statesChecked = 1000 and no early true
return), yet checkSolvabilityWithSearch returns false, because the source
ends with `return statesChecked < maxStates`; the claim (and the
specification) say an exhausted budget conservatively yields true. -/
theorem search_budget_exhausted_eval :
    searchLoopCount searchBudgetGame 0 1000 [(searchBudgetGame.bottles, 0)] []
      = (false, 1000) ∧
    checkSolvabilityWithSearch searchBudgetGame = false := by
  have e1 : searchLoopCount searchBudgetGame 0 1000 [(searchBudgetGame.bottles, 0)] []
      = searchLoopCount searchBudgetGame 250 750 sbQ250 sbV250 := by
    have h := runPops_searchLoopCount searchBudgetGame 250 750
      [(searchBudgetGame.bottles, 0)] [] 0 sbQ250 sbV250 250 (by norm_num) sbStage1
    simpa using h
  have e2 : searchLoopCount searchBudgetGame 250 750 sbQ250 sbV250
      = searchLoopCount searchBudgetGame 500 500 sbQ500 sbV500 := by
    have h := runPops_searchLoopCount searchBudgetGame 250 500
      sbQ250 sbV250 250 sbQ500 sbV500 500 (by norm_num) sbStage2
    simpa using h
  have e3 : searchLoopCount searchBudgetGame 500 500 sbQ500 sbV500
      = searchLoopCount searchBudgetGame 750 250 sbQ750 sbV750 := by
    have h := runPops_searchLoopCount searchBudgetGame 250 250
      sbQ500 sbV500 500 sbQ750 sbV750 750 (by norm_num) sbStage3
    simpa using h
  refine ⟨by rw [e1, e2, e3]; exact sbStage4, ?_⟩
  show searchLoop searchBudgetGame 1000 [(searchBudgetGame.bottles, 0)] [] = false
  rw [searchLoop_eq_count searchBudgetGame 1000 [(searchBudgetGame.bottles, 0)] [] 0,
    e1, e2, e3, sbStage4]

end WaterBottle

